import Mathlib

/-!
Verification development for the morph-ui generation/validation/cache pipeline.

The TypeScript sources are shallowly embedded:
* `src/lib/security.ts` — the validator and sanitizer, including the exact
  JavaScript regular expressions (modelled by a small backtracking matcher with
  JavaScript semantics: leftmost match, greedy/lazy quantifiers, multiline
  anchors, and the `lastIndex` statefulness of `.test` on `g`-flagged regexes).
* `src/lib/ai-generator.ts` — the fallback component texts.
* `src/lib/session-manager.ts` — the in-process session registry.
* the AI response cache (`getCachedResponse` / `storeCachedResponse` /
  `deleteCachedResponse` / `cleanupExpiredCache`) over an abstract store.
* `src/utils/dataFetcher.ts` — the orchestrator `fetchAiGeneratedUiComponent`.
* `src/components/SecureAICodeRenderer.tsx` — the host-side sandbox message
  handler and its timeout fallbacks.

Times are in milliseconds (Nat). Strings are processed as `List Char`.
-/

set_option maxRecDepth 400000

namespace Morph

/-! ## A tiny regex engine with JavaScript matching semantics -/

/-- Regular-expression syntax: character classes, sequencing, alternation,
greedy star, lazy star, greedy option, multiline anchors. -/
inductive RE where
  | eps
  | cls (p : Char → Bool)
  | seq (a b : RE)
  | alt (a b : RE)
  | star (r : RE)
  | starL (r : RE)
  | opt (r : RE)
  | bol
  | eol

/-- Backtracking matcher in continuation-passing style, mirroring the order in
which a JavaScript engine explores alternatives (greedy quantifiers consume
first, lazy quantifiers yield first, `alt` tries the left branch first).
`prev` is the character before the current position (for `^` in `m` mode);
`n` counts the characters consumed so far by the current match attempt. -/
def mrun : Nat → RE → Nat → Option Char → List Char →
    (Nat → Option Char → List Char → Option (Nat × Option Char × List Char)) →
    Option (Nat × Option Char × List Char)
  | 0, _, _, _, _, _ => none
  | fuel + 1, re, n, prev, s, k =>
    match re with
    | .eps => k n prev s
    | .cls p =>
      match s with
      | [] => none
      | c :: rest => if p c then k (n + 1) (some c) rest else none
    | .seq a b => mrun fuel a n prev s (fun n' p' s' => mrun fuel b n' p' s' k)
    | .alt a b => (mrun fuel a n prev s k).orElse (fun _ => mrun fuel b n prev s k)
    | .opt r => (mrun fuel r n prev s k).orElse (fun _ => k n prev s)
    | .star r =>
      (mrun fuel r n prev s (fun n' p' s' => mrun fuel (.star r) n' p' s' k)).orElse
        (fun _ => k n prev s)
    | .starL r =>
      (k n prev s).orElse
        (fun _ => mrun fuel r n prev s (fun n' p' s' => mrun fuel (.starL r) n' p' s' k))
    | .bol =>
      match prev with
      | none => k n prev s
      | some c => if c == '\n' then k n prev s else none
    | .eol =>
      match s with
      | [] => k n prev s
      | c :: _ => if c == '\n' then k n prev s else none

/-- Size of a pattern (for the fuel bound). -/
def reSize : RE → Nat
  | .eps | .bol | .eol => 1
  | .cls _ => 1
  | .seq a b | .alt a b => reSize a + reSize b + 1
  | .star r | .starL r | .opt r => reSize r + 1

/-- Fuel bound: every step of `mrun` either consumes a character or walks the
(finite) pattern, so a linear budget suffices for the patterns in this file. -/
def fuelFor (re : RE) (s : List Char) : Nat :=
  (reSize re + 2) * (s.length + 2)

/-- Try to match `re` at the current position with the given fuel; on success
return the number of characters consumed, the character before the new
position, and the rest of the input after the match. -/
def attemptF (fuel : Nat) (re : RE) (prev : Option Char) (s : List Char) :
    Option (Nat × Option Char × List Char) :=
  mrun fuel re 0 prev s (fun n p r => some (n, p, r))

/-- First-character analysis: `headMust re = some p` means every match of
`re` is nonempty and begins with a character satisfying `p` (so a position
whose character refutes `p` can be skipped without running the matcher).
`none` means no such guarantee; anchors, empty-matching patterns and `eps`
yield `none`. -/
def headMust : RE → Option (Char → Bool)
  | .cls p => some p
  | .seq a _ => headMust a
  | .alt a b =>
    match headMust a, headMust b with
    | some p, some q => some (fun c => p c || q c)
    | _, _ => none
  | _ => none

/-- Soundness of the `headMust` fast path: a guaranteed first-character test
that fails means the match attempt fails. -/
theorem headMust_skip : ∀ (re : RE) (p : Char → Bool), headMust re = some p →
    ∀ (fuel n : Nat) (prev : Option Char) (c : Char) (r : List Char)
      (k : Nat → Option Char → List Char → Option (Nat × Option Char × List Char)),
      p c = false → mrun fuel re n prev (c :: r) k = none := by
  intro re
  induction re with
  | eps => intro p hp; simp [headMust] at hp
  | cls q =>
    intro p hp
    simp only [headMust, Option.some.injEq] at hp
    subst hp
    intro fuel n prev c r k hc
    cases fuel with
    | zero => rfl
    | succ fuel => simp only [mrun, hc, Bool.false_eq_true, if_false]
  | seq a b iha ihb =>
    intro p hp
    simp only [headMust] at hp
    intro fuel n prev c r k hc
    cases fuel with
    | zero => rfl
    | succ fuel =>
      simp only [mrun]
      exact iha p hp fuel n prev c r _ hc
  | alt a b iha ihb =>
    intro p hp
    simp only [headMust] at hp
    intro fuel n prev c r k hc
    cases fuel with
    | zero => rfl
    | succ fuel =>
      cases hA : headMust a with
      | none => rw [hA] at hp; simp at hp
      | some pa =>
        cases hB : headMust b with
        | none => rw [hA, hB] at hp; simp at hp
        | some pb =>
          rw [hA, hB] at hp
          simp only [Option.some.injEq] at hp
          subst hp
          simp only [Bool.or_eq_false_iff] at hc
          simp only [mrun, iha pa hA fuel n prev c r k hc.1,
            ihb pb hB fuel n prev c r k hc.2]
          rfl
  | star r ih => intro p hp; simp [headMust] at hp
  | starL r ih => intro p hp; simp [headMust] at hp
  | opt r ih => intro p hp; simp [headMust] at hp
  | bol => intro p hp; simp [headMust] at hp
  | eol => intro p hp; simp [headMust] at hp

/-- Leftmost search from absolute position `pos` with fixed fuel: returns
`(start, stop, prevAfter, restAfter)` of the first match. `hm` is
`headMust re`, passed in once so each position can be pre-filtered by the
first-character test. -/
def searchFuel (mf : Nat) (re : RE) (hm : Option (Char → Bool)) :
    Nat → Option Char → List Char →
    Option (Nat × Nat × Option Char × List Char)
  | pos, prev, [] =>
    match attemptF mf re prev [] with
    | some (n, p', rest) => some (pos, pos + n, p', rest)
    | none => none
  | pos, prev, c :: r =>
    match hm with
    | some p =>
      if p c then
        match attemptF mf re prev (c :: r) with
        | some (n, p', rest) => some (pos, pos + n, p', rest)
        | none => searchFuel mf re hm (pos + 1) (some c) r
      else searchFuel mf re hm (pos + 1) (some c) r
    | none =>
      match attemptF mf re prev (c :: r) with
      | some (n, p', rest) => some (pos, pos + n, p', rest)
      | none => searchFuel mf re hm (pos + 1) (some c) r

/-- Leftmost search (fuel and first-character filter computed once). -/
def searchFrom (re : RE) (pos : Nat) (prev : Option Char) (s : List Char) :
    Option (Nat × Nat × Option Char × List Char) :=
  searchFuel (fuelFor re s) re (headMust re) pos prev s

/-- Stepper for `searchFuel` that gives up after `k` advance steps, returning
either the intermediate scan state (left) or the scan's result (right). Used to
evaluate long scans in bounded-depth slices. -/
def scanK (mf : Nat) (re : RE) (hm : Option (Char → Bool)) :
    Nat → Nat → Option Char → List Char →
    (Nat × Option Char × List Char) ⊕ Option (Nat × Nat × Option Char × List Char)
  | 0, pos, prev, s => .inl (pos, prev, s)
  | _ + 1, pos, prev, [] =>
    match attemptF mf re prev [] with
    | some (n, p', rest) => .inr (some (pos, pos + n, p', rest))
    | none => .inr none
  | k + 1, pos, prev, c :: r =>
    match hm with
    | some p =>
      if p c then
        match attemptF mf re prev (c :: r) with
        | some (n, p', rest) => .inr (some (pos, pos + n, p', rest))
        | none => scanK mf re hm k (pos + 1) (some c) r
      else scanK mf re hm k (pos + 1) (some c) r
    | none =>
      match attemptF mf re prev (c :: r) with
      | some (n, p', rest) => .inr (some (pos, pos + n, p', rest))
      | none => scanK mf re hm k (pos + 1) (some c) r

/-- A suspended `scanK` run continues as the same `searchFuel` scan. -/
theorem scanK_inl (mf : Nat) (re : RE) (hm : Option (Char → Bool)) :
    ∀ (k pos : Nat) (prev : Option Char) (s : List Char) (pos' : Nat)
      (prev' : Option Char) (s' : List Char),
      scanK mf re hm k pos prev s = .inl (pos', prev', s') →
      searchFuel mf re hm pos prev s = searchFuel mf re hm pos' prev' s' := by
  intro k
  induction k with
  | zero =>
    intro pos prev s pos' prev' s' h
    simp only [scanK] at h
    cases h
    rfl
  | succ k ih =>
    intro pos prev s pos' prev' s' h
    cases s with
    | nil =>
      cases ha : attemptF mf re prev [] with
      | some v =>
        obtain ⟨n, p', rest⟩ := v
        simp only [scanK, ha] at h
        exact (Sum.inr_ne_inl h).elim
      | none =>
        simp only [scanK, ha] at h
        exact (Sum.inr_ne_inl h).elim
    | cons c r =>
      cases hm with
      | some p =>
        by_cases hpc : p c = true
        · cases ha : attemptF mf re prev (c :: r) with
          | some v =>
            obtain ⟨n, p', rest⟩ := v
            simp only [scanK, hpc, if_true, ha] at h
            exact (Sum.inr_ne_inl h).elim
          | none =>
            simp only [scanK, hpc, if_true, ha] at h
            simp only [searchFuel, hpc, if_true, ha]
            exact ih (pos + 1) (some c) r pos' prev' s' h
        · simp only [Bool.not_eq_true] at hpc
          simp only [scanK, hpc, Bool.false_eq_true, if_false] at h
          simp only [searchFuel, hpc, Bool.false_eq_true, if_false]
          exact ih (pos + 1) (some c) r pos' prev' s' h
      | none =>
        cases ha : attemptF mf re prev (c :: r) with
        | some v =>
          obtain ⟨n, p', rest⟩ := v
          simp only [scanK, ha] at h
          exact (Sum.inr_ne_inl h).elim
        | none =>
          simp only [scanK, ha] at h
          simp only [searchFuel, ha]
          exact ih (pos + 1) (some c) r pos' prev' s' h

/-- A finished `scanK` run computes the `searchFuel` scan's result. -/
theorem scanK_inr (mf : Nat) (re : RE) (hm : Option (Char → Bool)) :
    ∀ (k pos : Nat) (prev : Option Char) (s : List Char)
      (res : Option (Nat × Nat × Option Char × List Char)),
      scanK mf re hm k pos prev s = .inr res →
      searchFuel mf re hm pos prev s = res := by
  intro k
  induction k with
  | zero =>
    intro pos prev s res h
    simp only [scanK] at h
    exact (Sum.inl_ne_inr h).elim
  | succ k ih =>
    intro pos prev s res h
    cases s with
    | nil =>
      cases ha : attemptF mf re prev [] with
      | some v =>
        obtain ⟨n, p', rest⟩ := v
        simp only [scanK, ha] at h
        simp only [searchFuel, ha]
        exact Sum.inr.inj h
      | none =>
        simp only [scanK, ha] at h
        simp only [searchFuel, ha]
        exact Sum.inr.inj h
    | cons c r =>
      cases hm with
      | some p =>
        by_cases hpc : p c = true
        · cases ha : attemptF mf re prev (c :: r) with
          | some v =>
            obtain ⟨n, p', rest⟩ := v
            simp only [scanK, hpc, if_true, ha] at h
            simp only [searchFuel, hpc, if_true, ha]
            exact Sum.inr.inj h
          | none =>
            simp only [scanK, hpc, if_true, ha] at h
            simp only [searchFuel, hpc, if_true, ha]
            exact ih (pos + 1) (some c) r res h
        · simp only [Bool.not_eq_true] at hpc
          simp only [scanK, hpc, Bool.false_eq_true, if_false] at h
          simp only [searchFuel, hpc, Bool.false_eq_true, if_false]
          exact ih (pos + 1) (some c) r res h
      | none =>
        cases ha : attemptF mf re prev (c :: r) with
        | some v =>
          obtain ⟨n, p', rest⟩ := v
          simp only [scanK, ha] at h
          simp only [searchFuel, ha]
          exact Sum.inr.inj h
        | none =>
          simp only [scanK, ha] at h
          simp only [searchFuel, ha]
          exact ih (pos + 1) (some c) r res h
/-- Skip `n` characters, tracking the character before the new position. -/
def dropAt : Nat → Option Char → List Char → Option Char × List Char
  | 0, prev, s => (prev, s)
  | _ + 1, prev, [] => (prev, [])
  | n + 1, _, c :: r => dropAt n (some c) r

/-- `regex.test(s)` for a `g`-flagged JavaScript regex: search starts at the
regex's persistent `lastIndex`; a hit advances `lastIndex` past the match, a
miss resets it to `0`. Returns `(result, new lastIndex)`. -/
def testG (re : RE) (s : List Char) (lastIndex : Nat) : Bool × Nat :=
  if lastIndex > s.length then (false, 0)
  else
    let pr := dropAt lastIndex none s
    match searchFrom re lastIndex pr.1 pr.2 with
    | some (_, stop, _, _) => (true, stop)
    | none => (false, 0)

/-- `regex.test(s)` for a regex without the `g` flag (stateless). -/
def testP (re : RE) (s : List Char) : Bool :=
  (searchFrom re 0 none s).isSome

/-- Match-count loop (the JavaScript global scan: count a match and continue
after it, advancing one character when the match was empty). `acc` is the
running count, the next argument the scan fuel (one unit per loop step);
`hm` is the `headMust` first-character filter. -/
def countFuelA (mf : Nat) (re : RE) (hm : Option (Char → Bool)) :
    Nat → Nat → Option Char → List Char → Nat
  | acc, 0, _, _ => acc
  | acc, fuel + 1, prev, [] =>
    match attemptF mf re prev [] with
    | some _ => acc + 1
    | none => acc
  | acc, fuel + 1, prev, c :: r =>
    match hm with
    | some p =>
      if p c then
        match attemptF mf re prev (c :: r) with
        | some (0, _, _) => countFuelA mf re hm (acc + 1) fuel (some c) r
        | some (_ + 1, p', rest) => countFuelA mf re hm (acc + 1) fuel p' rest
        | none => countFuelA mf re hm acc fuel (some c) r
      else countFuelA mf re hm acc fuel (some c) r
    | none =>
      match attemptF mf re prev (c :: r) with
      | some (0, _, _) => countFuelA mf re hm (acc + 1) fuel (some c) r
      | some (_ + 1, p', rest) => countFuelA mf re hm (acc + 1) fuel p' rest
      | none => countFuelA mf re hm acc fuel (some c) r

/-- Number of matches of `s.match(re)` for a `g`-flagged regex. -/
def countM (re : RE) (prev : Option Char) (s : List Char) : Nat :=
  countFuelA (fuelFor re s) re (headMust re) 0 (s.length + 1) prev s

/-- Stepper for `countFuelA`, as `scanK` is for `searchFuel`. -/
def countK (mf : Nat) (re : RE) (hm : Option (Char → Bool)) :
    Nat → Nat → Nat → Option Char → List Char →
    (Nat × Nat × Option Char × List Char) ⊕ Nat
  | 0, acc, fuel, prev, s => .inl (acc, fuel, prev, s)
  | _ + 1, acc, 0, _, _ => .inr acc
  | _ + 1, acc, fuel + 1, prev, [] =>
    match attemptF mf re prev [] with
    | some _ => .inr (acc + 1)
    | none => .inr acc
  | k + 1, acc, fuel + 1, prev, c :: r =>
    match hm with
    | some p =>
      if p c then
        match attemptF mf re prev (c :: r) with
        | some (0, _, _) => countK mf re hm k (acc + 1) fuel (some c) r
        | some (_ + 1, p', rest) => countK mf re hm k (acc + 1) fuel p' rest
        | none => countK mf re hm k acc fuel (some c) r
      else countK mf re hm k acc fuel (some c) r
    | none =>
      match attemptF mf re prev (c :: r) with
      | some (0, _, _) => countK mf re hm k (acc + 1) fuel (some c) r
      | some (_ + 1, p', rest) => countK mf re hm k (acc + 1) fuel p' rest
      | none => countK mf re hm k acc fuel (some c) r

/-- A suspended `countK` run continues as the same `countFuelA` loop. -/
theorem countK_inl (mf : Nat) (re : RE) (hm : Option (Char → Bool)) :
    ∀ (k acc fuel : Nat) (prev : Option Char) (s : List Char) (acc' fuel' : Nat)
      (prev' : Option Char) (s' : List Char),
      countK mf re hm k acc fuel prev s = .inl (acc', fuel', prev', s') →
      countFuelA mf re hm acc fuel prev s = countFuelA mf re hm acc' fuel' prev' s' := by
  intro k
  induction k with
  | zero =>
    intro acc fuel prev s acc' fuel' prev' s' h
    simp only [countK] at h
    cases h
    rfl
  | succ k ih =>
    intro acc fuel prev s acc' fuel' prev' s' h
    cases fuel with
    | zero =>
      simp only [countK] at h
      exact (Sum.inr_ne_inl h).elim
    | succ fuel =>
      cases s with
      | nil =>
        cases ha : attemptF mf re prev [] with
        | some v =>
          simp only [countK, ha] at h
          exact (Sum.inr_ne_inl h).elim
        | none =>
          simp only [countK, ha] at h
          exact (Sum.inr_ne_inl h).elim
      | cons c r =>
        cases hm with
        | some p =>
          by_cases hpc : p c = true
          · cases ha : attemptF mf re prev (c :: r) with
            | some v =>
              obtain ⟨n, p', rest⟩ := v
              cases n with
              | zero =>
                simp only [countK, hpc, if_true, ha] at h
                simp only [countFuelA, hpc, if_true, ha]
                exact ih (acc + 1) fuel (some c) r acc' fuel' prev' s' h
              | succ n =>
                simp only [countK, hpc, if_true, ha] at h
                simp only [countFuelA, hpc, if_true, ha]
                exact ih (acc + 1) fuel p' rest acc' fuel' prev' s' h
            | none =>
              simp only [countK, hpc, if_true, ha] at h
              simp only [countFuelA, hpc, if_true, ha]
              exact ih acc fuel (some c) r acc' fuel' prev' s' h
          · simp only [Bool.not_eq_true] at hpc
            simp only [countK, hpc, Bool.false_eq_true, if_false] at h
            simp only [countFuelA, hpc, Bool.false_eq_true, if_false]
            exact ih acc fuel (some c) r acc' fuel' prev' s' h
        | none =>
          cases ha : attemptF mf re prev (c :: r) with
          | some v =>
            obtain ⟨n, p', rest⟩ := v
            cases n with
            | zero =>
              simp only [countK, ha] at h
              simp only [countFuelA, ha]
              exact ih (acc + 1) fuel (some c) r acc' fuel' prev' s' h
            | succ n =>
              simp only [countK, ha] at h
              simp only [countFuelA, ha]
              exact ih (acc + 1) fuel p' rest acc' fuel' prev' s' h
          | none =>
            simp only [countK, ha] at h
            simp only [countFuelA, ha]
            exact ih acc fuel (some c) r acc' fuel' prev' s' h

/-- A finished `countK` run computes the `countFuelA` loop's result. -/
theorem countK_inr (mf : Nat) (re : RE) (hm : Option (Char → Bool)) :
    ∀ (k acc fuel : Nat) (prev : Option Char) (s : List Char) (res : Nat),
      countK mf re hm k acc fuel prev s = .inr res →
      countFuelA mf re hm acc fuel prev s = res := by
  intro k
  induction k with
  | zero =>
    intro acc fuel prev s res h
    simp only [countK] at h
    exact (Sum.inl_ne_inr h).elim
  | succ k ih =>
    intro acc fuel prev s res h
    cases fuel with
    | zero =>
      simp only [countK] at h
      simp only [countFuelA]
      exact Sum.inr.inj h
    | succ fuel =>
      cases s with
      | nil =>
        cases ha : attemptF mf re prev [] with
        | some v =>
          simp only [countK, ha] at h
          simp only [countFuelA, ha]
          exact Sum.inr.inj h
        | none =>
          simp only [countK, ha] at h
          simp only [countFuelA, ha]
          exact Sum.inr.inj h
      | cons c r =>
        cases hm with
        | some p =>
          by_cases hpc : p c = true
          · cases ha : attemptF mf re prev (c :: r) with
            | some v =>
              obtain ⟨n, p', rest⟩ := v
              cases n with
              | zero =>
                simp only [countK, hpc, if_true, ha] at h
                simp only [countFuelA, hpc, if_true, ha]
                exact ih (acc + 1) fuel (some c) r res h
              | succ n =>
                simp only [countK, hpc, if_true, ha] at h
                simp only [countFuelA, hpc, if_true, ha]
                exact ih (acc + 1) fuel p' rest res h
            | none =>
              simp only [countK, hpc, if_true, ha] at h
              simp only [countFuelA, hpc, if_true, ha]
              exact ih acc fuel (some c) r res h
          · simp only [Bool.not_eq_true] at hpc
            simp only [countK, hpc, Bool.false_eq_true, if_false] at h
            simp only [countFuelA, hpc, Bool.false_eq_true, if_false]
            exact ih acc fuel (some c) r res h
        | none =>
          cases ha : attemptF mf re prev (c :: r) with
          | some v =>
            obtain ⟨n, p', rest⟩ := v
            cases n with
            | zero =>
              simp only [countK, ha] at h
              simp only [countFuelA, ha]
              exact ih (acc + 1) fuel (some c) r res h
            | succ n =>
              simp only [countK, ha] at h
              simp only [countFuelA, ha]
              exact ih (acc + 1) fuel p' rest res h
          | none =>
            simp only [countK, ha] at h
            simp only [countFuelA, ha]
            exact ih acc fuel (some c) r res h
/-- Replace loop (JavaScript global `replace` with a constant replacement):
on a nonempty match emit the replacement and continue after it; on an empty
match emit the replacement, copy one character and continue. -/
def replFuel (mf : Nat) (re : RE) (repl : List Char) :
    Nat → Option Char → List Char → List Char
  | 0, _, s => s
  | fuel + 1, prev, s =>
    match attemptF mf re prev s with
    | some (0, _, _) =>
      match s with
      | [] => repl
      | c :: r => repl ++ c :: replFuel mf re repl fuel (some c) r
    | some (n + 1, p', rest) => repl ++ replFuel mf re repl fuel p' rest
    | none =>
      match s with
      | [] => []
      | c :: r => c :: replFuel mf re repl fuel (some c) r

/-- `s.replace(re, repl)` for a `g`-flagged regex with a constant replacement
string (the only kind used in `sanitizeCode`). -/
def replA (re : RE) (repl : List Char) (prev : Option Char) (s : List Char) :
    List Char :=
  replFuel (fuelFor re s) re repl (s.length + 1) prev s

/-! ### Character classes and literals -/

/-- JavaScript `\s`. -/
def jsWs (c : Char) : Bool :=
  c == ' ' || c == '\t' || c == '\n' || c == '\r' ||
  c == Char.ofNat 11 || c == Char.ofNat 12 || c == Char.ofNat 160

/-- JavaScript `\w`. -/
def jsWord (c : Char) : Bool :=
  c.isAlpha || c.isDigit || c == '_'

/-- JavaScript `.` (anything but a line terminator). -/
def jsDot (c : Char) : Bool :=
  !(c == '\n' || c == '\r' || c == Char.ofNat 8232 || c == Char.ofNat 8233)

/-- Case-sensitive literal character. -/
def lit (c : Char) : RE := .cls (fun x => x == c)

/-- Case-insensitive literal character (`i` flag); `c` is given in lowercase,
and the input matches if it equals either case variant. -/
def litI (c : Char) : RE := .cls (fun x => x == c || x == c.toUpper)

/-- Sequence a list of regexes. -/
def seqL (rs : List RE) : RE := rs.foldr .seq .eps

/-- Case-sensitive literal string. -/
def lstr (s : String) : RE := seqL (s.data.map lit)

/-- Case-insensitive literal string (`i` flag); `s` is given in lowercase. -/
def lstrI (s : String) : RE := seqL (s.data.map litI)

def wsStar : RE := .star (.cls jsWs)

def wsPlus : RE := .seq (.cls jsWs) wsStar

/-- The quote class `['"]` plus backtick, as used by the dangerous patterns. -/
def quoteCls : RE := .cls (fun c => c == Char.ofNat 39 || c == '"' || c == Char.ofNat 96)


/-! ## security.ts — the Validator and Sanitizer -/

/-- `lib/types.ts` `SecurityValidationResult` (code text as `List Char`). -/
structure SecurityValidationResult where
  isValid : Bool
  errors : List String
  sanitizedCode : Option (List Char)

/-- `/eval\s*\(/gi` -/
def dpEval : RE := seqL [lstrI "eval", wsStar, lit '(']

/-- `/Function\s*\(/gi` -/
def dpFunction : RE := seqL [lstrI "function", wsStar, lit '(']

/-- `/setTimeout\s*\(\s*['\"`]/gi` -/
def dpSetTimeout : RE := seqL [lstrI "settimeout", wsStar, lit '(', wsStar, quoteCls]

/-- `/setInterval\s*\(\s*['\"`]/gi` -/
def dpSetInterval : RE := seqL [lstrI "setinterval", wsStar, lit '(', wsStar, quoteCls]

/-- `/document\.write/gi` -/
def dpDocumentWrite : RE := lstrI "document.write"

/-- `/document\.cookie/gi` -/
def dpDocumentCookie : RE := lstrI "document.cookie"

/-- `/window\.open/gi` -/
def dpWindowOpen : RE := lstrI "window.open"

/-- `/global\./gi` -/
def dpGlobal : RE := lstrI "global."

/-- `/process\./gi` -/
def dpProcess : RE := lstrI "process."

/-- `/require\s*\(/gi` -/
def dpRequire : RE := seqL [lstrI "require", wsStar, lit '(']

/-- `/XMLHttpRequest/gi` -/
def dpXMLHttpRequest : RE := lstrI "xmlhttprequest"

/-- `/localStorage/gi` -/
def dpLocalStorage : RE := lstrI "localstorage"

/-- `/sessionStorage/gi` -/
def dpSessionStorage : RE := lstrI "sessionstorage"

/-- `/indexedDB/gi` -/
def dpIndexedDB : RE := lstrI "indexeddb"

/-- `/navigator\.geolocation/gi` -/
def dpNavigatorGeolocation : RE := lstrI "navigator.geolocation"

/-- `/__dirname/gi` -/
def dpDirname : RE := lstrI "__dirname"

/-- `/__filename/gi` -/
def dpFilename : RE := lstrI "__filename"

/-- `/fs\./gi` -/
def dpFs : RE := lstrI "fs."

/-- `/path\./gi` -/
def dpPath : RE := lstrI "path."

/-- `/os\./gi` -/
def dpOs : RE := lstrI "os."

/-- `/crypto\./gi` -/
def dpCrypto : RE := lstrI "crypto."

/-- `/child_process/gi` -/
def dpChildProcess : RE := lstrI "child_process"

/-- `/innerHTML\s*=/gi` -/
def dpInnerHTML : RE := seqL [lstrI "innerhtml", wsStar, lit '=']

/-- `/outerHTML\s*=/gi` -/
def dpOuterHTML : RE := seqL [lstrI "outerhtml", wsStar, lit '=']

/-- `/dangerouslySetInnerHTML/gi` -/
def dpDangerouslySetInnerHTML : RE := lstrI "dangerouslysetinnerhtml"

/-- `/javascript:/gi` -/
def dpJavascriptScheme : RE := lstrI "javascript:"

/-- `/vbscript:/gi` -/
def dpVbscriptScheme : RE := lstrI "vbscript:"

/-- `/data:.*script/gi` -/
def dpDataScheme : RE := seqL [lstrI "data:", .star (.cls jsDot), lstrI "script"]

/-- `/on\w+\s*=\s*['\"`]/gi` -/
def dpInlineHandler : RE := seqL [litI 'o', litI 'n', .cls jsWord, .star (.cls jsWord), wsStar, lit '=', wsStar, quoteCls]

/-- `/\<script/gi` -/
def dpScriptTag : RE := seqL [lit '<', lstrI "script"]

/-- `/\<iframe/gi` -/
def dpIframeTag : RE := seqL [lit '<', lstrI "iframe"]

/-- `/\<object/gi` -/
def dpObjectTag : RE := seqL [lit '<', lstrI "object"]

/-- `/\<embed/gi` -/
def dpEmbedTag : RE := seqL [lit '<', lstrI "embed"]

/-- `DANGEROUS_PATTERNS` from `security.ts`, in source order, each paired with
its `source` text (used verbatim in the violation messages). All are `gi`. -/
def dangerousPatterns : List (String × RE) := [
  ("eval\\s*\\(", dpEval),
  ("Function\\s*\\(", dpFunction),
  ("setTimeout\\s*\\(\\s*['\"`]", dpSetTimeout),
  ("setInterval\\s*\\(\\s*['\"`]", dpSetInterval),
  ("document\\.write", dpDocumentWrite),
  ("document\\.cookie", dpDocumentCookie),
  ("window\\.open", dpWindowOpen),
  ("global\\.", dpGlobal),
  ("process\\.", dpProcess),
  ("require\\s*\\(", dpRequire),
  ("XMLHttpRequest", dpXMLHttpRequest),
  ("localStorage", dpLocalStorage),
  ("sessionStorage", dpSessionStorage),
  ("indexedDB", dpIndexedDB),
  ("navigator\\.geolocation", dpNavigatorGeolocation),
  ("__dirname", dpDirname),
  ("__filename", dpFilename),
  ("fs\\.", dpFs),
  ("path\\.", dpPath),
  ("os\\.", dpOs),
  ("crypto\\.", dpCrypto),
  ("child_process", dpChildProcess),
  ("innerHTML\\s*=", dpInnerHTML),
  ("outerHTML\\s*=", dpOuterHTML),
  ("dangerouslySetInnerHTML", dpDangerouslySetInnerHTML),
  ("javascript:", dpJavascriptScheme),
  ("vbscript:", dpVbscriptScheme),
  ("data:.*script", dpDataScheme),
  ("on\\w+\\s*=\\s*['\"`]", dpInlineHandler),
  ("\\<script", dpScriptTag),
  ("\\<iframe", dpIframeTag),
  ("\\<object", dpObjectTag),
  ("\\<embed", dpEmbedTag)]

/-- `/function\s+GeneratedDataComponent/` -/
def rqFunctionDecl : RE := seqL [lstr "function", wsPlus, lstr "GeneratedDataComponent"]

/-- `/(return\s*\(|return\s+\<|return\s+React)/` -/
def rqReturn : RE :=
  .alt (seqL [lstr "return", wsStar, lit '('])
    (.alt (seqL [lstr "return", wsPlus, lit '<'])
      (seqL [lstr "return", wsPlus, lstr "React"]))

/-- `REQUIRED_PATTERNS` from `security.ts` (no flags, case-sensitive). -/
def requiredPatterns : List (String × RE) := [
  ("function\\s+GeneratedDataComponent", rqFunctionDecl),
  ("(return\\s*\\(|return\\s+\\<|return\\s+React)", rqReturn)]

/-- `/\<[a-zA-Z][^>]*[^\/]>/g` (the `openTags` counter). -/
def openTagRE : RE :=
  seqL [lit '<', .cls Char.isAlpha, .star (.cls (fun c => !(c == '>'))),
        .cls (fun c => !(c == '/')), lit '>']

/-- `/\<\/[a-zA-Z][^>]*>/g` (the `closeTags` counter). -/
def closeTagRE : RE :=
  seqL [lit '<', lit '/', .cls Char.isAlpha, .star (.cls (fun c => !(c == '>'))), lit '>']

/-- `/\<[a-zA-Z][^>]*\/>/g` (the `selfClosingTags` counter). -/
def selfCloseRE : RE :=
  seqL [lit '<', .cls Char.isAlpha, .star (.cls (fun c => !(c == '>'))), lit '/', lit '>']

/-- Does `needle` occur at the head of the list? -/
def startsWithL : List Char → List Char → Bool
  | [], _ => true
  | _ :: _, [] => false
  | a :: as, b :: bs => a == b && startsWithL as bs

/-- JavaScript `String.prototype.includes`. -/
def containsL (needle : List Char) : List Char → Bool
  | [] => needle.isEmpty
  | c :: r => startsWithL needle (c :: r) || containsL needle r

/-- The dangerous-pattern loop of `validateComponentCode`. The module-level
regexes are `g`-flagged, so each carries a persistent `lastIndex` across calls;
`st` is the list of those `lastIndex` values, in pattern order. -/
def runDangerous : List (String × RE) → List Nat → List Char → List String × List Nat
  | [], _, _ => ([], [])
  | (src, re) :: ps, st, code =>
    let (hit, li) := testG re code (st.headD 0)
    let (errs, st') := runDangerous ps st.tail code
    ((if hit then ["Dangerous pattern detected: " ++ src] else []) ++ errs, li :: st')

/-- The required-pattern loop of `validateComponentCode` (stateless). -/
def runRequired : List (String × RE) → List Char → List String
  | [], _ => []
  | (src, re) :: ps, code =>
    (if testP re code then [] else ["Required pattern missing: " ++ src]) ++
      runRequired ps code

/-- `/^```[a-zA-Z]*\n?/gm` -/
def fence1RE : RE :=
  seqL [.bol, lstr "```", .star (.cls Char.isAlpha), .opt (lit '\n')]

/-- `/\n?```$/gm` -/
def fence2RE : RE := seqL [.opt (lit '\n'), lstr "```", .eol]

/-- `/^```\n?/gm` -/
def fence3RE : RE := seqL [.bol, lstr "```", .opt (lit '\n')]

/-- `/\n?```/gm` -/
def fence4RE : RE := seqL [.opt (lit '\n'), lstr "```"]

/-- `/\/\*[\s\S]*?\*\//g` -/
def blockCommentRE : RE :=
  seqL [lit '/', lit '*', .starL (.cls (fun _ => true)), lit '*', lit '/']

/-- `/\/\/.*$/gm` -/
def lineCommentRE : RE := seqL [lit '/', lit '/', .star (.cls jsDot), .eol]

/-- `/(function\s+GeneratedDataComponent\s*\([^)]*\)\s*\{[\s\S]*)/` -/
def funcExtractRE : RE :=
  seqL [lstr "function", wsPlus, lstr "GeneratedDataComponent", wsStar,
        lit '(', .star (.cls (fun c => !(c == ')'))), lit ')', wsStar,
        lit (Char.ofNat 123), .star (.cls (fun _ => true))]

/-- `/^export\s+(default\s+)?/gm` -/
def exportRE : RE :=
  seqL [.bol, lstr "export", wsPlus, .opt (seqL [lstr "default", wsPlus])]

/-- `/^import\s+.*$/gm` -/
def importRE : RE :=
  seqL [.bol, lstr "import", wsPlus, .star (.cls jsDot), .eol]

/-- `/^\s*$/gm` -/
def emptyLineRE : RE := seqL [.bol, wsStar, .eol]

/-- `/\n\n+/g` -/
def nlnlRE : RE := seqL [lit '\n', lit '\n', .star (lit '\n')]

/-- Index of the first occurrence of `t` (JavaScript `indexOf`). -/
def idxOf (t : Char) : List Char → Option Nat
  | [] => none
  | c :: r => if c == t then some 0 else (idxOf t r).map (· + 1)

/-- The brace-matching loop of `sanitizeCode`: walk `functionCode` from its
first brace, tracking brace depth and naive string-literal state (a quote is
ignored when the previous character is a backslash), and return the index of
the brace closing the function, if found. Arguments: remaining characters,
previous character, `braceCount`, `inString`, `stringChar` (`Char.ofNat 0`
models the cleared state `''`), current index. -/
def braceScan : List Char → Option Char → Int → Bool → Char → Nat → Option Nat
  | [], _, _, _, _, _ => none
  | c :: rest, prev, bc, inStr, sc, i =>
    let isQuote := c == '"' || c == Char.ofNat 39 || c == Char.ofNat 96
    let escaped := prev == some '\\'
    let upd : Bool × Char :=
      if isQuote && !escaped then
        if !inStr then (true, c)
        else if c == sc then (false, Char.ofNat 0)
        else (inStr, sc)
      else (inStr, sc)
    if !upd.1 then
      if c == Char.ofNat 123 then braceScan rest (some c) (bc + 1) upd.1 upd.2 (i + 1)
      else if c == Char.ofNat 125 then
        if bc - 1 == 0 then some i
        else braceScan rest (some c) (bc - 1) upd.1 upd.2 (i + 1)
      else braceScan rest (some c) bc upd.1 upd.2 (i + 1)
    else braceScan rest (some c) bc upd.1 upd.2 (i + 1)

/-- JavaScript `String.prototype.trim`. -/
def trimBoth (s : List Char) : List Char :=
  ((s.dropWhile jsWs).reverse.dropWhile jsWs).reverse

/-- `sanitizeCode` from `security.ts`: strip code fences, strip comments,
extract the `GeneratedDataComponent` function by brace matching, strip
`export`/`import` lines, collapse blank lines, trim. -/
def sanitizeCode (code : List Char) : List Char :=
  let s1 := replA fence1RE [] none code
  let s2 := replA fence2RE [] none s1
  let s3 := replA fence3RE [] none s2
  let s4 := replA fence4RE [] none s3
  let s5 := replA blockCommentRE [] none s4
  let s6 := replA lineCommentRE [] none s5
  let s7 :=
    match searchFrom funcExtractRE 0 none s6 with
    | none => s6
    | some (start, _, _, _) =>
      let functionCode := s6.drop start
      match idxOf (Char.ofNat 123) functionCode with
      | none => s6
      | some i0 =>
        let prev := (functionCode.take i0).getLast?
        match braceScan (functionCode.drop i0) prev 0 false (Char.ofNat 0) i0 with
        | some endIndex => functionCode.take (endIndex + 1)
        | none => s6
  let s8 := replA exportRE [] none s7
  let s9 := replA importRE [] none s8
  let s10 := replA emptyLineRE [] none s9
  let s11 := replA nlnlRE ['\n', '\n'] none s10
  trimBoth s11

/-- All `lastIndex` values zero: the state of the module-level regexes before
the first call in the process. -/
def freshRegexState : List Nat := List.replicate 33 0

/-- `validateComponentCode` from `security.ts`. Because the dangerous patterns
are `g`-flagged module-level regexes, the function threads their `lastIndex`
state: it takes the state before the call and returns the state after. -/
def validateComponentCode (code : List Char) (st : List Nat) :
    SecurityValidationResult × List Nat :=
  let dang := runDangerous dangerousPatterns st code
  let requiredErrs := runRequired requiredPatterns code
  let openTags := countM openTagRE none code
  let closeTags := countM closeTagRE none code
  let _selfClosingTags := countM selfCloseRE none code
  let jsxErrs :=
    if ((openTags : Int) - (closeTags : Int)).natAbs > 2 then
      ["JSX structure appears malformed - check for unclosed tags"]
    else []
  let nameErrs :=
    if containsL ("function GeneratedDataComponent".data) code then []
    else ["Component must be named exactly \"GeneratedDataComponent\""]
  let errors := dang.1 ++ requiredErrs ++ jsxErrs ++ nameErrs
  let isValid := errors.isEmpty
  ({ isValid := isValid, errors := errors,
     sanitizedCode := if isValid then some (sanitizeCode code) else none }, dang.2)


/-! ## lib/types.ts -/

/-- The `metadata` field of `AIComponentResponse`. -/
structure AIComponentMetadata where
  generatedAt : String
  dataSource : String
  cacheKey : String
deriving DecidableEq

/-- `AIComponentResponse` from `lib/types.ts` (component text as `List Char`). -/
structure AIComponentResponse where
  success : Bool
  component : List Char
  componentName : String
  error : Option String
  metadata : Option AIComponentMetadata
deriving DecidableEq

/-- JavaScript truthiness of an optional string (`undefined` and `""` are
falsy). -/
def jsTruthyS : Option String → Bool
  | none => false
  | some s => s != ""

/-! ## lib/session-manager.ts -/

/-- Association-list update with JavaScript `Map.set` semantics: replace in
place if the key exists, else append. -/
def assocSet {α : Type} : List (String × α) → String → α → List (String × α)
  | [], k, v => [(k, v)]
  | (k', v') :: rest, k, v =>
    if k' == k then (k, v) :: rest else (k', v') :: assocSet rest k v

/-- Association-list lookup (JavaScript `Map.get`). -/
def assocGet {α : Type} : List (String × α) → String → Option α
  | [], _ => none
  | (k', v) :: rest, k => if k' == k then some v else assocGet rest k

/-- `SessionData` from `session-manager.ts` (`apiEndpoints` is the
endpoint → cacheKey map). -/
structure SessionData where
  sessionId : String
  apiEndpoints : List (String × String)
  createdAt : Nat
  lastAccessedAt : Nat
deriving DecidableEq

/-- The `sessions` map of the `SessionManager` singleton. -/
def SMState := List (String × SessionData)

/-- `SESSION_EXPIRY_MS = 24 * 60 * 60 * 1000`. -/
def SESSION_EXPIRY_MS : Nat := 24 * 60 * 60 * 1000

/-- `isValidSession`: the session exists and its idle time is strictly below
the expiry. -/
def isValidSession (st : SMState) (sessionId : String) (now : Nat) : Bool :=
  match assocGet st sessionId with
  | none => false
  | some s => now - s.lastAccessedAt < SESSION_EXPIRY_MS

/-- `getSessionId`: read the session cookie; return it only when it is a
nonempty string naming a valid (unexpired) session. -/
def getSessionId (st : SMState) (cookie : Option String) (now : Nat) :
    Option String :=
  match cookie with
  | none => none
  | some sid => if sid != "" && isValidSession st sid now then some sid else none

/-- `generateSessionId`: mint `newId` and insert a fresh session record. -/
def generateSessionId (st : SMState) (newId : String) (now : Nat) :
    String × SMState :=
  (newId, assocSet st newId ⟨newId, [], now, now⟩)

/-- `storeApiEndpointForSession`: get-or-create the session, upsert the
endpoint → cacheKey binding, touch `lastAccessedAt`. -/
def storeApiEndpointForSession (st : SMState) (sessionId apiEndpoint cacheKey : String)
    (now : Nat) : SMState :=
  let session :=
    match assocGet st sessionId with
    | some s => s
    | none => ⟨sessionId, [], now, now⟩
  assocSet st sessionId
    { session with
      apiEndpoints := assocSet session.apiEndpoints apiEndpoint cacheKey
      lastAccessedAt := now }

/-- `getCacheKeyForEndpoint`: look the session up (no expiry check in the
source), touch `lastAccessedAt`, and return the binding. -/
def getCacheKeyForEndpoint (st : SMState) (sessionId apiEndpoint : String)
    (now : Nat) : Option String × SMState :=
  match assocGet st sessionId with
  | none => (none, st)
  | some s =>
    (assocGet s.apiEndpoints apiEndpoint,
     assocSet st sessionId { s with lastAccessedAt := now })

/-- `cleanupExpiredSessions`: the hourly sweep, deleting sessions whose idle
time reached the expiry. -/
def cleanupExpiredSessions (st : SMState) (now : Nat) : SMState :=
  st.filter (fun kv => now - kv.2.lastAccessedAt < SESSION_EXPIRY_MS)

/-! ## The AI response cache (`AIResponseCache`) -/

/-- One document of the `ai_responses` collection. `createdAt` comes from the
schema's `timestamps: true` (set on insert, kept on update). -/
structure CacheEntry where
  apiEndpoint : String
  sessionId : Option String
  cacheKey : String
  aiResponse : AIComponentResponse
  accessCount : Nat
  createdAt : Nat
  lastAccessedAt : Nat
  expiresAt : Option Nat
deriving DecidableEq

/-- `CacheOptions` from the cache module. -/
structure CacheOptions where
  sessionId : Option String
  cacheKey : String
  apiEndpoint : String
  ttlHours : Option Nat

/-- The metadata reported on a cache hit. -/
structure CacheMetadata where
  createdAt : Nat
  accessCount : Nat
  lastAccessedAt : Nat
deriving DecidableEq

/-- `CacheResult` from the cache module. -/
structure CacheResult where
  found : Bool
  data : Option AIComponentResponse
  metadata : Option CacheMetadata
deriving DecidableEq

/-- `DEFAULT_TTL_HOURS = 24`. -/
def DEFAULT_TTL_HOURS : Nat := 24

/-- `options.ttlHours || DEFAULT_TTL_HOURS` (`0` and `undefined` both fall
back to the default, by JavaScript truthiness). -/
def effTtlHours : Option Nat → Nat
  | none => DEFAULT_TTL_HOURS
  | some 0 => DEFAULT_TTL_HOURS
  | some (n + 1) => n + 1

/-- The `findOne` query of `getCachedResponse`: `apiEndpoint` always,
`sessionId` only when truthy — and `cacheKey` deliberately commented out in
the source. -/
def getQueryMatch (o : CacheOptions) (e : CacheEntry) : Bool :=
  e.apiEndpoint == o.apiEndpoint &&
    (if jsTruthyS o.sessionId then e.sessionId == o.sessionId else true)

/-- `findOne(query).sort({createdAt: -1})`: the first listed entry among those
with maximal `createdAt`. -/
def findOneNewest (p : CacheEntry → Bool) (store : List CacheEntry) :
    Option CacheEntry :=
  store.foldl
    (fun acc e =>
      if p e then
        match acc with
        | none => some e
        | some b => if e.createdAt > b.createdAt then some e else acc
      else acc)
    none

/-- The `deleteOne` query of `deleteCachedResponse`: `apiEndpoint` and
`cacheKey` always, `sessionId` when truthy. -/
def deleteQueryMatch (o : CacheOptions) (e : CacheEntry) : Bool :=
  e.apiEndpoint == o.apiEndpoint && e.cacheKey == o.cacheKey &&
    (if jsTruthyS o.sessionId then e.sessionId == o.sessionId else true)

/-- `deleteOne`: remove the first entry matching the predicate. -/
def deleteOneFirst (p : CacheEntry → Bool) : List CacheEntry → List CacheEntry
  | [] => []
  | e :: rest => if p e then rest else e :: deleteOneFirst p rest

/-- `deleteCachedResponse` (returns `true` and the new store). -/
def deleteCachedResponse (o : CacheOptions) (store : List CacheEntry) :
    Bool × List CacheEntry :=
  (true, deleteOneFirst (deleteQueryMatch o) store)

/-- `findByIdAndUpdate` of `updateAccessStats`: replace the first occurrence
of the found document with its bumped version. -/
def replaceFirst (old new : CacheEntry) : List CacheEntry → List CacheEntry
  | [] => []
  | e :: rest => if e = old then new :: rest else e :: replaceFirst old new rest

/-- `getCachedResponse`: find the newest entry for the query; expired entries
are reported as a miss and passed to `deleteCachedResponse`; on a hit the
access statistics are bumped. Returns the result and the updated store. -/
def getCachedResponse (o : CacheOptions) (now : Nat) (store : List CacheEntry) :
    CacheResult × List CacheEntry :=
  match findOneNewest (getQueryMatch o) store with
  | none => (⟨false, none, none⟩, store)
  | some e =>
    if e.expiresAt.isSome && decide (now > e.expiresAt.getD 0) then
      (⟨false, none, none⟩, (deleteCachedResponse o store).2)
    else
      (⟨true, some e.aiResponse, some ⟨e.createdAt, e.accessCount + 1, now⟩⟩,
       replaceFirst e { e with accessCount := e.accessCount + 1, lastAccessedAt := now } store)

/-- The upsert filter of `storeCachedResponse`: `apiEndpoint`, `cacheKey`, and
`sessionId` (the latter dropped from the query when `undefined`). -/
def storeFilterMatch (o : CacheOptions) (e : CacheEntry) : Bool :=
  e.apiEndpoint == o.apiEndpoint && e.cacheKey == o.cacheKey &&
    (match o.sessionId with
     | none => true
     | some s => e.sessionId == some s)

/-- The `cacheData` document written by `storeCachedResponse`; `createdAt` is
the replaced entry's on an update and `now` on an insert (schema timestamps). -/
def mkCacheData (o : CacheOptions) (resp : AIComponentResponse) (now : Nat)
    (old : Option CacheEntry) : CacheEntry :=
  { apiEndpoint := o.apiEndpoint
    sessionId := o.sessionId
    cacheKey := o.cacheKey
    aiResponse := resp
    accessCount := 0
    createdAt := match old with | some e => e.createdAt | none => now
    lastAccessedAt := now
    expiresAt := some (now + effTtlHours o.ttlHours * 60 * 60 * 1000) }

/-- `findOneAndUpdate(filter, cacheData, {upsert: true})`: replace the first
matching entry, or append a fresh document. -/
def upsertFirst (p : CacheEntry → Bool) (mk : Option CacheEntry → CacheEntry) :
    List CacheEntry → List CacheEntry
  | [] => [mk none]
  | e :: rest => if p e then mk (some e) :: rest else e :: upsertFirst p mk rest

/-- `storeCachedResponse`: always computes an `expiresAt` (default TTL 24h)
and upserts by the composite filter. -/
def storeCachedResponse (o : CacheOptions) (resp : AIComponentResponse)
    (now : Nat) (store : List CacheEntry) : Bool × List CacheEntry :=
  (true, upsertFirst (storeFilterMatch o) (mkCacheData o resp now) store)

/-- `cleanupExpiredCache`: `deleteMany({expiresAt: {$lt: now}})` — entries
without `expiresAt` never match. Returns the deleted count and the store. -/
def cleanupExpiredCache (now : Nat) (store : List CacheEntry) :
    Nat × List CacheEntry :=
  let expired := fun e : CacheEntry =>
    match e.expiresAt with
    | some t => t < now
    | none => false
  ((store.filter expired).length, store.filter (fun e => !expired e))

/-- `clearSessionCache`: `deleteMany({sessionId})`. -/
def clearSessionCache (sessionId : String) (store : List CacheEntry) :
    Nat × List CacheEntry :=
  let hit := fun e : CacheEntry => e.sessionId == some sessionId
  ((store.filter hit).length, store.filter (fun e => !hit e))

/-! ## utils/dataFetcher.ts — the orchestrator -/

/-- `DataFetchOptions` (optional fields model the `?` members; the
destructuring defaults live in the orchestrator itself). -/
structure DataFetchOptions where
  cacheKey : Option String
  revalidate : Option Nat
  fallbackOnError : Option Bool
  apiEndpoint : String
  sessionId : Option String
  enableCaching : Option Bool
  cacheTtlHours : Option Nat

/-- `DataFetchResult`. -/
structure DataFetchResult where
  success : Bool
  data : Option String
  aiResponse : Option AIComponentResponse
  error : Option String
deriving DecidableEq

/-- `metadata?.dataSource !== 'fallback' ? msg : null`. -/
def dataMessage (resp : AIComponentResponse) (msg : String) : Option String :=
  match resp.metadata with
  | some m => if m.dataSource == "fallback" then none else some msg
  | none => some msg

/-- Step 1 of the orchestrator: resolve the session id — an explicit
`options.sessionId` when truthy, else the cookie session when valid, else a
freshly minted one (which also registers the new session). -/
def resolveSession (options : DataFetchOptions) (cookieSession : Option String)
    (freshSessionId : String) (now : Nat) (sm : SMState) : String × SMState :=
  if jsTruthyS options.sessionId then (options.sessionId.getD "", sm)
  else
    match getSessionId sm cookieSession now with
    | some existing => (existing, sm)
    | none => generateSessionId sm freshSessionId now

/-- The `CacheOptions` the orchestrator passes to the cache for both lookup
and store. -/
def orchestratorCacheOpts (options : DataFetchOptions) (sessionId : String) :
    CacheOptions :=
  ⟨some sessionId, options.cacheKey.getD "default-data-fetch",
   options.apiEndpoint, some (options.cacheTtlHours.getD 24)⟩

/-- `fetchAiGeneratedUiComponent` from `utils/dataFetcher.ts`, as a pure
function of its environment: `cookieSession` is what the session cookie holds,
`freshSessionId` the id `generateSessionId` would mint, and `genResponse` the
result `generateAIComponent` would produce on a cache miss. Returns the
result, the number of times generation was invoked, and the updated session
and cache states. -/
def fetchAiGeneratedUiComponent (options : DataFetchOptions)
    (cookieSession : Option String) (freshSessionId : String)
    (genResponse : AIComponentResponse) (now : Nat)
    (sm : SMState) (store : List CacheEntry) :
    DataFetchResult × Nat × SMState × List CacheEntry :=
  let cacheKey := options.cacheKey.getD "default-data-fetch"
  let enableCaching := options.enableCaching.getD true
  -- Step 1: resolve the session id (options → cookie → freshly minted).
  let sid := resolveSession options cookieSession freshSessionId now sm
  let sessionId := sid.1
  -- Step 2: bind the endpoint for this session.
  let sm' := storeApiEndpointForSession sid.2 sessionId options.apiEndpoint cacheKey now
  let cacheOpts := orchestratorCacheOpts options sessionId
  -- Step 3: cache lookup (only when caching is enabled).
  let looked :=
    if enableCaching then
      let gc := getCachedResponse cacheOpts now store
      (some gc.1, gc.2)
    else (none, store)
  match looked.1 with
  | some cr =>
    if cr.found && cr.data.isSome then
      -- Cache hit: return the cached artifact; generation never runs.
      (⟨true,
        (cr.data.map (fun d => dataMessage d "API data available (cached)")).getD none,
        cr.data, none⟩, 0, sm', looked.2)
    else
      -- Cache miss: generate, then store on success.
      let store'' :=
        if genResponse.success then
          (storeCachedResponse cacheOpts genResponse now looked.2).2
        else looked.2
      if genResponse.success then
        (⟨true, dataMessage genResponse "API data available", some genResponse, none⟩,
         1, sm', store'')
      else
        (⟨options.fallbackOnError.getD true, none, some genResponse, genResponse.error⟩,
         1, sm', store'')
  | none =>
    -- Caching disabled: generate unconditionally, never store.
    if genResponse.success then
      (⟨true, dataMessage genResponse "API data available", some genResponse, none⟩,
       1, sm', looked.2)
    else
      (⟨options.fallbackOnError.getD true, none, some genResponse, genResponse.error⟩,
       1, sm', looked.2)

/-! ## components/SecureAICodeRenderer.tsx — the host state machine -/

/-- `IframeMessage` (the `type` is kept as a raw string so that unrecognized
kinds are representable). -/
structure IframeMessage where
  type : String
  code : Option (List Char)
  error : Option String

/-- The host-side state: `isLoading`, `error`, `iframeReady`. -/
structure HostState where
  isLoading : Bool
  error : Option String
  iframeReady : Bool
deriving DecidableEq

/-- The state before any message: loading, no error, not ready. -/
def initialHostState : HostState := ⟨true, none, false⟩

/-- `event.data.error || 'Unknown rendering error'`. -/
def errorOrDefault : Option String → String
  | none => "Unknown rendering error"
  | some e => if e == "" then "Unknown rendering error" else e

/-- `handleMessage`: drop messages whose source is not the iframe, switch on
the three recognized kinds, ignore the rest. The source performs no
protocol-state check. -/
def handleMessage (st : HostState) (fromIframe : Bool) (m : IframeMessage) :
    HostState :=
  if !fromIframe then st
  else if m.type == "IFRAME_READY" then { st with iframeReady := true }
  else if m.type == "RENDER_SUCCESS" then { st with isLoading := false, error := none }
  else if m.type == "RENDER_ERROR" then
    { st with isLoading := false, error := some (errorOrDefault m.error) }
  else st

/-- The externally visible events that can change the host state: a message
arriving, or the `onLoad` 1-second fallback timer forcing readiness. -/
inductive HostEvent where
  | message (fromIframe : Bool) (m : IframeMessage)
  | loadFallbackTimeout

/-- Is the event a message delivery? -/
def HostEvent.isMessage : HostEvent → Bool
  | .message _ _ => true
  | .loadFallbackTimeout => false

/-- One step of the host machine. -/
def hostStep (st : HostState) : HostEvent → HostState
  | .message f m => handleMessage st f m
  | .loadFallbackTimeout => if !st.iframeReady then { st with iframeReady := true } else st

/-- Run the host machine over an event sequence. -/
def hostRun : HostState → List HostEvent → HostState
  | st, [] => st
  | st, e :: es => hostRun (hostStep st e) es

/-- The terminal error state (`error && <ErrorFallback/>` rendered). -/
def RenderedError (st : HostState) : Prop := st.error.isSome = true


/-! ## ai-generator.ts — the fallback component texts -/

/-- The first template segment of `generateFallbackComponent` (the text before
the interpolated `apiEndpoint`). -/
def fbTemplate1 : List Char := "function GeneratedDataComponent() \x7b\n  const [data, setData] = useState([]);\n  const [loading, setLoading] = useState(true);\n  const [error, setError] = useState(null);\n  const [selectedItem, setSelectedItem] = useState(null);\n\n  useEffect(() => \x7b\n    const fetchData = async () => \x7b\n      try \x7b\n        setLoading(true);\n        const response = await fetch('/api/get-data?endpoint=' + encodeURIComponent('".data
/-- Segment 10 (the last) of the second `generateFallbackComponent` template. -/
def fb2t10 : List Char := "y-700 dark:text-gray-300\">Name: \x7bselectedItem.owner?.name\x7d</p>\n              <p className=\"text-gray-700 dark:text-gray-300\">Contact: \x7bselectedItem.owner?.contact\x7d</p>\n              <button\n                onClick=\x7b() => setSelectedItem(null)\x7d\n                className=\"mt-6 w-full bg-red-500 text-white py-2 rounded-lg hover:bg-red-600 focus:outline-none\"\n              >\n                Close\n              </button>\n            </div>\n          </div>\n        </div>\n      )\x7d\n    </div>\n  );\n\x7d\n\nexport default GeneratedDataComponent;".data
/-- Segment 9 of the second `generateFallbackComponent` template. -/
def fb2t9 : List Char := "            <div className=\"mt-4\">\n                <h3 className=\"text-lg font-semibold text-gray-900 dark:text-white\">Vehicle Details</h3>\n                <p className=\"text-gray-700 dark:text-gray-300\">Seats: \x7bselectedItem.basicFeatures?.numberOfSeats\x7d</p>\n                <p className=\"text-gray-700 dark:text-gray-300\">Doors: \x7bselectedItem.basicFeatures?.doors\x7d</p>\n                <p className=\"text-gray-700 dark:text-gray-300\">Price: $\x7bselectedItem.rentalPricePerDay\x7d/day</p>\n              </div>\n              <h3 className=\"mt-4 text-lg font-semibold text-gray-900 dark:text-white\">Owner Information</h3>\n              <p className=\"text-gra".data ++ fb2t10
/-- Segment 8 of the second `generateFallbackComponent` template. -/
def fb2t8 : List Char := ">\n              &times;\n            </button>\n            <img \n              src=\x7bselectedItem.images && selectedItem.images[0] ? selectedItem.images[0] : 'https://via.placeholder.com/400x300?text=No+Image'\x7d \n              alt=\x7b`$\x7bselectedItem.make\x7d $\x7bselectedItem.model\x7d`\x7d \n              className=\"w-full h-64 object-cover\"\n            />\n            <div className=\"p-6\">\n              <h2 className=\"text-2xl font-bold text-gray-900 dark:text-white\">\n                \x7bselectedItem.make\x7d \x7bselectedItem.model\x7d (\x7bselectedItem.year\x7d)\n              </h2>\n              <p className=\"text-gray-700 dark:text-gray-300\">\x7bselectedItem.description\x7d</p>\n  ".data ++ fb2t9
/-- Segment 7 of the second `generateFallbackComponent` template. -/
def fb2t7 : List Char := "ocus:outline-none\"\n              >\n                View Details\n              </button>\n            </div>\n          </div>\n        ))\x7d\n      </div>\n\n      \x7bselectedItem && (\n        <div className=\"fixed inset-0 bg-gray-900 bg-opacity-75 flex justify-center items-center z-50\">\n          <div className=\"bg-white dark:bg-gray-800 rounded-lg w-11/12 md:w-3/4 lg:w-1/2 overflow-hidden relative\">\n            <button\n              onClick=\x7b() => setSelectedItem(null)\x7d\n              className=\"absolute top-4 right-4 text-gray-600 dark:text-gray-200 text-2xl hover:text-gray-800 dark:hover:text-white z-10\"\n              aria-label=\"Close\"\n            ".data ++ fb2t8
/-- Segment 6 of the second `generateFallbackComponent` template. -/
def fb2t6 : List Char := "m.year\x7d)\n              </h2>\n              <p className=\"text-gray-700 dark:text-gray-300\">\n                Location: \x7bitem.location?.city\x7d, \x7bitem.location?.country\x7d\n              </p>\n              <p className=\"text-gray-700 dark:text-gray-300\">\n                Price: $\x7bitem.rentalPricePerDay\x7d/day\n              </p>\n              <p className=\"text-gray-700 dark:text-gray-300\">\n                Status: \x7bitem.availability ? 'Available' : 'Unavailable'\x7d\n              </p>\n              <button\n                onClick=\x7b() => handleSelectItem(item)\x7d\n                className=\"mt-4 w-full bg-blue-500 text-white py-2 rounded-lg hover:bg-blue-600 f".data ++ fb2t7
/-- Segment 5 of the second `generateFallbackComponent` template. -/
def fb2t5 : List Char := "ntal Showcase</h1>\n      <div className=\"grid grid-cols-1 md:grid-cols-2 lg:grid-cols-3 gap-6\">\n        \x7bdata.map((item) => (\n          <div key=\x7bitem.id\x7d className=\"bg-white dark:bg-gray-900 rounded-lg shadow-md overflow-hidden\">\n            <img \n              src=\x7bitem.images && item.images[0] ? item.images[0] : 'https://via.placeholder.com/400x300?text=No+Image'\x7d \n              alt=\x7b`$\x7bitem.make\x7d $\x7bitem.model\x7d`\x7d \n              className=\"w-full h-48 object-cover\"\n            />\n            <div className=\"p-4\">\n              <h2 className=\"text-xl font-semibold text-gray-900 dark:text-white\">\n                \x7bitem.make\x7d \x7bitem.model\x7d (\x7bite".data ++ fb2t6
/-- Segment 4 of the second `generateFallbackComponent` template. -/
def fb2t4 : List Char := ");\n  \x7d\n\n  if (error && data.length === 0) \x7b\n    return (\n      <div className=\"p-4 bg-red-50 border border-red-200 rounded\">\n        <p className=\"text-red-600\">Error: \x7berror\x7d</p>\n      </div>\n    );\n  \x7d\n\n  return (\n    <div className=\"p-4 bg-gray-100 dark:bg-gray-800\">\n      \x7berror && (\n        <div className=\"mb-4 p-3 bg-yellow-100 dark:bg-yellow-900/20 border border-yellow-300 dark:border-yellow-700 rounded-lg\">\n          <p className=\"text-sm text-yellow-800 dark:text-yellow-200\">\n            ⚠️ \x7berror\x7d\n          </p>\n        </div>\n      )\x7d\n      <h1 className=\"text-3xl font-bold text-center text-gray-900 dark:text-white mb-6\">Vehicle Re".data ++ fb2t5
/-- Segment 3 of the second `generateFallbackComponent` template. -/
def fb2t3 : List Char := "asicFeatures: \x7b numberOfSeats: 5, doors: 4 \x7d,\n            owner: \x7b name: 'Jane Smith', contact: 'jane@example.com' \x7d\n          \x7d\n        ];\n        setData(mockData);\n        setError('Using demo data - API unavailable');\n      \x7d finally \x7b\n        setLoading(false);\n      \x7d\n    \x7d;\n    \n    fetchData();\n  \x7d, []);\n\n  const handleSelectItem = (item) => \x7b\n    setSelectedItem(item);\n  \x7d;\n\n  if (loading) \x7b\n    return (\n      <div className=\"flex items-center justify-center p-8\">\n        <div className=\"animate-spin rounded-full h-8 w-8 border-b-2 border-blue-500\"></div>\n        <span className=\"ml-3\">Loading vehicle data...</span>\n      </div>\n    ".data ++ fb2t4
/-- Segment 2 of the second `generateFallbackComponent` template. -/
def fb2t2 : List Char := "bility: true,\n            description: 'Reliable and fuel-efficient sedan perfect for city driving.',\n            basicFeatures: \x7b numberOfSeats: 5, doors: 4 \x7d,\n            owner: \x7b name: 'John Doe', contact: 'john@example.com' \x7d\n          \x7d,\n          \x7b\n            id: 2,\n            make: 'Honda',\n            model: 'Civic',\n            year: 2024,\n            images: ['https://via.placeholder.com/400x300?text=Honda+Civic'],\n            location: \x7b city: 'New York', country: 'USA' \x7d,\n            rentalPricePerDay: 149,\n            availability: false,\n            description: 'Compact and sporty vehicle with modern features.',\n            b".data ++ fb2t3
/-- Segment 1 of the second `generateFallbackComponent` template. -/
def fb2t1 : List Char := "'));\n        if (!response.ok) \x7b\n          throw new Error('Failed to fetch data from API');\n        \x7d\n        const result = await response.json();\n        // Handle the response structure from /api/get-data\n        setData(result.data || result);\n      \x7d catch (err) \x7b\n        console.error('Fetch error:', err);\n        const mockData = [\n          \x7b\n            id: 1,\n            make: 'Toyota',\n            model: 'Camry',\n            year: 2023,\n            images: ['https://via.placeholder.com/400x300?text=Toyota+Camry'],\n            location: \x7b city: 'San Francisco', country: 'USA' \x7d,\n            rentalPricePerDay: 99,\n            availa".data ++ fb2t2
/-- The second template segment of `generateFallbackComponent` (the text after
the interpolated `apiEndpoint`), assembled from its segments. -/
def fbTemplate2 : List Char := fb2t1

/-- `generateFallbackComponent` from `ai-generator.ts`: the fixed template
with the `apiEndpoint` spliced in. -/
def generateFallbackComponent (apiEndpoint : List Char) : List Char :=
  fbTemplate1 ++ (apiEndpoint ++ fbTemplate2)

/-- A representative endpoint used to instantiate the fallback generator. -/
def gfEp : List Char := "https://api.example.com/data".data

/-- `FALLBACK_COMPONENT` from `ai-generator.ts` (note the `require('react')`
call in its body). -/
def FALLBACK_COMPONENT : List Char := "'use client';\n\nfunction GeneratedDataComponent() \x7b\n  const React = require('react');\n  \n  return React.createElement('div', \x7b\n    className: 'p-6 border border-yellow-200 dark:border-yellow-800 rounded-lg bg-yellow-50 dark:bg-yellow-900/20'\n  \x7d,\n    React.createElement('div', \x7b\n      className: 'text-center'\n    \x7d,\n      React.createElement('h3', \x7b\n        className: 'text-lg font-semibold text-gray-900 dark:text-gray-100 mb-2'\n      \x7d, 'Component Generation Failed'),\n      React.createElement('p', \x7b\n        className: 'text-sm text-gray-600 dark:text-gray-400'\n      \x7d, 'Unable to generate dynamic content. Please try again later.')\n    )\n  );\n\x7d".data

/-! ## Concrete validator inputs used by the claims -/

/-- A component that is clean except for one `eval(` occurrence — the input
exhibiting the `lastIndex` statefulness of the `g`-flagged patterns. -/
def evalOnceInput : List Char := "function GeneratedDataComponent() \x7b return React.createElement('div', null, 'x') \x7d\neval('y')".data

/-- A clean component whose only brush with the denylist is the identifier
fragment `os.` inside `photos.map`. -/
def photosMapInput : List Char := "function GeneratedDataComponent() \x7b return React.createElement('div', null, photos.map(renderPhoto)) \x7d".data

/-- A valid component whose string literal contains `//` (part of a URL). -/
def urlLiteralInput : List Char := "function GeneratedDataComponent() \x7b return React.createElement('a', null, 'see https://x.co') \x7d".data

/-- A valid component with no comments, fences, imports or surrounding text:
sanitization should leave it untouched. -/
def cleanComponentInput : List Char := "function GeneratedDataComponent() \x7b\n  return React.createElement('div', null, 'hello')\n\x7d".data


/-- A component whose only brush with the denylist is the identifier fragment
`fs.` inside `briefs.length`. -/
def briefsInput : List Char :=
  "function GeneratedDataComponent() \x7b return React.createElement('div', null, briefs.length) \x7d".data

/-- A component whose only brush with the denylist is the identifier fragment
`path.` inside `dataPath.value`. -/
def dataPathInput : List Char :=
  "function GeneratedDataComponent() \x7b return React.createElement('div', null, dataPath.value) \x7d".data

/-- A minimal artifact used to populate cache entries in concrete scenarios. -/
def sampleResponse : AIComponentResponse :=
  ⟨true, [], "GeneratedDataComponent", none, none⟩

/-! ## Helper lemmas -/

/-- A found cache result always carries the cached artifact. -/
theorem getCachedResponse_found_data (o : CacheOptions) (now : Nat)
    (store : List CacheEntry)
    (h : (getCachedResponse o now store).1.found = true) :
    ((getCachedResponse o now store).1.data).isSome = true := by
  unfold getCachedResponse at h ⊢
  cases hf : findOneNewest (getQueryMatch o) store with
  | none => rw [hf] at h; simp at h
  | some e =>
    rw [hf] at h
    by_cases he : (e.expiresAt.isSome && decide (now > e.expiresAt.getD 0)) = true
    · simp [he] at h
    · simp [he]

/-- Every entry of an upserted store is an old entry or the written document. -/
theorem upsertFirst_mem (p : CacheEntry → Bool) (mk : Option CacheEntry → CacheEntry) :
    ∀ (l : List CacheEntry) (e : CacheEntry), e ∈ upsertFirst p mk l →
      e ∈ l ∨ ∃ old, e = mk old := by
  intro l
  induction l with
  | nil =>
    intro e he
    simp only [upsertFirst, List.mem_singleton] at he
    exact Or.inr ⟨none, he⟩
  | cons a rest ih =>
    intro e he
    simp only [upsertFirst] at he
    by_cases hp : p a = true
    · rw [if_pos hp] at he
      rcases List.mem_cons.mp he with h | h
      · exact Or.inr ⟨some a, h⟩
      · exact Or.inl (List.mem_cons_of_mem a h)
    · rw [if_neg hp] at he
      rcases List.mem_cons.mp he with h | h
      · exact Or.inl (h ▸ List.mem_cons_self a rest)
      · rcases ih e h with h' | h'
        · exact Or.inl (List.mem_cons_of_mem a h')
        · exact Or.inr h'

/-- Non-message events (the timeout fallbacks) never touch `isLoading` or
`error`. -/
theorem hostStep_nonmessage (st : HostState) (e : HostEvent)
    (h : e.isMessage = false) :
    (hostStep st e).isLoading = st.isLoading ∧ (hostStep st e).error = st.error := by
  cases e with
  | message f m => simp [HostEvent.isMessage] at h
  | loadFallbackTimeout =>
    by_cases hr : st.iframeReady
    · simp [hostStep, hr]
    · simp [hostStep, hr]

/-- A run of non-message events preserves `isLoading` and `error`. -/
theorem hostRun_nonmessage : ∀ (events : List HostEvent) (st : HostState),
    (∀ e ∈ events, e.isMessage = false) →
    (hostRun st events).isLoading = st.isLoading ∧
    (hostRun st events).error = st.error := by
  intro events
  induction events with
  | nil => intro st _; exact ⟨rfl, rfl⟩
  | cons e es ih =>
    intro st h
    have h1 := hostStep_nonmessage st e (h e (List.mem_cons_self e es))
    have h2 := ih (hostStep st e) (fun x hx => h x (List.mem_cons_of_mem e hx))
    simp only [hostRun]
    exact ⟨h2.1.trans h1.1, h2.2.trans h1.2⟩

/-! ## Claims C3 and C4 — the sandbox host state machine -/

/-- C3 counterexample: a `RENDER_ERROR` message that arrives with no prior
`IFRAME_READY` (the initial state) is NOT discarded — it changes the host
state, contradicting the claim that out-of-state messages cause no
transition. -/
theorem C3_counterexample :
    handleMessage initialHostState true ⟨"RENDER_ERROR", none, some "boom"⟩ ≠
      initialHostState ∧
    handleMessage initialHostState true ⟨"RENDER_ERROR", none, some "boom"⟩ =
      ⟨false, some "boom", false⟩ := by
  exact ⟨by decide, by decide⟩

/-- C3 (corrected): messages from a source other than the iframe, and messages
with an unrecognized kind, cause no state change; but the handler performs no
protocol-state check — a recognized `RENDER_ERROR` is processed in every
state, in particular with no prior `IFRAME_READY`. -/
theorem C3_state_insensitive_handler (st : HostState) (m : IframeMessage)
    (e : Option String) :
    handleMessage st false m = st ∧
    (m.type ≠ "IFRAME_READY" → m.type ≠ "RENDER_SUCCESS" →
      m.type ≠ "RENDER_ERROR" → handleMessage st true m = st) ∧
    handleMessage initialHostState true ⟨"RENDER_ERROR", none, e⟩ =
      ⟨false, some (errorOrDefault e), false⟩ := by
  refine ⟨rfl, ?_, rfl⟩
  intro h1 h2 h3
  simp [handleMessage, h1, h2, h3]

/-- C3 witness: the amended handler behavior at concrete inputs. -/
theorem C3_witness :
    handleMessage ⟨false, some "x", true⟩ false ⟨"BOGUS", none, none⟩ =
      ⟨false, some "x", true⟩ ∧
    handleMessage ⟨false, some "x", true⟩ true ⟨"BOGUS", none, none⟩ =
      ⟨false, some "x", true⟩ ∧
    handleMessage initialHostState true ⟨"RENDER_ERROR", none, some "iframe crashed"⟩ =
      ⟨false, some "iframe crashed", false⟩ := by
  obtain ⟨a, b, c⟩ :=
    C3_state_insensitive_handler ⟨false, some "x", true⟩ ⟨"BOGUS", none, none⟩
      (some "iframe crashed")
  refine ⟨a, b (by decide) (by decide) (by decide), ?_⟩
  rw [c]
  rfl

/-- C4 counterexample: with no messages at all — only the bounded readiness
fallback firing — the host machine does NOT end in `RenderedError`; it stays
loading forever, refuting the claim that both waits are bounded. -/
theorem C4_counterexample :
    hostRun initialHostState [HostEvent.loadFallbackTimeout] = ⟨true, none, true⟩ ∧
    ¬ RenderedError (hostRun initialHostState [HostEvent.loadFallbackTimeout]) := by
  constructor
  · rfl
  · show ¬ ((hostRun initialHostState [HostEvent.loadFallbackTimeout]).error.isSome = true)
    decide

/-- C4 (corrected): the readiness wait is bounded (the `onLoad` fallback timer
forces `iframeReady`), but the render wait is unbounded: the host has no
timeout that produces an error, so a run without messages keeps
`isLoading = true` and `error = none` — it never reaches `RenderedError`. -/
theorem C4_render_wait_unbounded (events : List HostEvent)
    (h : ∀ e ∈ events, e.isMessage = false) :
    (hostRun initialHostState events).isLoading = true ∧
    (hostRun initialHostState events).error = none ∧
    ¬ RenderedError (hostRun initialHostState events) ∧
    (hostRun initialHostState [HostEvent.loadFallbackTimeout]).iframeReady = true := by
  obtain ⟨h1, h2⟩ := hostRun_nonmessage events initialHostState h
  refine ⟨h1, h2, ?_, rfl⟩
  intro hr
  rw [RenderedError, h2] at hr
  exact absurd hr (by decide)

/-- C4 witness: the amended statement at the concrete no-message run of both
timeout events. -/
theorem C4_witness :
    (hostRun initialHostState
        [HostEvent.loadFallbackTimeout, HostEvent.loadFallbackTimeout]).isLoading = true ∧
    (hostRun initialHostState
        [HostEvent.loadFallbackTimeout, HostEvent.loadFallbackTimeout]).error = none ∧
    ¬ RenderedError (hostRun initialHostState
        [HostEvent.loadFallbackTimeout, HostEvent.loadFallbackTimeout]) ∧
    (hostRun initialHostState [HostEvent.loadFallbackTimeout]).iframeReady = true := by
  exact C4_render_wait_unbounded
    [HostEvent.loadFallbackTimeout, HostEvent.loadFallbackTimeout] (by decide)


/-! ## Claims C7, C8, C10 — cache and session registry -/

/-- C7 counterexample: a store with no `ttl` is NOT durable — the written
entry carries `expiresAt = now + 24h` (the default TTL), so it does expire by
time. -/
theorem C7_counterexample :
    (storeCachedResponse ⟨none, "K", "E", none⟩ sampleResponse 0 []).2 =
      [⟨"E", none, "K", sampleResponse, 0, 0, 0, some 86400000⟩] ∧
    ∀ e ∈ (storeCachedResponse ⟨none, "K", "E", none⟩ sampleResponse 0 []).2,
      e.expiresAt ≠ none := by
  refine ⟨by decide, ?_⟩
  intro e he
  simp only [show (storeCachedResponse ⟨none, "K", "E", none⟩ sampleResponse 0 []).2 =
      [⟨"E", none, "K", sampleResponse, 0, 0, 0, some 86400000⟩] from by decide,
    List.mem_singleton] at he
  subst he
  decide

/-- C7 (corrected): when a nonzero `ttl` is given, the entry's `expiresAt` is
`now + ttl`; when `ttl` is absent (or `0`), the entry is NOT durable — the
default 24-hour TTL applies. Every entry the store writes is either an
untouched pre-existing entry or carries
`expiresAt = now + effTtlHours ttl hours`. -/
theorem C7_store_expiry (o : CacheOptions) (resp : AIComponentResponse)
    (now : Nat) (store : List CacheEntry) :
    ∀ e ∈ (storeCachedResponse o resp now store).2,
      e ∈ store ∨ e.expiresAt = some (now + effTtlHours o.ttlHours * 60 * 60 * 1000) := by
  intro e he
  have he' : e ∈ upsertFirst (storeFilterMatch o) (mkCacheData o resp now) store := he
  rcases upsertFirst_mem (storeFilterMatch o) (mkCacheData o resp now) store e he' with h | ⟨old, hold⟩
  · exact Or.inl h
  · subst hold
    exact Or.inr rfl

/-- C7 witness: the store-expiry theorem at a concrete no-ttl insert. -/
theorem C7_witness :
    (⟨"E", none, "K", sampleResponse, 0, 0, 0, some 86400000⟩ : CacheEntry) ∈
      (storeCachedResponse ⟨none, "K", "E", none⟩ sampleResponse 0 []).2 ∧
    ((⟨"E", none, "K", sampleResponse, 0, 0, 0, some 86400000⟩ : CacheEntry) ∈ ([] : List CacheEntry) ∨
      (⟨"E", none, "K", sampleResponse, 0, 0, 0, some 86400000⟩ : CacheEntry).expiresAt =
        some (0 + effTtlHours none * 60 * 60 * 1000)) := by
  have hm : (⟨"E", none, "K", sampleResponse, 0, 0, 0, some 86400000⟩ : CacheEntry) ∈
      (storeCachedResponse ⟨none, "K", "E", none⟩ sampleResponse 0 []).2 := by decide
  exact ⟨hm, C7_store_expiry ⟨none, "K", "E", none⟩ sampleResponse 0 [] _ hm⟩

/-- C8 counterexample: for a session idle exactly the TTL, `getSessionId`
refuses the token, yet `getCacheKeyForEndpoint` still returns its binding —
lookups are not uniformly blocked for expired sessions. -/
theorem C8_counterexample :
    getSessionId [("s", ⟨"s", [("E", "K")], 0, 0⟩)] (some "s") SESSION_EXPIRY_MS = none ∧
    (getCacheKeyForEndpoint [("s", ⟨"s", [("E", "K")], 0, 0⟩)] "s" "E" SESSION_EXPIRY_MS).1 =
      some "K" := by
  exact ⟨by decide, by decide⟩

/-- C8 (corrected): `getSessionId` does return `null` for an expired session,
but `getCacheKeyForEndpoint` performs no expiry check at all — it returns the
stored binding of any present session (expired or not) and refreshes its
`lastAccessedAt`. -/
theorem C8_expired_lookup_behavior (st : SMState) (sid ep : String) (now : Nat)
    (s : SessionData) (hs : assocGet st sid = some s)
    (hexp : isValidSession st sid now = false) :
    getSessionId st (some sid) now = none ∧
    (getCacheKeyForEndpoint st sid ep now).1 = assocGet s.apiEndpoints ep ∧
    (getCacheKeyForEndpoint st sid ep now).2 =
      assocSet st sid { s with lastAccessedAt := now } := by
  refine ⟨?_, ?_, ?_⟩
  · simp [getSessionId, hexp]
  · simp [getCacheKeyForEndpoint, hs]
  · simp [getCacheKeyForEndpoint, hs]

/-- C8 witness: the expired-session behavior at the concrete registry of the
counterexample. -/
theorem C8_witness :
    getSessionId [("s", ⟨"s", [("E", "K")], 0, 0⟩)] (some "s") SESSION_EXPIRY_MS = none ∧
    (getCacheKeyForEndpoint [("s", ⟨"s", [("E", "K")], 0, 0⟩)] "s" "E" SESSION_EXPIRY_MS).1 =
      assocGet (⟨"s", [("E", "K")], 0, 0⟩ : SessionData).apiEndpoints "E" ∧
    (getCacheKeyForEndpoint [("s", ⟨"s", [("E", "K")], 0, 0⟩)] "s" "E" SESSION_EXPIRY_MS).2 =
      assocSet [("s", ⟨"s", [("E", "K")], 0, 0⟩)] "s"
        { (⟨"s", [("E", "K")], 0, 0⟩ : SessionData) with lastAccessedAt := SESSION_EXPIRY_MS } := by
  exact C8_expired_lookup_behavior [("s", ⟨"s", [("E", "K")], 0, 0⟩)] "s" "E"
    SESSION_EXPIRY_MS ⟨"s", [("E", "K")], 0, 0⟩ (by decide) (by decide)

/-- C10 counterexample: an expired entry found by the lookup (whose query
ignores `cacheKey`) is NOT deleted when the caller's `cacheKey` differs (the
delete filters on it), so the subsequent cleanup still counts that entry. -/
theorem C10_counterexample :
    (getCachedResponse ⟨none, "B", "E", none⟩ 20
        [⟨"E", none, "A", sampleResponse, 0, 0, 0, some 10⟩]).1.found = false ∧
    (getCachedResponse ⟨none, "B", "E", none⟩ 20
        [⟨"E", none, "A", sampleResponse, 0, 0, 0, some 10⟩]).2 =
      [⟨"E", none, "A", sampleResponse, 0, 0, 0, some 10⟩] ∧
    (cleanupExpiredCache 20
        ((getCachedResponse ⟨none, "B", "E", none⟩ 20
          [⟨"E", none, "A", sampleResponse, 0, 0, 0, some 10⟩]).2)).1 = 1 := by
  exact ⟨by decide, by decide, by decide⟩

/-- C10 (corrected): when the expired entry does match the delete filter
(same `cacheKey`, compatible `sessionId`), the lookup reports a miss, deletes
the entry, and a subsequent cleanup counts nothing; with a differing
`cacheKey` the delete misses (see the counterexample). -/
theorem C10_matching_key_delete (e : CacheEntry) (o : CacheOptions) (now t : Nat)
    (hexp : e.expiresAt = some t) (hgt : now > t)
    (hq : getQueryMatch o e = true) (hd : deleteQueryMatch o e = true) :
    (getCachedResponse o now [e]).1.found = false ∧
    (getCachedResponse o now [e]).2 = [] ∧
    (cleanupExpiredCache now ((getCachedResponse o now [e]).2)).1 = 0 := by
  have hfind : findOneNewest (getQueryMatch o) [e] = some e := by
    simp [findOneNewest, hq]
  have hcond : (e.expiresAt.isSome && decide (now > e.expiresAt.getD 0)) = true := by
    rw [hexp]
    simp [hgt]
  have hget : getCachedResponse o now [e] =
      (⟨false, none, none⟩, (deleteCachedResponse o [e]).2) := by
    unfold getCachedResponse
    rw [hfind]
    dsimp only
    rw [if_pos hcond]
  have hdel : (deleteCachedResponse o [e]).2 = [] := by
    simp [deleteCachedResponse, deleteOneFirst, hd]
  rw [hget, hdel]
  exact ⟨rfl, rfl, rfl⟩

/-- C10 witness: the matching-key case at a concrete expired entry. -/
theorem C10_witness :
    (getCachedResponse ⟨none, "A", "E", none⟩ 20
        [⟨"E", none, "A", sampleResponse, 0, 0, 0, some 10⟩]).1.found = false ∧
    (getCachedResponse ⟨none, "A", "E", none⟩ 20
        [⟨"E", none, "A", sampleResponse, 0, 0, 0, some 10⟩]).2 = [] ∧
    (cleanupExpiredCache 20
        ((getCachedResponse ⟨none, "A", "E", none⟩ 20
          [⟨"E", none, "A", sampleResponse, 0, 0, 0, some 10⟩]).2)).1 = 0 := by
  exact C10_matching_key_delete ⟨"E", none, "A", sampleResponse, 0, 0, 0, some 10⟩
    ⟨none, "A", "E", none⟩ 20 10 rfl (by decide) (by decide) (by decide)


/-! ## Claims C5, C6, C9 — the validator, and the C2 counterexample -/

/-- C5 counterexample: the namespace denylist has no word boundaries — a
source text where `os.` occurs only inside the identifier chain `photos.map`
IS flagged with the OS-namespace rule. -/
theorem C5_counterexample :
    "Dangerous pattern detected: os\\." ∈
      (validateComponentCode photosMapInput freshRegexState).1.errors := by
  decide

/-- C5 (corrected): the namespace rules match plain substrings
(case-insensitively), so a denylisted token appearing only as a fragment of a
longer identifier still triggers the rule: `briefs.length` trips `fs\.` and
`dataPath.value` trips `path\.`. -/
theorem C5_substring_namespace_rules :
    "Dangerous pattern detected: fs\\." ∈
      (validateComponentCode briefsInput freshRegexState).1.errors ∧
    "Dangerous pattern detected: path\\." ∈
      (validateComponentCode dataPathInput freshRegexState).1.errors := by
  exact ⟨by decide, by decide⟩

/-- C6 (code_bug): `validateComponentCode` is not deterministic across calls —
the module-level `g`-flagged regexes keep their `lastIndex` between calls, so
validating the same eval-containing component twice rejects it the first time
and accepts it the second time. -/
theorem C6_stateful_revalidation :
    (validateComponentCode evalOnceInput freshRegexState).1.isValid = false ∧
    (validateComponentCode evalOnceInput freshRegexState).1.errors =
      ["Dangerous pattern detected: eval\\s*\\("] ∧
    (validateComponentCode evalOnceInput
        (validateComponentCode evalOnceInput freshRegexState).2).1.isValid = true := by
  exact ⟨by decide, by decide, by decide⟩

/-- C9 counterexample: sanitization rewrites semantic content — on an accepted
component whose string literal contains a URL, the `//` comment stripper
truncates the literal: `x.co` occurs in the input but not in the sanitized
output. -/
theorem C9_counterexample :
    (validateComponentCode urlLiteralInput freshRegexState).1.isValid = true ∧
    containsL ("x.co".data) urlLiteralInput = true ∧
    ((validateComponentCode urlLiteralInput freshRegexState).1.sanitizedCode.map
      (containsL ("x.co".data))) = some false := by
  exact ⟨by decide, by decide, by decide⟩

/-- C9 (corrected): besides fences, import/export keywords and whitespace,
sanitization also strips comment-shaped text (even inside string literals)
and extracts the `GeneratedDataComponent` function by brace matching; on an
accepted input that is a standalone comment-free component it is the
identity. -/
theorem C9_sanitize_clean_identity :
    (validateComponentCode cleanComponentInput freshRegexState).1.isValid = true ∧
    (validateComponentCode cleanComponentInput freshRegexState).1.sanitizedCode =
      some cleanComponentInput := by
  exact ⟨by decide, by decide⟩

/-- C2 counterexample: `FALLBACK_COMPONENT` does not pass the validator — its
`require('react')` call trips the `require\s*\(` denylist rule. -/
theorem C2_counterexample :
    (validateComponentCode FALLBACK_COMPONENT freshRegexState).1.isValid = false := by
  decide

/-! ## Claim C1 — the orchestrator -/

/-- C1 (confirmed): with caching enabled, when the cache lookup finds an entry
the orchestrator returns the cached artifact as the response and the
generation step is never invoked (count 0); and whenever generation runs at
all, the lookup was a miss. -/
theorem C1_cache_hit_skips_generation (options : DataFetchOptions)
    (cookie : Option String) (fresh : String) (gen : AIComponentResponse)
    (now : Nat) (sm : SMState) (store : List CacheEntry)
    (henable : options.enableCaching.getD true = true) :
    ((getCachedResponse
        (orchestratorCacheOpts options (resolveSession options cookie fresh now sm).1)
        now store).1.found = true →
      (fetchAiGeneratedUiComponent options cookie fresh gen now sm store).1.aiResponse =
        (getCachedResponse
          (orchestratorCacheOpts options (resolveSession options cookie fresh now sm).1)
          now store).1.data ∧
      (fetchAiGeneratedUiComponent options cookie fresh gen now sm store).2.1 = 0) ∧
    ((fetchAiGeneratedUiComponent options cookie fresh gen now sm store).2.1 ≠ 0 →
      (getCachedResponse
        (orchestratorCacheOpts options (resolveSession options cookie fresh now sm).1)
        now store).1.found = false) := by
  unfold fetchAiGeneratedUiComponent
  simp only [henable, if_true]
  set cr := (getCachedResponse
    (orchestratorCacheOpts options (resolveSession options cookie fresh now sm).1)
    now store).1 with hcr
  constructor
  · intro hfound
    have hds : (cr.data).isSome = true := by
      rw [hcr]
      exact getCachedResponse_found_data _ now store (hcr ▸ hfound)
    simp only [hfound, hds, Bool.and_self, if_true]
    constructor <;> trivial
  · intro hcount
    by_cases hfound : cr.found = true
    · have hds : (cr.data).isSome = true := by
        rw [hcr]
        exact getCachedResponse_found_data _ now store (hcr ▸ hfound)
      simp only [hfound, hds, Bool.and_self, if_true] at hcount
      exact absurd rfl hcount
    · cases hb : cr.found
      · rfl
      · exact absurd hb hfound

/-- C1 witness: a concrete enabled-cache run over a store holding one fresh
entry for the endpoint — the hit is returned and generation count is zero. -/
theorem C1_witness :
    (getCachedResponse
        (orchestratorCacheOpts
          ⟨some "K", none, none, "E", some "S", some true, none⟩
          (resolveSession ⟨some "K", none, none, "E", some "S", some true, none⟩
            none "fresh" 5 []).1)
        5 [⟨"E", some "S", "K", sampleResponse, 0, 1, 1, some 99⟩]).1.found = true ∧
    ((fetchAiGeneratedUiComponent ⟨some "K", none, none, "E", some "S", some true, none⟩
        none "fresh" sampleResponse 5 []
        [⟨"E", some "S", "K", sampleResponse, 0, 1, 1, some 99⟩]).1.aiResponse =
      (getCachedResponse
          (orchestratorCacheOpts ⟨some "K", none, none, "E", some "S", some true, none⟩
            (resolveSession ⟨some "K", none, none, "E", some "S", some true, none⟩
              none "fresh" 5 []).1)
          5 [⟨"E", some "S", "K", sampleResponse, 0, 1, 1, some 99⟩]).1.data ∧
      (fetchAiGeneratedUiComponent ⟨some "K", none, none, "E", some "S", some true, none⟩
        none "fresh" sampleResponse 5 []
        [⟨"E", some "S", "K", sampleResponse, 0, 1, 1, some 99⟩]).2.1 = 0) := by
  refine ⟨by decide, ?_⟩
  exact (C1_cache_hit_skips_generation
    ⟨some "K", none, none, "E", some "S", some true, none⟩ none "fresh"
    sampleResponse 5 [] [⟨"E", some "S", "K", sampleResponse, 0, 1, 1, some 99⟩]
    (by decide)).1 (by decide)


/-! ## Evaluation of the validator on `generateFallbackComponent gfEp`
(claim C2). The scans are evaluated in bounded slices via the `scanK` and
`countK` steppers and composed with their soundness lemmas. -/

theorem fb2t10_len : fb2t10.length = 537 := by rfl

theorem fb2t9_len : fb2t9.length = 1187 := by
  unfold fb2t9
  rw [List.length_append, fb2t10_len]
  rfl

theorem fb2t8_len : fb2t8.length = 1837 := by
  unfold fb2t8
  rw [List.length_append, fb2t9_len]
  rfl

theorem fb2t7_len : fb2t7.length = 2487 := by
  unfold fb2t7
  rw [List.length_append, fb2t8_len]
  rfl

theorem fb2t6_len : fb2t6.length = 3137 := by
  unfold fb2t6
  rw [List.length_append, fb2t7_len]
  rfl

theorem fb2t5_len : fb2t5.length = 3787 := by
  unfold fb2t5
  rw [List.length_append, fb2t6_len]
  rfl

theorem fb2t4_len : fb2t4.length = 4437 := by
  unfold fb2t4
  rw [List.length_append, fb2t5_len]
  rfl

theorem fb2t3_len : fb2t3.length = 5087 := by
  unfold fb2t3
  rw [List.length_append, fb2t4_len]
  rfl

theorem fb2t2_len : fb2t2.length = 5737 := by
  unfold fb2t2
  rw [List.length_append, fb2t3_len]
  rfl

theorem fb2t1_len : fb2t1.length = 6387 := by
  unfold fb2t1
  rw [List.length_append, fb2t2_len]
  rfl

theorem fbTemplate2_len : fbTemplate2.length = 6387 := fb2t1_len

theorem gfLen : (generateFallbackComponent gfEp).length = 6821 := by
  unfold generateFallbackComponent
  rw [List.length_append, List.length_append, fbTemplate2_len]
  rfl

theorem fuelFor_gf (re : RE) :
    fuelFor re (generateFallbackComponent gfEp) = (reSize re + 2) * 6823 := by
  unfold fuelFor
  rw [gfLen]

/-- `scanK_inl` with implicit arguments, for compact chaining. -/
theorem scanKIL {mf : Nat} {re : RE} {hm : Option (Char → Bool)} {k pos : Nat}
    {prev : Option Char} {s : List Char} {pos' : Nat} {prev' : Option Char}
    {s' : List Char}
    (h : scanK mf re hm k pos prev s = .inl (pos', prev', s')) :
    searchFuel mf re hm pos prev s = searchFuel mf re hm pos' prev' s' :=
  scanK_inl mf re hm k pos prev s pos' prev' s' h

/-- `scanK_inr` with implicit arguments, for compact chaining. -/
theorem scanKIR {mf : Nat} {re : RE} {hm : Option (Char → Bool)} {k pos : Nat}
    {prev : Option Char} {s : List Char}
    {res : Option (Nat × Nat × Option Char × List Char)}
    (h : scanK mf re hm k pos prev s = .inr res) :
    searchFuel mf re hm pos prev s = res :=
  scanK_inr mf re hm k pos prev s res h

/-- `countK_inl` with implicit arguments, for compact chaining. -/
theorem countKIL {mf : Nat} {re : RE} {hm : Option (Char → Bool)}
    {k acc fuel : Nat} {prev : Option Char} {s : List Char} {acc' fuel' : Nat}
    {prev' : Option Char} {s' : List Char}
    (h : countK mf re hm k acc fuel prev s = .inl (acc', fuel', prev', s')) :
    countFuelA mf re hm acc fuel prev s = countFuelA mf re hm acc' fuel' prev' s' :=
  countK_inl mf re hm k acc fuel prev s acc' fuel' prev' s' h

/-- `countK_inr` with implicit arguments, for compact chaining. -/
theorem countKIR {mf : Nat} {re : RE} {hm : Option (Char → Bool)}
    {k acc fuel : Nat} {prev : Option Char} {s : List Char} {res : Nat}
    (h : countK mf re hm k acc fuel prev s = .inr res) :
    countFuelA mf re hm acc fuel prev s = res :=
  countK_inr mf re hm k acc fuel prev s res h

/-- A full miss scan over the fallback text means the `g`-flagged `.test`
returns `false` and resets `lastIndex`. -/
theorem testG_gf_false (re : RE)
    (hs : searchFuel ((reSize re + 2) * 6823) re (headMust re) 0 none
      (generateFallbackComponent gfEp) = none) :
    testG re (generateFallbackComponent gfEp) 0 = (false, 0) := by
  unfold testG
  rw [if_neg (Nat.not_lt_zero _)]
  show (match searchFrom re 0 none (generateFallbackComponent gfEp) with
        | some (_, stop, _, _) => (true, stop)
        | none => (false, 0)) = (false, 0)
  unfold searchFrom
  rw [fuelFor_gf, hs]

/-- A scan that reaches a hit means the flagless `.test` returns `true`. -/
theorem testP_gf_true (re : RE) {pj : Nat} {prevj : Option Char} {Sj : List Char}
    (hc : searchFuel ((reSize re + 2) * 6823) re (headMust re) 0 none
        (generateFallbackComponent gfEp) =
      searchFuel ((reSize re + 2) * 6823) re (headMust re) pj prevj Sj)
    (hhit : (searchFuel ((reSize re + 2) * 6823) re (headMust re) pj prevj Sj).isSome
      = true) :
    testP re (generateFallbackComponent gfEp) = true := by
  unfold testP searchFrom
  rw [fuelFor_gf, hc]
  exact hhit

/-- Transfer a `countFuelA` evaluation to `countM` on the fallback text. -/
theorem countM_gf (re : RE) {k : Nat}
    (h : countFuelA ((reSize re + 2) * 6823) re (headMust re) 0 6822 none
        (generateFallbackComponent gfEp) = k) :
    countM re none (generateFallbackComponent gfEp) = k := by
  unfold countM
  rw [fuelFor_gf, gfLen]
  exact h

theorem c2_dpEval_s0 : scanK ((reSize dpEval + 2) * 6823) dpEval (headMust dpEval) 406 0 none (generateFallbackComponent gfEp) = .inl (406, (some (Char.ofNat 39)), (gfEp ++ fbTemplate2)) := by rfl
theorem c2_dpEval_s1 : scanK ((reSize dpEval + 2) * 6823) dpEval (headMust dpEval) 28 406 (some (Char.ofNat 39)) (gfEp ++ fbTemplate2) = .inl (434, (some (Char.ofNat 97)), fbTemplate2) := by rfl
theorem c2_dpEval_s2 : scanK ((reSize dpEval + 2) * 6823) dpEval (headMust dpEval) 650 434 (some (Char.ofNat 97)) fbTemplate2 = .inl (1084, (some (Char.ofNat 97)), fb2t2) := by rfl
theorem c2_dpEval_s3 : scanK ((reSize dpEval + 2) * 6823) dpEval (headMust dpEval) 650 1084 (some (Char.ofNat 97)) fb2t2 = .inl (1734, (some (Char.ofNat 98)), fb2t3) := by rfl
theorem c2_dpEval_s4 : scanK ((reSize dpEval + 2) * 6823) dpEval (headMust dpEval) 650 1734 (some (Char.ofNat 98)) fb2t3 = .inl (2384, (some (Char.ofNat 32)), fb2t4) := by rfl
theorem c2_dpEval_s5 : scanK ((reSize dpEval + 2) * 6823) dpEval (headMust dpEval) 650 2384 (some (Char.ofNat 32)) fb2t4 = .inl (3034, (some (Char.ofNat 101)), fb2t5) := by rfl
theorem c2_dpEval_s6 : scanK ((reSize dpEval + 2) * 6823) dpEval (headMust dpEval) 650 3034 (some (Char.ofNat 101)) fb2t5 = .inl (3684, (some (Char.ofNat 101)), fb2t6) := by rfl
theorem c2_dpEval_s7 : scanK ((reSize dpEval + 2) * 6823) dpEval (headMust dpEval) 650 3684 (some (Char.ofNat 101)) fb2t6 = .inl (4334, (some (Char.ofNat 102)), fb2t7) := by rfl
theorem c2_dpEval_s8 : scanK ((reSize dpEval + 2) * 6823) dpEval (headMust dpEval) 650 4334 (some (Char.ofNat 102)) fb2t7 = .inl (4984, (some (Char.ofNat 32)), fb2t8) := by rfl
theorem c2_dpEval_s9 : scanK ((reSize dpEval + 2) * 6823) dpEval (headMust dpEval) 650 4984 (some (Char.ofNat 32)) fb2t8 = .inl (5634, (some (Char.ofNat 32)), fb2t9) := by rfl
theorem c2_dpEval_s10 : scanK ((reSize dpEval + 2) * 6823) dpEval (headMust dpEval) 650 5634 (some (Char.ofNat 32)) fb2t9 = .inl (6284, (some (Char.ofNat 97)), fb2t10) := by rfl
theorem c2_dpEval_sE : scanK ((reSize dpEval + 2) * 6823) dpEval (headMust dpEval) 538 6284 (some (Char.ofNat 97)) fb2t10 = .inr none := by rfl
theorem c2_dpEval_miss : testG dpEval (generateFallbackComponent gfEp) 0 = (false, 0) :=
  testG_gf_false dpEval ((scanKIL c2_dpEval_s0).trans ((scanKIL c2_dpEval_s1).trans ((scanKIL c2_dpEval_s2).trans ((scanKIL c2_dpEval_s3).trans ((scanKIL c2_dpEval_s4).trans ((scanKIL c2_dpEval_s5).trans ((scanKIL c2_dpEval_s6).trans ((scanKIL c2_dpEval_s7).trans ((scanKIL c2_dpEval_s8).trans ((scanKIL c2_dpEval_s9).trans ((scanKIL c2_dpEval_s10).trans (scanKIR c2_dpEval_sE))))))))))))

theorem c2_dpFunction_s0 : scanK ((reSize dpFunction + 2) * 6823) dpFunction (headMust dpFunction) 406 0 none (generateFallbackComponent gfEp) = .inl (406, (some (Char.ofNat 39)), (gfEp ++ fbTemplate2)) := by rfl
theorem c2_dpFunction_s1 : scanK ((reSize dpFunction + 2) * 6823) dpFunction (headMust dpFunction) 28 406 (some (Char.ofNat 39)) (gfEp ++ fbTemplate2) = .inl (434, (some (Char.ofNat 97)), fbTemplate2) := by rfl
theorem c2_dpFunction_s2 : scanK ((reSize dpFunction + 2) * 6823) dpFunction (headMust dpFunction) 650 434 (some (Char.ofNat 97)) fbTemplate2 = .inl (1084, (some (Char.ofNat 97)), fb2t2) := by rfl
theorem c2_dpFunction_s3 : scanK ((reSize dpFunction + 2) * 6823) dpFunction (headMust dpFunction) 650 1084 (some (Char.ofNat 97)) fb2t2 = .inl (1734, (some (Char.ofNat 98)), fb2t3) := by rfl
theorem c2_dpFunction_s4 : scanK ((reSize dpFunction + 2) * 6823) dpFunction (headMust dpFunction) 650 1734 (some (Char.ofNat 98)) fb2t3 = .inl (2384, (some (Char.ofNat 32)), fb2t4) := by rfl
theorem c2_dpFunction_s5 : scanK ((reSize dpFunction + 2) * 6823) dpFunction (headMust dpFunction) 650 2384 (some (Char.ofNat 32)) fb2t4 = .inl (3034, (some (Char.ofNat 101)), fb2t5) := by rfl
theorem c2_dpFunction_s6 : scanK ((reSize dpFunction + 2) * 6823) dpFunction (headMust dpFunction) 650 3034 (some (Char.ofNat 101)) fb2t5 = .inl (3684, (some (Char.ofNat 101)), fb2t6) := by rfl
theorem c2_dpFunction_s7 : scanK ((reSize dpFunction + 2) * 6823) dpFunction (headMust dpFunction) 650 3684 (some (Char.ofNat 101)) fb2t6 = .inl (4334, (some (Char.ofNat 102)), fb2t7) := by rfl
theorem c2_dpFunction_s8 : scanK ((reSize dpFunction + 2) * 6823) dpFunction (headMust dpFunction) 650 4334 (some (Char.ofNat 102)) fb2t7 = .inl (4984, (some (Char.ofNat 32)), fb2t8) := by rfl
theorem c2_dpFunction_s9 : scanK ((reSize dpFunction + 2) * 6823) dpFunction (headMust dpFunction) 650 4984 (some (Char.ofNat 32)) fb2t8 = .inl (5634, (some (Char.ofNat 32)), fb2t9) := by rfl
theorem c2_dpFunction_s10 : scanK ((reSize dpFunction + 2) * 6823) dpFunction (headMust dpFunction) 650 5634 (some (Char.ofNat 32)) fb2t9 = .inl (6284, (some (Char.ofNat 97)), fb2t10) := by rfl
theorem c2_dpFunction_sE : scanK ((reSize dpFunction + 2) * 6823) dpFunction (headMust dpFunction) 538 6284 (some (Char.ofNat 97)) fb2t10 = .inr none := by rfl
theorem c2_dpFunction_miss : testG dpFunction (generateFallbackComponent gfEp) 0 = (false, 0) :=
  testG_gf_false dpFunction ((scanKIL c2_dpFunction_s0).trans ((scanKIL c2_dpFunction_s1).trans ((scanKIL c2_dpFunction_s2).trans ((scanKIL c2_dpFunction_s3).trans ((scanKIL c2_dpFunction_s4).trans ((scanKIL c2_dpFunction_s5).trans ((scanKIL c2_dpFunction_s6).trans ((scanKIL c2_dpFunction_s7).trans ((scanKIL c2_dpFunction_s8).trans ((scanKIL c2_dpFunction_s9).trans ((scanKIL c2_dpFunction_s10).trans (scanKIR c2_dpFunction_sE))))))))))))

theorem c2_dpSetTimeout_s0 : scanK ((reSize dpSetTimeout + 2) * 6823) dpSetTimeout (headMust dpSetTimeout) 406 0 none (generateFallbackComponent gfEp) = .inl (406, (some (Char.ofNat 39)), (gfEp ++ fbTemplate2)) := by rfl
theorem c2_dpSetTimeout_s1 : scanK ((reSize dpSetTimeout + 2) * 6823) dpSetTimeout (headMust dpSetTimeout) 28 406 (some (Char.ofNat 39)) (gfEp ++ fbTemplate2) = .inl (434, (some (Char.ofNat 97)), fbTemplate2) := by rfl
theorem c2_dpSetTimeout_s2 : scanK ((reSize dpSetTimeout + 2) * 6823) dpSetTimeout (headMust dpSetTimeout) 650 434 (some (Char.ofNat 97)) fbTemplate2 = .inl (1084, (some (Char.ofNat 97)), fb2t2) := by rfl
theorem c2_dpSetTimeout_s3 : scanK ((reSize dpSetTimeout + 2) * 6823) dpSetTimeout (headMust dpSetTimeout) 650 1084 (some (Char.ofNat 97)) fb2t2 = .inl (1734, (some (Char.ofNat 98)), fb2t3) := by rfl
theorem c2_dpSetTimeout_s4 : scanK ((reSize dpSetTimeout + 2) * 6823) dpSetTimeout (headMust dpSetTimeout) 650 1734 (some (Char.ofNat 98)) fb2t3 = .inl (2384, (some (Char.ofNat 32)), fb2t4) := by rfl
theorem c2_dpSetTimeout_s5 : scanK ((reSize dpSetTimeout + 2) * 6823) dpSetTimeout (headMust dpSetTimeout) 650 2384 (some (Char.ofNat 32)) fb2t4 = .inl (3034, (some (Char.ofNat 101)), fb2t5) := by rfl
theorem c2_dpSetTimeout_s6 : scanK ((reSize dpSetTimeout + 2) * 6823) dpSetTimeout (headMust dpSetTimeout) 650 3034 (some (Char.ofNat 101)) fb2t5 = .inl (3684, (some (Char.ofNat 101)), fb2t6) := by rfl
theorem c2_dpSetTimeout_s7 : scanK ((reSize dpSetTimeout + 2) * 6823) dpSetTimeout (headMust dpSetTimeout) 650 3684 (some (Char.ofNat 101)) fb2t6 = .inl (4334, (some (Char.ofNat 102)), fb2t7) := by rfl
theorem c2_dpSetTimeout_s8 : scanK ((reSize dpSetTimeout + 2) * 6823) dpSetTimeout (headMust dpSetTimeout) 650 4334 (some (Char.ofNat 102)) fb2t7 = .inl (4984, (some (Char.ofNat 32)), fb2t8) := by rfl
theorem c2_dpSetTimeout_s9 : scanK ((reSize dpSetTimeout + 2) * 6823) dpSetTimeout (headMust dpSetTimeout) 650 4984 (some (Char.ofNat 32)) fb2t8 = .inl (5634, (some (Char.ofNat 32)), fb2t9) := by rfl
theorem c2_dpSetTimeout_s10 : scanK ((reSize dpSetTimeout + 2) * 6823) dpSetTimeout (headMust dpSetTimeout) 650 5634 (some (Char.ofNat 32)) fb2t9 = .inl (6284, (some (Char.ofNat 97)), fb2t10) := by rfl
theorem c2_dpSetTimeout_sE : scanK ((reSize dpSetTimeout + 2) * 6823) dpSetTimeout (headMust dpSetTimeout) 538 6284 (some (Char.ofNat 97)) fb2t10 = .inr none := by rfl
theorem c2_dpSetTimeout_miss : testG dpSetTimeout (generateFallbackComponent gfEp) 0 = (false, 0) :=
  testG_gf_false dpSetTimeout ((scanKIL c2_dpSetTimeout_s0).trans ((scanKIL c2_dpSetTimeout_s1).trans ((scanKIL c2_dpSetTimeout_s2).trans ((scanKIL c2_dpSetTimeout_s3).trans ((scanKIL c2_dpSetTimeout_s4).trans ((scanKIL c2_dpSetTimeout_s5).trans ((scanKIL c2_dpSetTimeout_s6).trans ((scanKIL c2_dpSetTimeout_s7).trans ((scanKIL c2_dpSetTimeout_s8).trans ((scanKIL c2_dpSetTimeout_s9).trans ((scanKIL c2_dpSetTimeout_s10).trans (scanKIR c2_dpSetTimeout_sE))))))))))))

theorem c2_dpSetInterval_s0 : scanK ((reSize dpSetInterval + 2) * 6823) dpSetInterval (headMust dpSetInterval) 406 0 none (generateFallbackComponent gfEp) = .inl (406, (some (Char.ofNat 39)), (gfEp ++ fbTemplate2)) := by rfl
theorem c2_dpSetInterval_s1 : scanK ((reSize dpSetInterval + 2) * 6823) dpSetInterval (headMust dpSetInterval) 28 406 (some (Char.ofNat 39)) (gfEp ++ fbTemplate2) = .inl (434, (some (Char.ofNat 97)), fbTemplate2) := by rfl
theorem c2_dpSetInterval_s2 : scanK ((reSize dpSetInterval + 2) * 6823) dpSetInterval (headMust dpSetInterval) 650 434 (some (Char.ofNat 97)) fbTemplate2 = .inl (1084, (some (Char.ofNat 97)), fb2t2) := by rfl
theorem c2_dpSetInterval_s3 : scanK ((reSize dpSetInterval + 2) * 6823) dpSetInterval (headMust dpSetInterval) 650 1084 (some (Char.ofNat 97)) fb2t2 = .inl (1734, (some (Char.ofNat 98)), fb2t3) := by rfl
theorem c2_dpSetInterval_s4 : scanK ((reSize dpSetInterval + 2) * 6823) dpSetInterval (headMust dpSetInterval) 650 1734 (some (Char.ofNat 98)) fb2t3 = .inl (2384, (some (Char.ofNat 32)), fb2t4) := by rfl
theorem c2_dpSetInterval_s5 : scanK ((reSize dpSetInterval + 2) * 6823) dpSetInterval (headMust dpSetInterval) 650 2384 (some (Char.ofNat 32)) fb2t4 = .inl (3034, (some (Char.ofNat 101)), fb2t5) := by rfl
theorem c2_dpSetInterval_s6 : scanK ((reSize dpSetInterval + 2) * 6823) dpSetInterval (headMust dpSetInterval) 650 3034 (some (Char.ofNat 101)) fb2t5 = .inl (3684, (some (Char.ofNat 101)), fb2t6) := by rfl
theorem c2_dpSetInterval_s7 : scanK ((reSize dpSetInterval + 2) * 6823) dpSetInterval (headMust dpSetInterval) 650 3684 (some (Char.ofNat 101)) fb2t6 = .inl (4334, (some (Char.ofNat 102)), fb2t7) := by rfl
theorem c2_dpSetInterval_s8 : scanK ((reSize dpSetInterval + 2) * 6823) dpSetInterval (headMust dpSetInterval) 650 4334 (some (Char.ofNat 102)) fb2t7 = .inl (4984, (some (Char.ofNat 32)), fb2t8) := by rfl
theorem c2_dpSetInterval_s9 : scanK ((reSize dpSetInterval + 2) * 6823) dpSetInterval (headMust dpSetInterval) 650 4984 (some (Char.ofNat 32)) fb2t8 = .inl (5634, (some (Char.ofNat 32)), fb2t9) := by rfl
theorem c2_dpSetInterval_s10 : scanK ((reSize dpSetInterval + 2) * 6823) dpSetInterval (headMust dpSetInterval) 650 5634 (some (Char.ofNat 32)) fb2t9 = .inl (6284, (some (Char.ofNat 97)), fb2t10) := by rfl
theorem c2_dpSetInterval_sE : scanK ((reSize dpSetInterval + 2) * 6823) dpSetInterval (headMust dpSetInterval) 538 6284 (some (Char.ofNat 97)) fb2t10 = .inr none := by rfl
theorem c2_dpSetInterval_miss : testG dpSetInterval (generateFallbackComponent gfEp) 0 = (false, 0) :=
  testG_gf_false dpSetInterval ((scanKIL c2_dpSetInterval_s0).trans ((scanKIL c2_dpSetInterval_s1).trans ((scanKIL c2_dpSetInterval_s2).trans ((scanKIL c2_dpSetInterval_s3).trans ((scanKIL c2_dpSetInterval_s4).trans ((scanKIL c2_dpSetInterval_s5).trans ((scanKIL c2_dpSetInterval_s6).trans ((scanKIL c2_dpSetInterval_s7).trans ((scanKIL c2_dpSetInterval_s8).trans ((scanKIL c2_dpSetInterval_s9).trans ((scanKIL c2_dpSetInterval_s10).trans (scanKIR c2_dpSetInterval_sE))))))))))))

theorem c2_dpDocumentWrite_s0 : scanK ((reSize dpDocumentWrite + 2) * 6823) dpDocumentWrite (headMust dpDocumentWrite) 406 0 none (generateFallbackComponent gfEp) = .inl (406, (some (Char.ofNat 39)), (gfEp ++ fbTemplate2)) := by rfl
theorem c2_dpDocumentWrite_s1 : scanK ((reSize dpDocumentWrite + 2) * 6823) dpDocumentWrite (headMust dpDocumentWrite) 28 406 (some (Char.ofNat 39)) (gfEp ++ fbTemplate2) = .inl (434, (some (Char.ofNat 97)), fbTemplate2) := by rfl
theorem c2_dpDocumentWrite_s2 : scanK ((reSize dpDocumentWrite + 2) * 6823) dpDocumentWrite (headMust dpDocumentWrite) 650 434 (some (Char.ofNat 97)) fbTemplate2 = .inl (1084, (some (Char.ofNat 97)), fb2t2) := by rfl
theorem c2_dpDocumentWrite_s3 : scanK ((reSize dpDocumentWrite + 2) * 6823) dpDocumentWrite (headMust dpDocumentWrite) 650 1084 (some (Char.ofNat 97)) fb2t2 = .inl (1734, (some (Char.ofNat 98)), fb2t3) := by rfl
theorem c2_dpDocumentWrite_s4 : scanK ((reSize dpDocumentWrite + 2) * 6823) dpDocumentWrite (headMust dpDocumentWrite) 650 1734 (some (Char.ofNat 98)) fb2t3 = .inl (2384, (some (Char.ofNat 32)), fb2t4) := by rfl
theorem c2_dpDocumentWrite_s5 : scanK ((reSize dpDocumentWrite + 2) * 6823) dpDocumentWrite (headMust dpDocumentWrite) 650 2384 (some (Char.ofNat 32)) fb2t4 = .inl (3034, (some (Char.ofNat 101)), fb2t5) := by rfl
theorem c2_dpDocumentWrite_s6 : scanK ((reSize dpDocumentWrite + 2) * 6823) dpDocumentWrite (headMust dpDocumentWrite) 650 3034 (some (Char.ofNat 101)) fb2t5 = .inl (3684, (some (Char.ofNat 101)), fb2t6) := by rfl
theorem c2_dpDocumentWrite_s7 : scanK ((reSize dpDocumentWrite + 2) * 6823) dpDocumentWrite (headMust dpDocumentWrite) 650 3684 (some (Char.ofNat 101)) fb2t6 = .inl (4334, (some (Char.ofNat 102)), fb2t7) := by rfl
theorem c2_dpDocumentWrite_s8 : scanK ((reSize dpDocumentWrite + 2) * 6823) dpDocumentWrite (headMust dpDocumentWrite) 650 4334 (some (Char.ofNat 102)) fb2t7 = .inl (4984, (some (Char.ofNat 32)), fb2t8) := by rfl
theorem c2_dpDocumentWrite_s9 : scanK ((reSize dpDocumentWrite + 2) * 6823) dpDocumentWrite (headMust dpDocumentWrite) 650 4984 (some (Char.ofNat 32)) fb2t8 = .inl (5634, (some (Char.ofNat 32)), fb2t9) := by rfl
theorem c2_dpDocumentWrite_s10 : scanK ((reSize dpDocumentWrite + 2) * 6823) dpDocumentWrite (headMust dpDocumentWrite) 650 5634 (some (Char.ofNat 32)) fb2t9 = .inl (6284, (some (Char.ofNat 97)), fb2t10) := by rfl
theorem c2_dpDocumentWrite_sE : scanK ((reSize dpDocumentWrite + 2) * 6823) dpDocumentWrite (headMust dpDocumentWrite) 538 6284 (some (Char.ofNat 97)) fb2t10 = .inr none := by rfl
theorem c2_dpDocumentWrite_miss : testG dpDocumentWrite (generateFallbackComponent gfEp) 0 = (false, 0) :=
  testG_gf_false dpDocumentWrite ((scanKIL c2_dpDocumentWrite_s0).trans ((scanKIL c2_dpDocumentWrite_s1).trans ((scanKIL c2_dpDocumentWrite_s2).trans ((scanKIL c2_dpDocumentWrite_s3).trans ((scanKIL c2_dpDocumentWrite_s4).trans ((scanKIL c2_dpDocumentWrite_s5).trans ((scanKIL c2_dpDocumentWrite_s6).trans ((scanKIL c2_dpDocumentWrite_s7).trans ((scanKIL c2_dpDocumentWrite_s8).trans ((scanKIL c2_dpDocumentWrite_s9).trans ((scanKIL c2_dpDocumentWrite_s10).trans (scanKIR c2_dpDocumentWrite_sE))))))))))))

theorem c2_dpDocumentCookie_s0 : scanK ((reSize dpDocumentCookie + 2) * 6823) dpDocumentCookie (headMust dpDocumentCookie) 406 0 none (generateFallbackComponent gfEp) = .inl (406, (some (Char.ofNat 39)), (gfEp ++ fbTemplate2)) := by rfl
theorem c2_dpDocumentCookie_s1 : scanK ((reSize dpDocumentCookie + 2) * 6823) dpDocumentCookie (headMust dpDocumentCookie) 28 406 (some (Char.ofNat 39)) (gfEp ++ fbTemplate2) = .inl (434, (some (Char.ofNat 97)), fbTemplate2) := by rfl
theorem c2_dpDocumentCookie_s2 : scanK ((reSize dpDocumentCookie + 2) * 6823) dpDocumentCookie (headMust dpDocumentCookie) 650 434 (some (Char.ofNat 97)) fbTemplate2 = .inl (1084, (some (Char.ofNat 97)), fb2t2) := by rfl
theorem c2_dpDocumentCookie_s3 : scanK ((reSize dpDocumentCookie + 2) * 6823) dpDocumentCookie (headMust dpDocumentCookie) 650 1084 (some (Char.ofNat 97)) fb2t2 = .inl (1734, (some (Char.ofNat 98)), fb2t3) := by rfl
theorem c2_dpDocumentCookie_s4 : scanK ((reSize dpDocumentCookie + 2) * 6823) dpDocumentCookie (headMust dpDocumentCookie) 650 1734 (some (Char.ofNat 98)) fb2t3 = .inl (2384, (some (Char.ofNat 32)), fb2t4) := by rfl
theorem c2_dpDocumentCookie_s5 : scanK ((reSize dpDocumentCookie + 2) * 6823) dpDocumentCookie (headMust dpDocumentCookie) 650 2384 (some (Char.ofNat 32)) fb2t4 = .inl (3034, (some (Char.ofNat 101)), fb2t5) := by rfl
theorem c2_dpDocumentCookie_s6 : scanK ((reSize dpDocumentCookie + 2) * 6823) dpDocumentCookie (headMust dpDocumentCookie) 650 3034 (some (Char.ofNat 101)) fb2t5 = .inl (3684, (some (Char.ofNat 101)), fb2t6) := by rfl
theorem c2_dpDocumentCookie_s7 : scanK ((reSize dpDocumentCookie + 2) * 6823) dpDocumentCookie (headMust dpDocumentCookie) 650 3684 (some (Char.ofNat 101)) fb2t6 = .inl (4334, (some (Char.ofNat 102)), fb2t7) := by rfl
theorem c2_dpDocumentCookie_s8 : scanK ((reSize dpDocumentCookie + 2) * 6823) dpDocumentCookie (headMust dpDocumentCookie) 650 4334 (some (Char.ofNat 102)) fb2t7 = .inl (4984, (some (Char.ofNat 32)), fb2t8) := by rfl
theorem c2_dpDocumentCookie_s9 : scanK ((reSize dpDocumentCookie + 2) * 6823) dpDocumentCookie (headMust dpDocumentCookie) 650 4984 (some (Char.ofNat 32)) fb2t8 = .inl (5634, (some (Char.ofNat 32)), fb2t9) := by rfl
theorem c2_dpDocumentCookie_s10 : scanK ((reSize dpDocumentCookie + 2) * 6823) dpDocumentCookie (headMust dpDocumentCookie) 650 5634 (some (Char.ofNat 32)) fb2t9 = .inl (6284, (some (Char.ofNat 97)), fb2t10) := by rfl
theorem c2_dpDocumentCookie_sE : scanK ((reSize dpDocumentCookie + 2) * 6823) dpDocumentCookie (headMust dpDocumentCookie) 538 6284 (some (Char.ofNat 97)) fb2t10 = .inr none := by rfl
theorem c2_dpDocumentCookie_miss : testG dpDocumentCookie (generateFallbackComponent gfEp) 0 = (false, 0) :=
  testG_gf_false dpDocumentCookie ((scanKIL c2_dpDocumentCookie_s0).trans ((scanKIL c2_dpDocumentCookie_s1).trans ((scanKIL c2_dpDocumentCookie_s2).trans ((scanKIL c2_dpDocumentCookie_s3).trans ((scanKIL c2_dpDocumentCookie_s4).trans ((scanKIL c2_dpDocumentCookie_s5).trans ((scanKIL c2_dpDocumentCookie_s6).trans ((scanKIL c2_dpDocumentCookie_s7).trans ((scanKIL c2_dpDocumentCookie_s8).trans ((scanKIL c2_dpDocumentCookie_s9).trans ((scanKIL c2_dpDocumentCookie_s10).trans (scanKIR c2_dpDocumentCookie_sE))))))))))))

theorem c2_dpWindowOpen_s0 : scanK ((reSize dpWindowOpen + 2) * 6823) dpWindowOpen (headMust dpWindowOpen) 406 0 none (generateFallbackComponent gfEp) = .inl (406, (some (Char.ofNat 39)), (gfEp ++ fbTemplate2)) := by rfl
theorem c2_dpWindowOpen_s1 : scanK ((reSize dpWindowOpen + 2) * 6823) dpWindowOpen (headMust dpWindowOpen) 28 406 (some (Char.ofNat 39)) (gfEp ++ fbTemplate2) = .inl (434, (some (Char.ofNat 97)), fbTemplate2) := by rfl
theorem c2_dpWindowOpen_s2 : scanK ((reSize dpWindowOpen + 2) * 6823) dpWindowOpen (headMust dpWindowOpen) 650 434 (some (Char.ofNat 97)) fbTemplate2 = .inl (1084, (some (Char.ofNat 97)), fb2t2) := by rfl
theorem c2_dpWindowOpen_s3 : scanK ((reSize dpWindowOpen + 2) * 6823) dpWindowOpen (headMust dpWindowOpen) 650 1084 (some (Char.ofNat 97)) fb2t2 = .inl (1734, (some (Char.ofNat 98)), fb2t3) := by rfl
theorem c2_dpWindowOpen_s4 : scanK ((reSize dpWindowOpen + 2) * 6823) dpWindowOpen (headMust dpWindowOpen) 650 1734 (some (Char.ofNat 98)) fb2t3 = .inl (2384, (some (Char.ofNat 32)), fb2t4) := by rfl
theorem c2_dpWindowOpen_s5 : scanK ((reSize dpWindowOpen + 2) * 6823) dpWindowOpen (headMust dpWindowOpen) 650 2384 (some (Char.ofNat 32)) fb2t4 = .inl (3034, (some (Char.ofNat 101)), fb2t5) := by rfl
theorem c2_dpWindowOpen_s6 : scanK ((reSize dpWindowOpen + 2) * 6823) dpWindowOpen (headMust dpWindowOpen) 650 3034 (some (Char.ofNat 101)) fb2t5 = .inl (3684, (some (Char.ofNat 101)), fb2t6) := by rfl
theorem c2_dpWindowOpen_s7 : scanK ((reSize dpWindowOpen + 2) * 6823) dpWindowOpen (headMust dpWindowOpen) 650 3684 (some (Char.ofNat 101)) fb2t6 = .inl (4334, (some (Char.ofNat 102)), fb2t7) := by rfl
theorem c2_dpWindowOpen_s8 : scanK ((reSize dpWindowOpen + 2) * 6823) dpWindowOpen (headMust dpWindowOpen) 650 4334 (some (Char.ofNat 102)) fb2t7 = .inl (4984, (some (Char.ofNat 32)), fb2t8) := by rfl
theorem c2_dpWindowOpen_s9 : scanK ((reSize dpWindowOpen + 2) * 6823) dpWindowOpen (headMust dpWindowOpen) 650 4984 (some (Char.ofNat 32)) fb2t8 = .inl (5634, (some (Char.ofNat 32)), fb2t9) := by rfl
theorem c2_dpWindowOpen_s10 : scanK ((reSize dpWindowOpen + 2) * 6823) dpWindowOpen (headMust dpWindowOpen) 650 5634 (some (Char.ofNat 32)) fb2t9 = .inl (6284, (some (Char.ofNat 97)), fb2t10) := by rfl
theorem c2_dpWindowOpen_sE : scanK ((reSize dpWindowOpen + 2) * 6823) dpWindowOpen (headMust dpWindowOpen) 538 6284 (some (Char.ofNat 97)) fb2t10 = .inr none := by rfl
theorem c2_dpWindowOpen_miss : testG dpWindowOpen (generateFallbackComponent gfEp) 0 = (false, 0) :=
  testG_gf_false dpWindowOpen ((scanKIL c2_dpWindowOpen_s0).trans ((scanKIL c2_dpWindowOpen_s1).trans ((scanKIL c2_dpWindowOpen_s2).trans ((scanKIL c2_dpWindowOpen_s3).trans ((scanKIL c2_dpWindowOpen_s4).trans ((scanKIL c2_dpWindowOpen_s5).trans ((scanKIL c2_dpWindowOpen_s6).trans ((scanKIL c2_dpWindowOpen_s7).trans ((scanKIL c2_dpWindowOpen_s8).trans ((scanKIL c2_dpWindowOpen_s9).trans ((scanKIL c2_dpWindowOpen_s10).trans (scanKIR c2_dpWindowOpen_sE))))))))))))

theorem c2_dpGlobal_s0 : scanK ((reSize dpGlobal + 2) * 6823) dpGlobal (headMust dpGlobal) 406 0 none (generateFallbackComponent gfEp) = .inl (406, (some (Char.ofNat 39)), (gfEp ++ fbTemplate2)) := by rfl
theorem c2_dpGlobal_s1 : scanK ((reSize dpGlobal + 2) * 6823) dpGlobal (headMust dpGlobal) 28 406 (some (Char.ofNat 39)) (gfEp ++ fbTemplate2) = .inl (434, (some (Char.ofNat 97)), fbTemplate2) := by rfl
theorem c2_dpGlobal_s2 : scanK ((reSize dpGlobal + 2) * 6823) dpGlobal (headMust dpGlobal) 650 434 (some (Char.ofNat 97)) fbTemplate2 = .inl (1084, (some (Char.ofNat 97)), fb2t2) := by rfl
theorem c2_dpGlobal_s3 : scanK ((reSize dpGlobal + 2) * 6823) dpGlobal (headMust dpGlobal) 650 1084 (some (Char.ofNat 97)) fb2t2 = .inl (1734, (some (Char.ofNat 98)), fb2t3) := by rfl
theorem c2_dpGlobal_s4 : scanK ((reSize dpGlobal + 2) * 6823) dpGlobal (headMust dpGlobal) 650 1734 (some (Char.ofNat 98)) fb2t3 = .inl (2384, (some (Char.ofNat 32)), fb2t4) := by rfl
theorem c2_dpGlobal_s5 : scanK ((reSize dpGlobal + 2) * 6823) dpGlobal (headMust dpGlobal) 650 2384 (some (Char.ofNat 32)) fb2t4 = .inl (3034, (some (Char.ofNat 101)), fb2t5) := by rfl
theorem c2_dpGlobal_s6 : scanK ((reSize dpGlobal + 2) * 6823) dpGlobal (headMust dpGlobal) 650 3034 (some (Char.ofNat 101)) fb2t5 = .inl (3684, (some (Char.ofNat 101)), fb2t6) := by rfl
theorem c2_dpGlobal_s7 : scanK ((reSize dpGlobal + 2) * 6823) dpGlobal (headMust dpGlobal) 650 3684 (some (Char.ofNat 101)) fb2t6 = .inl (4334, (some (Char.ofNat 102)), fb2t7) := by rfl
theorem c2_dpGlobal_s8 : scanK ((reSize dpGlobal + 2) * 6823) dpGlobal (headMust dpGlobal) 650 4334 (some (Char.ofNat 102)) fb2t7 = .inl (4984, (some (Char.ofNat 32)), fb2t8) := by rfl
theorem c2_dpGlobal_s9 : scanK ((reSize dpGlobal + 2) * 6823) dpGlobal (headMust dpGlobal) 650 4984 (some (Char.ofNat 32)) fb2t8 = .inl (5634, (some (Char.ofNat 32)), fb2t9) := by rfl
theorem c2_dpGlobal_s10 : scanK ((reSize dpGlobal + 2) * 6823) dpGlobal (headMust dpGlobal) 650 5634 (some (Char.ofNat 32)) fb2t9 = .inl (6284, (some (Char.ofNat 97)), fb2t10) := by rfl
theorem c2_dpGlobal_sE : scanK ((reSize dpGlobal + 2) * 6823) dpGlobal (headMust dpGlobal) 538 6284 (some (Char.ofNat 97)) fb2t10 = .inr none := by rfl
theorem c2_dpGlobal_miss : testG dpGlobal (generateFallbackComponent gfEp) 0 = (false, 0) :=
  testG_gf_false dpGlobal ((scanKIL c2_dpGlobal_s0).trans ((scanKIL c2_dpGlobal_s1).trans ((scanKIL c2_dpGlobal_s2).trans ((scanKIL c2_dpGlobal_s3).trans ((scanKIL c2_dpGlobal_s4).trans ((scanKIL c2_dpGlobal_s5).trans ((scanKIL c2_dpGlobal_s6).trans ((scanKIL c2_dpGlobal_s7).trans ((scanKIL c2_dpGlobal_s8).trans ((scanKIL c2_dpGlobal_s9).trans ((scanKIL c2_dpGlobal_s10).trans (scanKIR c2_dpGlobal_sE))))))))))))

theorem c2_dpProcess_s0 : scanK ((reSize dpProcess + 2) * 6823) dpProcess (headMust dpProcess) 406 0 none (generateFallbackComponent gfEp) = .inl (406, (some (Char.ofNat 39)), (gfEp ++ fbTemplate2)) := by rfl
theorem c2_dpProcess_s1 : scanK ((reSize dpProcess + 2) * 6823) dpProcess (headMust dpProcess) 28 406 (some (Char.ofNat 39)) (gfEp ++ fbTemplate2) = .inl (434, (some (Char.ofNat 97)), fbTemplate2) := by rfl
theorem c2_dpProcess_s2 : scanK ((reSize dpProcess + 2) * 6823) dpProcess (headMust dpProcess) 650 434 (some (Char.ofNat 97)) fbTemplate2 = .inl (1084, (some (Char.ofNat 97)), fb2t2) := by rfl
theorem c2_dpProcess_s3 : scanK ((reSize dpProcess + 2) * 6823) dpProcess (headMust dpProcess) 650 1084 (some (Char.ofNat 97)) fb2t2 = .inl (1734, (some (Char.ofNat 98)), fb2t3) := by rfl
theorem c2_dpProcess_s4 : scanK ((reSize dpProcess + 2) * 6823) dpProcess (headMust dpProcess) 650 1734 (some (Char.ofNat 98)) fb2t3 = .inl (2384, (some (Char.ofNat 32)), fb2t4) := by rfl
theorem c2_dpProcess_s5 : scanK ((reSize dpProcess + 2) * 6823) dpProcess (headMust dpProcess) 650 2384 (some (Char.ofNat 32)) fb2t4 = .inl (3034, (some (Char.ofNat 101)), fb2t5) := by rfl
theorem c2_dpProcess_s6 : scanK ((reSize dpProcess + 2) * 6823) dpProcess (headMust dpProcess) 650 3034 (some (Char.ofNat 101)) fb2t5 = .inl (3684, (some (Char.ofNat 101)), fb2t6) := by rfl
theorem c2_dpProcess_s7 : scanK ((reSize dpProcess + 2) * 6823) dpProcess (headMust dpProcess) 650 3684 (some (Char.ofNat 101)) fb2t6 = .inl (4334, (some (Char.ofNat 102)), fb2t7) := by rfl
theorem c2_dpProcess_s8 : scanK ((reSize dpProcess + 2) * 6823) dpProcess (headMust dpProcess) 650 4334 (some (Char.ofNat 102)) fb2t7 = .inl (4984, (some (Char.ofNat 32)), fb2t8) := by rfl
theorem c2_dpProcess_s9 : scanK ((reSize dpProcess + 2) * 6823) dpProcess (headMust dpProcess) 650 4984 (some (Char.ofNat 32)) fb2t8 = .inl (5634, (some (Char.ofNat 32)), fb2t9) := by rfl
theorem c2_dpProcess_s10 : scanK ((reSize dpProcess + 2) * 6823) dpProcess (headMust dpProcess) 650 5634 (some (Char.ofNat 32)) fb2t9 = .inl (6284, (some (Char.ofNat 97)), fb2t10) := by rfl
theorem c2_dpProcess_sE : scanK ((reSize dpProcess + 2) * 6823) dpProcess (headMust dpProcess) 538 6284 (some (Char.ofNat 97)) fb2t10 = .inr none := by rfl
theorem c2_dpProcess_miss : testG dpProcess (generateFallbackComponent gfEp) 0 = (false, 0) :=
  testG_gf_false dpProcess ((scanKIL c2_dpProcess_s0).trans ((scanKIL c2_dpProcess_s1).trans ((scanKIL c2_dpProcess_s2).trans ((scanKIL c2_dpProcess_s3).trans ((scanKIL c2_dpProcess_s4).trans ((scanKIL c2_dpProcess_s5).trans ((scanKIL c2_dpProcess_s6).trans ((scanKIL c2_dpProcess_s7).trans ((scanKIL c2_dpProcess_s8).trans ((scanKIL c2_dpProcess_s9).trans ((scanKIL c2_dpProcess_s10).trans (scanKIR c2_dpProcess_sE))))))))))))

theorem c2_dpRequire_s0 : scanK ((reSize dpRequire + 2) * 6823) dpRequire (headMust dpRequire) 406 0 none (generateFallbackComponent gfEp) = .inl (406, (some (Char.ofNat 39)), (gfEp ++ fbTemplate2)) := by rfl
theorem c2_dpRequire_s1 : scanK ((reSize dpRequire + 2) * 6823) dpRequire (headMust dpRequire) 28 406 (some (Char.ofNat 39)) (gfEp ++ fbTemplate2) = .inl (434, (some (Char.ofNat 97)), fbTemplate2) := by rfl
theorem c2_dpRequire_s2 : scanK ((reSize dpRequire + 2) * 6823) dpRequire (headMust dpRequire) 650 434 (some (Char.ofNat 97)) fbTemplate2 = .inl (1084, (some (Char.ofNat 97)), fb2t2) := by rfl
theorem c2_dpRequire_s3 : scanK ((reSize dpRequire + 2) * 6823) dpRequire (headMust dpRequire) 650 1084 (some (Char.ofNat 97)) fb2t2 = .inl (1734, (some (Char.ofNat 98)), fb2t3) := by rfl
theorem c2_dpRequire_s4 : scanK ((reSize dpRequire + 2) * 6823) dpRequire (headMust dpRequire) 650 1734 (some (Char.ofNat 98)) fb2t3 = .inl (2384, (some (Char.ofNat 32)), fb2t4) := by rfl
theorem c2_dpRequire_s5 : scanK ((reSize dpRequire + 2) * 6823) dpRequire (headMust dpRequire) 650 2384 (some (Char.ofNat 32)) fb2t4 = .inl (3034, (some (Char.ofNat 101)), fb2t5) := by rfl
theorem c2_dpRequire_s6 : scanK ((reSize dpRequire + 2) * 6823) dpRequire (headMust dpRequire) 650 3034 (some (Char.ofNat 101)) fb2t5 = .inl (3684, (some (Char.ofNat 101)), fb2t6) := by rfl
theorem c2_dpRequire_s7 : scanK ((reSize dpRequire + 2) * 6823) dpRequire (headMust dpRequire) 650 3684 (some (Char.ofNat 101)) fb2t6 = .inl (4334, (some (Char.ofNat 102)), fb2t7) := by rfl
theorem c2_dpRequire_s8 : scanK ((reSize dpRequire + 2) * 6823) dpRequire (headMust dpRequire) 650 4334 (some (Char.ofNat 102)) fb2t7 = .inl (4984, (some (Char.ofNat 32)), fb2t8) := by rfl
theorem c2_dpRequire_s9 : scanK ((reSize dpRequire + 2) * 6823) dpRequire (headMust dpRequire) 650 4984 (some (Char.ofNat 32)) fb2t8 = .inl (5634, (some (Char.ofNat 32)), fb2t9) := by rfl
theorem c2_dpRequire_s10 : scanK ((reSize dpRequire + 2) * 6823) dpRequire (headMust dpRequire) 650 5634 (some (Char.ofNat 32)) fb2t9 = .inl (6284, (some (Char.ofNat 97)), fb2t10) := by rfl
theorem c2_dpRequire_sE : scanK ((reSize dpRequire + 2) * 6823) dpRequire (headMust dpRequire) 538 6284 (some (Char.ofNat 97)) fb2t10 = .inr none := by rfl
theorem c2_dpRequire_miss : testG dpRequire (generateFallbackComponent gfEp) 0 = (false, 0) :=
  testG_gf_false dpRequire ((scanKIL c2_dpRequire_s0).trans ((scanKIL c2_dpRequire_s1).trans ((scanKIL c2_dpRequire_s2).trans ((scanKIL c2_dpRequire_s3).trans ((scanKIL c2_dpRequire_s4).trans ((scanKIL c2_dpRequire_s5).trans ((scanKIL c2_dpRequire_s6).trans ((scanKIL c2_dpRequire_s7).trans ((scanKIL c2_dpRequire_s8).trans ((scanKIL c2_dpRequire_s9).trans ((scanKIL c2_dpRequire_s10).trans (scanKIR c2_dpRequire_sE))))))))))))

theorem c2_dpXMLHttpRequest_s0 : scanK ((reSize dpXMLHttpRequest + 2) * 6823) dpXMLHttpRequest (headMust dpXMLHttpRequest) 406 0 none (generateFallbackComponent gfEp) = .inl (406, (some (Char.ofNat 39)), (gfEp ++ fbTemplate2)) := by rfl
theorem c2_dpXMLHttpRequest_s1 : scanK ((reSize dpXMLHttpRequest + 2) * 6823) dpXMLHttpRequest (headMust dpXMLHttpRequest) 28 406 (some (Char.ofNat 39)) (gfEp ++ fbTemplate2) = .inl (434, (some (Char.ofNat 97)), fbTemplate2) := by rfl
theorem c2_dpXMLHttpRequest_s2 : scanK ((reSize dpXMLHttpRequest + 2) * 6823) dpXMLHttpRequest (headMust dpXMLHttpRequest) 650 434 (some (Char.ofNat 97)) fbTemplate2 = .inl (1084, (some (Char.ofNat 97)), fb2t2) := by rfl
theorem c2_dpXMLHttpRequest_s3 : scanK ((reSize dpXMLHttpRequest + 2) * 6823) dpXMLHttpRequest (headMust dpXMLHttpRequest) 650 1084 (some (Char.ofNat 97)) fb2t2 = .inl (1734, (some (Char.ofNat 98)), fb2t3) := by rfl
theorem c2_dpXMLHttpRequest_s4 : scanK ((reSize dpXMLHttpRequest + 2) * 6823) dpXMLHttpRequest (headMust dpXMLHttpRequest) 650 1734 (some (Char.ofNat 98)) fb2t3 = .inl (2384, (some (Char.ofNat 32)), fb2t4) := by rfl
theorem c2_dpXMLHttpRequest_s5 : scanK ((reSize dpXMLHttpRequest + 2) * 6823) dpXMLHttpRequest (headMust dpXMLHttpRequest) 650 2384 (some (Char.ofNat 32)) fb2t4 = .inl (3034, (some (Char.ofNat 101)), fb2t5) := by rfl
theorem c2_dpXMLHttpRequest_s6 : scanK ((reSize dpXMLHttpRequest + 2) * 6823) dpXMLHttpRequest (headMust dpXMLHttpRequest) 650 3034 (some (Char.ofNat 101)) fb2t5 = .inl (3684, (some (Char.ofNat 101)), fb2t6) := by rfl
theorem c2_dpXMLHttpRequest_s7 : scanK ((reSize dpXMLHttpRequest + 2) * 6823) dpXMLHttpRequest (headMust dpXMLHttpRequest) 650 3684 (some (Char.ofNat 101)) fb2t6 = .inl (4334, (some (Char.ofNat 102)), fb2t7) := by rfl
theorem c2_dpXMLHttpRequest_s8 : scanK ((reSize dpXMLHttpRequest + 2) * 6823) dpXMLHttpRequest (headMust dpXMLHttpRequest) 650 4334 (some (Char.ofNat 102)) fb2t7 = .inl (4984, (some (Char.ofNat 32)), fb2t8) := by rfl
theorem c2_dpXMLHttpRequest_s9 : scanK ((reSize dpXMLHttpRequest + 2) * 6823) dpXMLHttpRequest (headMust dpXMLHttpRequest) 650 4984 (some (Char.ofNat 32)) fb2t8 = .inl (5634, (some (Char.ofNat 32)), fb2t9) := by rfl
theorem c2_dpXMLHttpRequest_s10 : scanK ((reSize dpXMLHttpRequest + 2) * 6823) dpXMLHttpRequest (headMust dpXMLHttpRequest) 650 5634 (some (Char.ofNat 32)) fb2t9 = .inl (6284, (some (Char.ofNat 97)), fb2t10) := by rfl
theorem c2_dpXMLHttpRequest_sE : scanK ((reSize dpXMLHttpRequest + 2) * 6823) dpXMLHttpRequest (headMust dpXMLHttpRequest) 538 6284 (some (Char.ofNat 97)) fb2t10 = .inr none := by rfl
theorem c2_dpXMLHttpRequest_miss : testG dpXMLHttpRequest (generateFallbackComponent gfEp) 0 = (false, 0) :=
  testG_gf_false dpXMLHttpRequest ((scanKIL c2_dpXMLHttpRequest_s0).trans ((scanKIL c2_dpXMLHttpRequest_s1).trans ((scanKIL c2_dpXMLHttpRequest_s2).trans ((scanKIL c2_dpXMLHttpRequest_s3).trans ((scanKIL c2_dpXMLHttpRequest_s4).trans ((scanKIL c2_dpXMLHttpRequest_s5).trans ((scanKIL c2_dpXMLHttpRequest_s6).trans ((scanKIL c2_dpXMLHttpRequest_s7).trans ((scanKIL c2_dpXMLHttpRequest_s8).trans ((scanKIL c2_dpXMLHttpRequest_s9).trans ((scanKIL c2_dpXMLHttpRequest_s10).trans (scanKIR c2_dpXMLHttpRequest_sE))))))))))))

theorem c2_dpLocalStorage_s0 : scanK ((reSize dpLocalStorage + 2) * 6823) dpLocalStorage (headMust dpLocalStorage) 406 0 none (generateFallbackComponent gfEp) = .inl (406, (some (Char.ofNat 39)), (gfEp ++ fbTemplate2)) := by rfl
theorem c2_dpLocalStorage_s1 : scanK ((reSize dpLocalStorage + 2) * 6823) dpLocalStorage (headMust dpLocalStorage) 28 406 (some (Char.ofNat 39)) (gfEp ++ fbTemplate2) = .inl (434, (some (Char.ofNat 97)), fbTemplate2) := by rfl
theorem c2_dpLocalStorage_s2 : scanK ((reSize dpLocalStorage + 2) * 6823) dpLocalStorage (headMust dpLocalStorage) 650 434 (some (Char.ofNat 97)) fbTemplate2 = .inl (1084, (some (Char.ofNat 97)), fb2t2) := by rfl
theorem c2_dpLocalStorage_s3 : scanK ((reSize dpLocalStorage + 2) * 6823) dpLocalStorage (headMust dpLocalStorage) 650 1084 (some (Char.ofNat 97)) fb2t2 = .inl (1734, (some (Char.ofNat 98)), fb2t3) := by rfl
theorem c2_dpLocalStorage_s4 : scanK ((reSize dpLocalStorage + 2) * 6823) dpLocalStorage (headMust dpLocalStorage) 650 1734 (some (Char.ofNat 98)) fb2t3 = .inl (2384, (some (Char.ofNat 32)), fb2t4) := by rfl
theorem c2_dpLocalStorage_s5 : scanK ((reSize dpLocalStorage + 2) * 6823) dpLocalStorage (headMust dpLocalStorage) 650 2384 (some (Char.ofNat 32)) fb2t4 = .inl (3034, (some (Char.ofNat 101)), fb2t5) := by rfl
theorem c2_dpLocalStorage_s6 : scanK ((reSize dpLocalStorage + 2) * 6823) dpLocalStorage (headMust dpLocalStorage) 650 3034 (some (Char.ofNat 101)) fb2t5 = .inl (3684, (some (Char.ofNat 101)), fb2t6) := by rfl
theorem c2_dpLocalStorage_s7 : scanK ((reSize dpLocalStorage + 2) * 6823) dpLocalStorage (headMust dpLocalStorage) 650 3684 (some (Char.ofNat 101)) fb2t6 = .inl (4334, (some (Char.ofNat 102)), fb2t7) := by rfl
theorem c2_dpLocalStorage_s8 : scanK ((reSize dpLocalStorage + 2) * 6823) dpLocalStorage (headMust dpLocalStorage) 650 4334 (some (Char.ofNat 102)) fb2t7 = .inl (4984, (some (Char.ofNat 32)), fb2t8) := by rfl
theorem c2_dpLocalStorage_s9 : scanK ((reSize dpLocalStorage + 2) * 6823) dpLocalStorage (headMust dpLocalStorage) 650 4984 (some (Char.ofNat 32)) fb2t8 = .inl (5634, (some (Char.ofNat 32)), fb2t9) := by rfl
theorem c2_dpLocalStorage_s10 : scanK ((reSize dpLocalStorage + 2) * 6823) dpLocalStorage (headMust dpLocalStorage) 650 5634 (some (Char.ofNat 32)) fb2t9 = .inl (6284, (some (Char.ofNat 97)), fb2t10) := by rfl
theorem c2_dpLocalStorage_sE : scanK ((reSize dpLocalStorage + 2) * 6823) dpLocalStorage (headMust dpLocalStorage) 538 6284 (some (Char.ofNat 97)) fb2t10 = .inr none := by rfl
theorem c2_dpLocalStorage_miss : testG dpLocalStorage (generateFallbackComponent gfEp) 0 = (false, 0) :=
  testG_gf_false dpLocalStorage ((scanKIL c2_dpLocalStorage_s0).trans ((scanKIL c2_dpLocalStorage_s1).trans ((scanKIL c2_dpLocalStorage_s2).trans ((scanKIL c2_dpLocalStorage_s3).trans ((scanKIL c2_dpLocalStorage_s4).trans ((scanKIL c2_dpLocalStorage_s5).trans ((scanKIL c2_dpLocalStorage_s6).trans ((scanKIL c2_dpLocalStorage_s7).trans ((scanKIL c2_dpLocalStorage_s8).trans ((scanKIL c2_dpLocalStorage_s9).trans ((scanKIL c2_dpLocalStorage_s10).trans (scanKIR c2_dpLocalStorage_sE))))))))))))

theorem c2_dpSessionStorage_s0 : scanK ((reSize dpSessionStorage + 2) * 6823) dpSessionStorage (headMust dpSessionStorage) 406 0 none (generateFallbackComponent gfEp) = .inl (406, (some (Char.ofNat 39)), (gfEp ++ fbTemplate2)) := by rfl
theorem c2_dpSessionStorage_s1 : scanK ((reSize dpSessionStorage + 2) * 6823) dpSessionStorage (headMust dpSessionStorage) 28 406 (some (Char.ofNat 39)) (gfEp ++ fbTemplate2) = .inl (434, (some (Char.ofNat 97)), fbTemplate2) := by rfl
theorem c2_dpSessionStorage_s2 : scanK ((reSize dpSessionStorage + 2) * 6823) dpSessionStorage (headMust dpSessionStorage) 650 434 (some (Char.ofNat 97)) fbTemplate2 = .inl (1084, (some (Char.ofNat 97)), fb2t2) := by rfl
theorem c2_dpSessionStorage_s3 : scanK ((reSize dpSessionStorage + 2) * 6823) dpSessionStorage (headMust dpSessionStorage) 650 1084 (some (Char.ofNat 97)) fb2t2 = .inl (1734, (some (Char.ofNat 98)), fb2t3) := by rfl
theorem c2_dpSessionStorage_s4 : scanK ((reSize dpSessionStorage + 2) * 6823) dpSessionStorage (headMust dpSessionStorage) 650 1734 (some (Char.ofNat 98)) fb2t3 = .inl (2384, (some (Char.ofNat 32)), fb2t4) := by rfl
theorem c2_dpSessionStorage_s5 : scanK ((reSize dpSessionStorage + 2) * 6823) dpSessionStorage (headMust dpSessionStorage) 650 2384 (some (Char.ofNat 32)) fb2t4 = .inl (3034, (some (Char.ofNat 101)), fb2t5) := by rfl
theorem c2_dpSessionStorage_s6 : scanK ((reSize dpSessionStorage + 2) * 6823) dpSessionStorage (headMust dpSessionStorage) 650 3034 (some (Char.ofNat 101)) fb2t5 = .inl (3684, (some (Char.ofNat 101)), fb2t6) := by rfl
theorem c2_dpSessionStorage_s7 : scanK ((reSize dpSessionStorage + 2) * 6823) dpSessionStorage (headMust dpSessionStorage) 650 3684 (some (Char.ofNat 101)) fb2t6 = .inl (4334, (some (Char.ofNat 102)), fb2t7) := by rfl
theorem c2_dpSessionStorage_s8 : scanK ((reSize dpSessionStorage + 2) * 6823) dpSessionStorage (headMust dpSessionStorage) 650 4334 (some (Char.ofNat 102)) fb2t7 = .inl (4984, (some (Char.ofNat 32)), fb2t8) := by rfl
theorem c2_dpSessionStorage_s9 : scanK ((reSize dpSessionStorage + 2) * 6823) dpSessionStorage (headMust dpSessionStorage) 650 4984 (some (Char.ofNat 32)) fb2t8 = .inl (5634, (some (Char.ofNat 32)), fb2t9) := by rfl
theorem c2_dpSessionStorage_s10 : scanK ((reSize dpSessionStorage + 2) * 6823) dpSessionStorage (headMust dpSessionStorage) 650 5634 (some (Char.ofNat 32)) fb2t9 = .inl (6284, (some (Char.ofNat 97)), fb2t10) := by rfl
theorem c2_dpSessionStorage_sE : scanK ((reSize dpSessionStorage + 2) * 6823) dpSessionStorage (headMust dpSessionStorage) 538 6284 (some (Char.ofNat 97)) fb2t10 = .inr none := by rfl
theorem c2_dpSessionStorage_miss : testG dpSessionStorage (generateFallbackComponent gfEp) 0 = (false, 0) :=
  testG_gf_false dpSessionStorage ((scanKIL c2_dpSessionStorage_s0).trans ((scanKIL c2_dpSessionStorage_s1).trans ((scanKIL c2_dpSessionStorage_s2).trans ((scanKIL c2_dpSessionStorage_s3).trans ((scanKIL c2_dpSessionStorage_s4).trans ((scanKIL c2_dpSessionStorage_s5).trans ((scanKIL c2_dpSessionStorage_s6).trans ((scanKIL c2_dpSessionStorage_s7).trans ((scanKIL c2_dpSessionStorage_s8).trans ((scanKIL c2_dpSessionStorage_s9).trans ((scanKIL c2_dpSessionStorage_s10).trans (scanKIR c2_dpSessionStorage_sE))))))))))))

theorem c2_dpIndexedDB_s0 : scanK ((reSize dpIndexedDB + 2) * 6823) dpIndexedDB (headMust dpIndexedDB) 406 0 none (generateFallbackComponent gfEp) = .inl (406, (some (Char.ofNat 39)), (gfEp ++ fbTemplate2)) := by rfl
theorem c2_dpIndexedDB_s1 : scanK ((reSize dpIndexedDB + 2) * 6823) dpIndexedDB (headMust dpIndexedDB) 28 406 (some (Char.ofNat 39)) (gfEp ++ fbTemplate2) = .inl (434, (some (Char.ofNat 97)), fbTemplate2) := by rfl
theorem c2_dpIndexedDB_s2 : scanK ((reSize dpIndexedDB + 2) * 6823) dpIndexedDB (headMust dpIndexedDB) 650 434 (some (Char.ofNat 97)) fbTemplate2 = .inl (1084, (some (Char.ofNat 97)), fb2t2) := by rfl
theorem c2_dpIndexedDB_s3 : scanK ((reSize dpIndexedDB + 2) * 6823) dpIndexedDB (headMust dpIndexedDB) 650 1084 (some (Char.ofNat 97)) fb2t2 = .inl (1734, (some (Char.ofNat 98)), fb2t3) := by rfl
theorem c2_dpIndexedDB_s4 : scanK ((reSize dpIndexedDB + 2) * 6823) dpIndexedDB (headMust dpIndexedDB) 650 1734 (some (Char.ofNat 98)) fb2t3 = .inl (2384, (some (Char.ofNat 32)), fb2t4) := by rfl
theorem c2_dpIndexedDB_s5 : scanK ((reSize dpIndexedDB + 2) * 6823) dpIndexedDB (headMust dpIndexedDB) 650 2384 (some (Char.ofNat 32)) fb2t4 = .inl (3034, (some (Char.ofNat 101)), fb2t5) := by rfl
theorem c2_dpIndexedDB_s6 : scanK ((reSize dpIndexedDB + 2) * 6823) dpIndexedDB (headMust dpIndexedDB) 650 3034 (some (Char.ofNat 101)) fb2t5 = .inl (3684, (some (Char.ofNat 101)), fb2t6) := by rfl
theorem c2_dpIndexedDB_s7 : scanK ((reSize dpIndexedDB + 2) * 6823) dpIndexedDB (headMust dpIndexedDB) 650 3684 (some (Char.ofNat 101)) fb2t6 = .inl (4334, (some (Char.ofNat 102)), fb2t7) := by rfl
theorem c2_dpIndexedDB_s8 : scanK ((reSize dpIndexedDB + 2) * 6823) dpIndexedDB (headMust dpIndexedDB) 650 4334 (some (Char.ofNat 102)) fb2t7 = .inl (4984, (some (Char.ofNat 32)), fb2t8) := by rfl
theorem c2_dpIndexedDB_s9 : scanK ((reSize dpIndexedDB + 2) * 6823) dpIndexedDB (headMust dpIndexedDB) 650 4984 (some (Char.ofNat 32)) fb2t8 = .inl (5634, (some (Char.ofNat 32)), fb2t9) := by rfl
theorem c2_dpIndexedDB_s10 : scanK ((reSize dpIndexedDB + 2) * 6823) dpIndexedDB (headMust dpIndexedDB) 650 5634 (some (Char.ofNat 32)) fb2t9 = .inl (6284, (some (Char.ofNat 97)), fb2t10) := by rfl
theorem c2_dpIndexedDB_sE : scanK ((reSize dpIndexedDB + 2) * 6823) dpIndexedDB (headMust dpIndexedDB) 538 6284 (some (Char.ofNat 97)) fb2t10 = .inr none := by rfl
theorem c2_dpIndexedDB_miss : testG dpIndexedDB (generateFallbackComponent gfEp) 0 = (false, 0) :=
  testG_gf_false dpIndexedDB ((scanKIL c2_dpIndexedDB_s0).trans ((scanKIL c2_dpIndexedDB_s1).trans ((scanKIL c2_dpIndexedDB_s2).trans ((scanKIL c2_dpIndexedDB_s3).trans ((scanKIL c2_dpIndexedDB_s4).trans ((scanKIL c2_dpIndexedDB_s5).trans ((scanKIL c2_dpIndexedDB_s6).trans ((scanKIL c2_dpIndexedDB_s7).trans ((scanKIL c2_dpIndexedDB_s8).trans ((scanKIL c2_dpIndexedDB_s9).trans ((scanKIL c2_dpIndexedDB_s10).trans (scanKIR c2_dpIndexedDB_sE))))))))))))

theorem c2_dpNavigatorGeolocation_s0 : scanK ((reSize dpNavigatorGeolocation + 2) * 6823) dpNavigatorGeolocation (headMust dpNavigatorGeolocation) 406 0 none (generateFallbackComponent gfEp) = .inl (406, (some (Char.ofNat 39)), (gfEp ++ fbTemplate2)) := by rfl
theorem c2_dpNavigatorGeolocation_s1 : scanK ((reSize dpNavigatorGeolocation + 2) * 6823) dpNavigatorGeolocation (headMust dpNavigatorGeolocation) 28 406 (some (Char.ofNat 39)) (gfEp ++ fbTemplate2) = .inl (434, (some (Char.ofNat 97)), fbTemplate2) := by rfl
theorem c2_dpNavigatorGeolocation_s2 : scanK ((reSize dpNavigatorGeolocation + 2) * 6823) dpNavigatorGeolocation (headMust dpNavigatorGeolocation) 650 434 (some (Char.ofNat 97)) fbTemplate2 = .inl (1084, (some (Char.ofNat 97)), fb2t2) := by rfl
theorem c2_dpNavigatorGeolocation_s3 : scanK ((reSize dpNavigatorGeolocation + 2) * 6823) dpNavigatorGeolocation (headMust dpNavigatorGeolocation) 650 1084 (some (Char.ofNat 97)) fb2t2 = .inl (1734, (some (Char.ofNat 98)), fb2t3) := by rfl
theorem c2_dpNavigatorGeolocation_s4 : scanK ((reSize dpNavigatorGeolocation + 2) * 6823) dpNavigatorGeolocation (headMust dpNavigatorGeolocation) 650 1734 (some (Char.ofNat 98)) fb2t3 = .inl (2384, (some (Char.ofNat 32)), fb2t4) := by rfl
theorem c2_dpNavigatorGeolocation_s5 : scanK ((reSize dpNavigatorGeolocation + 2) * 6823) dpNavigatorGeolocation (headMust dpNavigatorGeolocation) 650 2384 (some (Char.ofNat 32)) fb2t4 = .inl (3034, (some (Char.ofNat 101)), fb2t5) := by rfl
theorem c2_dpNavigatorGeolocation_s6 : scanK ((reSize dpNavigatorGeolocation + 2) * 6823) dpNavigatorGeolocation (headMust dpNavigatorGeolocation) 650 3034 (some (Char.ofNat 101)) fb2t5 = .inl (3684, (some (Char.ofNat 101)), fb2t6) := by rfl
theorem c2_dpNavigatorGeolocation_s7 : scanK ((reSize dpNavigatorGeolocation + 2) * 6823) dpNavigatorGeolocation (headMust dpNavigatorGeolocation) 650 3684 (some (Char.ofNat 101)) fb2t6 = .inl (4334, (some (Char.ofNat 102)), fb2t7) := by rfl
theorem c2_dpNavigatorGeolocation_s8 : scanK ((reSize dpNavigatorGeolocation + 2) * 6823) dpNavigatorGeolocation (headMust dpNavigatorGeolocation) 650 4334 (some (Char.ofNat 102)) fb2t7 = .inl (4984, (some (Char.ofNat 32)), fb2t8) := by rfl
theorem c2_dpNavigatorGeolocation_s9 : scanK ((reSize dpNavigatorGeolocation + 2) * 6823) dpNavigatorGeolocation (headMust dpNavigatorGeolocation) 650 4984 (some (Char.ofNat 32)) fb2t8 = .inl (5634, (some (Char.ofNat 32)), fb2t9) := by rfl
theorem c2_dpNavigatorGeolocation_s10 : scanK ((reSize dpNavigatorGeolocation + 2) * 6823) dpNavigatorGeolocation (headMust dpNavigatorGeolocation) 650 5634 (some (Char.ofNat 32)) fb2t9 = .inl (6284, (some (Char.ofNat 97)), fb2t10) := by rfl
theorem c2_dpNavigatorGeolocation_sE : scanK ((reSize dpNavigatorGeolocation + 2) * 6823) dpNavigatorGeolocation (headMust dpNavigatorGeolocation) 538 6284 (some (Char.ofNat 97)) fb2t10 = .inr none := by rfl
theorem c2_dpNavigatorGeolocation_miss : testG dpNavigatorGeolocation (generateFallbackComponent gfEp) 0 = (false, 0) :=
  testG_gf_false dpNavigatorGeolocation ((scanKIL c2_dpNavigatorGeolocation_s0).trans ((scanKIL c2_dpNavigatorGeolocation_s1).trans ((scanKIL c2_dpNavigatorGeolocation_s2).trans ((scanKIL c2_dpNavigatorGeolocation_s3).trans ((scanKIL c2_dpNavigatorGeolocation_s4).trans ((scanKIL c2_dpNavigatorGeolocation_s5).trans ((scanKIL c2_dpNavigatorGeolocation_s6).trans ((scanKIL c2_dpNavigatorGeolocation_s7).trans ((scanKIL c2_dpNavigatorGeolocation_s8).trans ((scanKIL c2_dpNavigatorGeolocation_s9).trans ((scanKIL c2_dpNavigatorGeolocation_s10).trans (scanKIR c2_dpNavigatorGeolocation_sE))))))))))))

theorem c2_dpDirname_s0 : scanK ((reSize dpDirname + 2) * 6823) dpDirname (headMust dpDirname) 406 0 none (generateFallbackComponent gfEp) = .inl (406, (some (Char.ofNat 39)), (gfEp ++ fbTemplate2)) := by rfl
theorem c2_dpDirname_s1 : scanK ((reSize dpDirname + 2) * 6823) dpDirname (headMust dpDirname) 28 406 (some (Char.ofNat 39)) (gfEp ++ fbTemplate2) = .inl (434, (some (Char.ofNat 97)), fbTemplate2) := by rfl
theorem c2_dpDirname_s2 : scanK ((reSize dpDirname + 2) * 6823) dpDirname (headMust dpDirname) 650 434 (some (Char.ofNat 97)) fbTemplate2 = .inl (1084, (some (Char.ofNat 97)), fb2t2) := by rfl
theorem c2_dpDirname_s3 : scanK ((reSize dpDirname + 2) * 6823) dpDirname (headMust dpDirname) 650 1084 (some (Char.ofNat 97)) fb2t2 = .inl (1734, (some (Char.ofNat 98)), fb2t3) := by rfl
theorem c2_dpDirname_s4 : scanK ((reSize dpDirname + 2) * 6823) dpDirname (headMust dpDirname) 650 1734 (some (Char.ofNat 98)) fb2t3 = .inl (2384, (some (Char.ofNat 32)), fb2t4) := by rfl
theorem c2_dpDirname_s5 : scanK ((reSize dpDirname + 2) * 6823) dpDirname (headMust dpDirname) 650 2384 (some (Char.ofNat 32)) fb2t4 = .inl (3034, (some (Char.ofNat 101)), fb2t5) := by rfl
theorem c2_dpDirname_s6 : scanK ((reSize dpDirname + 2) * 6823) dpDirname (headMust dpDirname) 650 3034 (some (Char.ofNat 101)) fb2t5 = .inl (3684, (some (Char.ofNat 101)), fb2t6) := by rfl
theorem c2_dpDirname_s7 : scanK ((reSize dpDirname + 2) * 6823) dpDirname (headMust dpDirname) 650 3684 (some (Char.ofNat 101)) fb2t6 = .inl (4334, (some (Char.ofNat 102)), fb2t7) := by rfl
theorem c2_dpDirname_s8 : scanK ((reSize dpDirname + 2) * 6823) dpDirname (headMust dpDirname) 650 4334 (some (Char.ofNat 102)) fb2t7 = .inl (4984, (some (Char.ofNat 32)), fb2t8) := by rfl
theorem c2_dpDirname_s9 : scanK ((reSize dpDirname + 2) * 6823) dpDirname (headMust dpDirname) 650 4984 (some (Char.ofNat 32)) fb2t8 = .inl (5634, (some (Char.ofNat 32)), fb2t9) := by rfl
theorem c2_dpDirname_s10 : scanK ((reSize dpDirname + 2) * 6823) dpDirname (headMust dpDirname) 650 5634 (some (Char.ofNat 32)) fb2t9 = .inl (6284, (some (Char.ofNat 97)), fb2t10) := by rfl
theorem c2_dpDirname_sE : scanK ((reSize dpDirname + 2) * 6823) dpDirname (headMust dpDirname) 538 6284 (some (Char.ofNat 97)) fb2t10 = .inr none := by rfl
theorem c2_dpDirname_miss : testG dpDirname (generateFallbackComponent gfEp) 0 = (false, 0) :=
  testG_gf_false dpDirname ((scanKIL c2_dpDirname_s0).trans ((scanKIL c2_dpDirname_s1).trans ((scanKIL c2_dpDirname_s2).trans ((scanKIL c2_dpDirname_s3).trans ((scanKIL c2_dpDirname_s4).trans ((scanKIL c2_dpDirname_s5).trans ((scanKIL c2_dpDirname_s6).trans ((scanKIL c2_dpDirname_s7).trans ((scanKIL c2_dpDirname_s8).trans ((scanKIL c2_dpDirname_s9).trans ((scanKIL c2_dpDirname_s10).trans (scanKIR c2_dpDirname_sE))))))))))))

theorem c2_dpFilename_s0 : scanK ((reSize dpFilename + 2) * 6823) dpFilename (headMust dpFilename) 406 0 none (generateFallbackComponent gfEp) = .inl (406, (some (Char.ofNat 39)), (gfEp ++ fbTemplate2)) := by rfl
theorem c2_dpFilename_s1 : scanK ((reSize dpFilename + 2) * 6823) dpFilename (headMust dpFilename) 28 406 (some (Char.ofNat 39)) (gfEp ++ fbTemplate2) = .inl (434, (some (Char.ofNat 97)), fbTemplate2) := by rfl
theorem c2_dpFilename_s2 : scanK ((reSize dpFilename + 2) * 6823) dpFilename (headMust dpFilename) 650 434 (some (Char.ofNat 97)) fbTemplate2 = .inl (1084, (some (Char.ofNat 97)), fb2t2) := by rfl
theorem c2_dpFilename_s3 : scanK ((reSize dpFilename + 2) * 6823) dpFilename (headMust dpFilename) 650 1084 (some (Char.ofNat 97)) fb2t2 = .inl (1734, (some (Char.ofNat 98)), fb2t3) := by rfl
theorem c2_dpFilename_s4 : scanK ((reSize dpFilename + 2) * 6823) dpFilename (headMust dpFilename) 650 1734 (some (Char.ofNat 98)) fb2t3 = .inl (2384, (some (Char.ofNat 32)), fb2t4) := by rfl
theorem c2_dpFilename_s5 : scanK ((reSize dpFilename + 2) * 6823) dpFilename (headMust dpFilename) 650 2384 (some (Char.ofNat 32)) fb2t4 = .inl (3034, (some (Char.ofNat 101)), fb2t5) := by rfl
theorem c2_dpFilename_s6 : scanK ((reSize dpFilename + 2) * 6823) dpFilename (headMust dpFilename) 650 3034 (some (Char.ofNat 101)) fb2t5 = .inl (3684, (some (Char.ofNat 101)), fb2t6) := by rfl
theorem c2_dpFilename_s7 : scanK ((reSize dpFilename + 2) * 6823) dpFilename (headMust dpFilename) 650 3684 (some (Char.ofNat 101)) fb2t6 = .inl (4334, (some (Char.ofNat 102)), fb2t7) := by rfl
theorem c2_dpFilename_s8 : scanK ((reSize dpFilename + 2) * 6823) dpFilename (headMust dpFilename) 650 4334 (some (Char.ofNat 102)) fb2t7 = .inl (4984, (some (Char.ofNat 32)), fb2t8) := by rfl
theorem c2_dpFilename_s9 : scanK ((reSize dpFilename + 2) * 6823) dpFilename (headMust dpFilename) 650 4984 (some (Char.ofNat 32)) fb2t8 = .inl (5634, (some (Char.ofNat 32)), fb2t9) := by rfl
theorem c2_dpFilename_s10 : scanK ((reSize dpFilename + 2) * 6823) dpFilename (headMust dpFilename) 650 5634 (some (Char.ofNat 32)) fb2t9 = .inl (6284, (some (Char.ofNat 97)), fb2t10) := by rfl
theorem c2_dpFilename_sE : scanK ((reSize dpFilename + 2) * 6823) dpFilename (headMust dpFilename) 538 6284 (some (Char.ofNat 97)) fb2t10 = .inr none := by rfl
theorem c2_dpFilename_miss : testG dpFilename (generateFallbackComponent gfEp) 0 = (false, 0) :=
  testG_gf_false dpFilename ((scanKIL c2_dpFilename_s0).trans ((scanKIL c2_dpFilename_s1).trans ((scanKIL c2_dpFilename_s2).trans ((scanKIL c2_dpFilename_s3).trans ((scanKIL c2_dpFilename_s4).trans ((scanKIL c2_dpFilename_s5).trans ((scanKIL c2_dpFilename_s6).trans ((scanKIL c2_dpFilename_s7).trans ((scanKIL c2_dpFilename_s8).trans ((scanKIL c2_dpFilename_s9).trans ((scanKIL c2_dpFilename_s10).trans (scanKIR c2_dpFilename_sE))))))))))))

theorem c2_dpFs_s0 : scanK ((reSize dpFs + 2) * 6823) dpFs (headMust dpFs) 406 0 none (generateFallbackComponent gfEp) = .inl (406, (some (Char.ofNat 39)), (gfEp ++ fbTemplate2)) := by rfl
theorem c2_dpFs_s1 : scanK ((reSize dpFs + 2) * 6823) dpFs (headMust dpFs) 28 406 (some (Char.ofNat 39)) (gfEp ++ fbTemplate2) = .inl (434, (some (Char.ofNat 97)), fbTemplate2) := by rfl
theorem c2_dpFs_s2 : scanK ((reSize dpFs + 2) * 6823) dpFs (headMust dpFs) 650 434 (some (Char.ofNat 97)) fbTemplate2 = .inl (1084, (some (Char.ofNat 97)), fb2t2) := by rfl
theorem c2_dpFs_s3 : scanK ((reSize dpFs + 2) * 6823) dpFs (headMust dpFs) 650 1084 (some (Char.ofNat 97)) fb2t2 = .inl (1734, (some (Char.ofNat 98)), fb2t3) := by rfl
theorem c2_dpFs_s4 : scanK ((reSize dpFs + 2) * 6823) dpFs (headMust dpFs) 650 1734 (some (Char.ofNat 98)) fb2t3 = .inl (2384, (some (Char.ofNat 32)), fb2t4) := by rfl
theorem c2_dpFs_s5 : scanK ((reSize dpFs + 2) * 6823) dpFs (headMust dpFs) 650 2384 (some (Char.ofNat 32)) fb2t4 = .inl (3034, (some (Char.ofNat 101)), fb2t5) := by rfl
theorem c2_dpFs_s6 : scanK ((reSize dpFs + 2) * 6823) dpFs (headMust dpFs) 650 3034 (some (Char.ofNat 101)) fb2t5 = .inl (3684, (some (Char.ofNat 101)), fb2t6) := by rfl
theorem c2_dpFs_s7 : scanK ((reSize dpFs + 2) * 6823) dpFs (headMust dpFs) 650 3684 (some (Char.ofNat 101)) fb2t6 = .inl (4334, (some (Char.ofNat 102)), fb2t7) := by rfl
theorem c2_dpFs_s8 : scanK ((reSize dpFs + 2) * 6823) dpFs (headMust dpFs) 650 4334 (some (Char.ofNat 102)) fb2t7 = .inl (4984, (some (Char.ofNat 32)), fb2t8) := by rfl
theorem c2_dpFs_s9 : scanK ((reSize dpFs + 2) * 6823) dpFs (headMust dpFs) 650 4984 (some (Char.ofNat 32)) fb2t8 = .inl (5634, (some (Char.ofNat 32)), fb2t9) := by rfl
theorem c2_dpFs_s10 : scanK ((reSize dpFs + 2) * 6823) dpFs (headMust dpFs) 650 5634 (some (Char.ofNat 32)) fb2t9 = .inl (6284, (some (Char.ofNat 97)), fb2t10) := by rfl
theorem c2_dpFs_sE : scanK ((reSize dpFs + 2) * 6823) dpFs (headMust dpFs) 538 6284 (some (Char.ofNat 97)) fb2t10 = .inr none := by rfl
theorem c2_dpFs_miss : testG dpFs (generateFallbackComponent gfEp) 0 = (false, 0) :=
  testG_gf_false dpFs ((scanKIL c2_dpFs_s0).trans ((scanKIL c2_dpFs_s1).trans ((scanKIL c2_dpFs_s2).trans ((scanKIL c2_dpFs_s3).trans ((scanKIL c2_dpFs_s4).trans ((scanKIL c2_dpFs_s5).trans ((scanKIL c2_dpFs_s6).trans ((scanKIL c2_dpFs_s7).trans ((scanKIL c2_dpFs_s8).trans ((scanKIL c2_dpFs_s9).trans ((scanKIL c2_dpFs_s10).trans (scanKIR c2_dpFs_sE))))))))))))

theorem c2_dpPath_s0 : scanK ((reSize dpPath + 2) * 6823) dpPath (headMust dpPath) 406 0 none (generateFallbackComponent gfEp) = .inl (406, (some (Char.ofNat 39)), (gfEp ++ fbTemplate2)) := by rfl
theorem c2_dpPath_s1 : scanK ((reSize dpPath + 2) * 6823) dpPath (headMust dpPath) 28 406 (some (Char.ofNat 39)) (gfEp ++ fbTemplate2) = .inl (434, (some (Char.ofNat 97)), fbTemplate2) := by rfl
theorem c2_dpPath_s2 : scanK ((reSize dpPath + 2) * 6823) dpPath (headMust dpPath) 650 434 (some (Char.ofNat 97)) fbTemplate2 = .inl (1084, (some (Char.ofNat 97)), fb2t2) := by rfl
theorem c2_dpPath_s3 : scanK ((reSize dpPath + 2) * 6823) dpPath (headMust dpPath) 650 1084 (some (Char.ofNat 97)) fb2t2 = .inl (1734, (some (Char.ofNat 98)), fb2t3) := by rfl
theorem c2_dpPath_s4 : scanK ((reSize dpPath + 2) * 6823) dpPath (headMust dpPath) 650 1734 (some (Char.ofNat 98)) fb2t3 = .inl (2384, (some (Char.ofNat 32)), fb2t4) := by rfl
theorem c2_dpPath_s5 : scanK ((reSize dpPath + 2) * 6823) dpPath (headMust dpPath) 650 2384 (some (Char.ofNat 32)) fb2t4 = .inl (3034, (some (Char.ofNat 101)), fb2t5) := by rfl
theorem c2_dpPath_s6 : scanK ((reSize dpPath + 2) * 6823) dpPath (headMust dpPath) 650 3034 (some (Char.ofNat 101)) fb2t5 = .inl (3684, (some (Char.ofNat 101)), fb2t6) := by rfl
theorem c2_dpPath_s7 : scanK ((reSize dpPath + 2) * 6823) dpPath (headMust dpPath) 650 3684 (some (Char.ofNat 101)) fb2t6 = .inl (4334, (some (Char.ofNat 102)), fb2t7) := by rfl
theorem c2_dpPath_s8 : scanK ((reSize dpPath + 2) * 6823) dpPath (headMust dpPath) 650 4334 (some (Char.ofNat 102)) fb2t7 = .inl (4984, (some (Char.ofNat 32)), fb2t8) := by rfl
theorem c2_dpPath_s9 : scanK ((reSize dpPath + 2) * 6823) dpPath (headMust dpPath) 650 4984 (some (Char.ofNat 32)) fb2t8 = .inl (5634, (some (Char.ofNat 32)), fb2t9) := by rfl
theorem c2_dpPath_s10 : scanK ((reSize dpPath + 2) * 6823) dpPath (headMust dpPath) 650 5634 (some (Char.ofNat 32)) fb2t9 = .inl (6284, (some (Char.ofNat 97)), fb2t10) := by rfl
theorem c2_dpPath_sE : scanK ((reSize dpPath + 2) * 6823) dpPath (headMust dpPath) 538 6284 (some (Char.ofNat 97)) fb2t10 = .inr none := by rfl
theorem c2_dpPath_miss : testG dpPath (generateFallbackComponent gfEp) 0 = (false, 0) :=
  testG_gf_false dpPath ((scanKIL c2_dpPath_s0).trans ((scanKIL c2_dpPath_s1).trans ((scanKIL c2_dpPath_s2).trans ((scanKIL c2_dpPath_s3).trans ((scanKIL c2_dpPath_s4).trans ((scanKIL c2_dpPath_s5).trans ((scanKIL c2_dpPath_s6).trans ((scanKIL c2_dpPath_s7).trans ((scanKIL c2_dpPath_s8).trans ((scanKIL c2_dpPath_s9).trans ((scanKIL c2_dpPath_s10).trans (scanKIR c2_dpPath_sE))))))))))))

theorem c2_dpOs_s0 : scanK ((reSize dpOs + 2) * 6823) dpOs (headMust dpOs) 406 0 none (generateFallbackComponent gfEp) = .inl (406, (some (Char.ofNat 39)), (gfEp ++ fbTemplate2)) := by rfl
theorem c2_dpOs_s1 : scanK ((reSize dpOs + 2) * 6823) dpOs (headMust dpOs) 28 406 (some (Char.ofNat 39)) (gfEp ++ fbTemplate2) = .inl (434, (some (Char.ofNat 97)), fbTemplate2) := by rfl
theorem c2_dpOs_s2 : scanK ((reSize dpOs + 2) * 6823) dpOs (headMust dpOs) 650 434 (some (Char.ofNat 97)) fbTemplate2 = .inl (1084, (some (Char.ofNat 97)), fb2t2) := by rfl
theorem c2_dpOs_s3 : scanK ((reSize dpOs + 2) * 6823) dpOs (headMust dpOs) 650 1084 (some (Char.ofNat 97)) fb2t2 = .inl (1734, (some (Char.ofNat 98)), fb2t3) := by rfl
theorem c2_dpOs_s4 : scanK ((reSize dpOs + 2) * 6823) dpOs (headMust dpOs) 650 1734 (some (Char.ofNat 98)) fb2t3 = .inl (2384, (some (Char.ofNat 32)), fb2t4) := by rfl
theorem c2_dpOs_s5 : scanK ((reSize dpOs + 2) * 6823) dpOs (headMust dpOs) 650 2384 (some (Char.ofNat 32)) fb2t4 = .inl (3034, (some (Char.ofNat 101)), fb2t5) := by rfl
theorem c2_dpOs_s6 : scanK ((reSize dpOs + 2) * 6823) dpOs (headMust dpOs) 650 3034 (some (Char.ofNat 101)) fb2t5 = .inl (3684, (some (Char.ofNat 101)), fb2t6) := by rfl
theorem c2_dpOs_s7 : scanK ((reSize dpOs + 2) * 6823) dpOs (headMust dpOs) 650 3684 (some (Char.ofNat 101)) fb2t6 = .inl (4334, (some (Char.ofNat 102)), fb2t7) := by rfl
theorem c2_dpOs_s8 : scanK ((reSize dpOs + 2) * 6823) dpOs (headMust dpOs) 650 4334 (some (Char.ofNat 102)) fb2t7 = .inl (4984, (some (Char.ofNat 32)), fb2t8) := by rfl
theorem c2_dpOs_s9 : scanK ((reSize dpOs + 2) * 6823) dpOs (headMust dpOs) 650 4984 (some (Char.ofNat 32)) fb2t8 = .inl (5634, (some (Char.ofNat 32)), fb2t9) := by rfl
theorem c2_dpOs_s10 : scanK ((reSize dpOs + 2) * 6823) dpOs (headMust dpOs) 650 5634 (some (Char.ofNat 32)) fb2t9 = .inl (6284, (some (Char.ofNat 97)), fb2t10) := by rfl
theorem c2_dpOs_sE : scanK ((reSize dpOs + 2) * 6823) dpOs (headMust dpOs) 538 6284 (some (Char.ofNat 97)) fb2t10 = .inr none := by rfl
theorem c2_dpOs_miss : testG dpOs (generateFallbackComponent gfEp) 0 = (false, 0) :=
  testG_gf_false dpOs ((scanKIL c2_dpOs_s0).trans ((scanKIL c2_dpOs_s1).trans ((scanKIL c2_dpOs_s2).trans ((scanKIL c2_dpOs_s3).trans ((scanKIL c2_dpOs_s4).trans ((scanKIL c2_dpOs_s5).trans ((scanKIL c2_dpOs_s6).trans ((scanKIL c2_dpOs_s7).trans ((scanKIL c2_dpOs_s8).trans ((scanKIL c2_dpOs_s9).trans ((scanKIL c2_dpOs_s10).trans (scanKIR c2_dpOs_sE))))))))))))

theorem c2_dpCrypto_s0 : scanK ((reSize dpCrypto + 2) * 6823) dpCrypto (headMust dpCrypto) 406 0 none (generateFallbackComponent gfEp) = .inl (406, (some (Char.ofNat 39)), (gfEp ++ fbTemplate2)) := by rfl
theorem c2_dpCrypto_s1 : scanK ((reSize dpCrypto + 2) * 6823) dpCrypto (headMust dpCrypto) 28 406 (some (Char.ofNat 39)) (gfEp ++ fbTemplate2) = .inl (434, (some (Char.ofNat 97)), fbTemplate2) := by rfl
theorem c2_dpCrypto_s2 : scanK ((reSize dpCrypto + 2) * 6823) dpCrypto (headMust dpCrypto) 650 434 (some (Char.ofNat 97)) fbTemplate2 = .inl (1084, (some (Char.ofNat 97)), fb2t2) := by rfl
theorem c2_dpCrypto_s3 : scanK ((reSize dpCrypto + 2) * 6823) dpCrypto (headMust dpCrypto) 650 1084 (some (Char.ofNat 97)) fb2t2 = .inl (1734, (some (Char.ofNat 98)), fb2t3) := by rfl
theorem c2_dpCrypto_s4 : scanK ((reSize dpCrypto + 2) * 6823) dpCrypto (headMust dpCrypto) 650 1734 (some (Char.ofNat 98)) fb2t3 = .inl (2384, (some (Char.ofNat 32)), fb2t4) := by rfl
theorem c2_dpCrypto_s5 : scanK ((reSize dpCrypto + 2) * 6823) dpCrypto (headMust dpCrypto) 650 2384 (some (Char.ofNat 32)) fb2t4 = .inl (3034, (some (Char.ofNat 101)), fb2t5) := by rfl
theorem c2_dpCrypto_s6 : scanK ((reSize dpCrypto + 2) * 6823) dpCrypto (headMust dpCrypto) 650 3034 (some (Char.ofNat 101)) fb2t5 = .inl (3684, (some (Char.ofNat 101)), fb2t6) := by rfl
theorem c2_dpCrypto_s7 : scanK ((reSize dpCrypto + 2) * 6823) dpCrypto (headMust dpCrypto) 650 3684 (some (Char.ofNat 101)) fb2t6 = .inl (4334, (some (Char.ofNat 102)), fb2t7) := by rfl
theorem c2_dpCrypto_s8 : scanK ((reSize dpCrypto + 2) * 6823) dpCrypto (headMust dpCrypto) 650 4334 (some (Char.ofNat 102)) fb2t7 = .inl (4984, (some (Char.ofNat 32)), fb2t8) := by rfl
theorem c2_dpCrypto_s9 : scanK ((reSize dpCrypto + 2) * 6823) dpCrypto (headMust dpCrypto) 650 4984 (some (Char.ofNat 32)) fb2t8 = .inl (5634, (some (Char.ofNat 32)), fb2t9) := by rfl
theorem c2_dpCrypto_s10 : scanK ((reSize dpCrypto + 2) * 6823) dpCrypto (headMust dpCrypto) 650 5634 (some (Char.ofNat 32)) fb2t9 = .inl (6284, (some (Char.ofNat 97)), fb2t10) := by rfl
theorem c2_dpCrypto_sE : scanK ((reSize dpCrypto + 2) * 6823) dpCrypto (headMust dpCrypto) 538 6284 (some (Char.ofNat 97)) fb2t10 = .inr none := by rfl
theorem c2_dpCrypto_miss : testG dpCrypto (generateFallbackComponent gfEp) 0 = (false, 0) :=
  testG_gf_false dpCrypto ((scanKIL c2_dpCrypto_s0).trans ((scanKIL c2_dpCrypto_s1).trans ((scanKIL c2_dpCrypto_s2).trans ((scanKIL c2_dpCrypto_s3).trans ((scanKIL c2_dpCrypto_s4).trans ((scanKIL c2_dpCrypto_s5).trans ((scanKIL c2_dpCrypto_s6).trans ((scanKIL c2_dpCrypto_s7).trans ((scanKIL c2_dpCrypto_s8).trans ((scanKIL c2_dpCrypto_s9).trans ((scanKIL c2_dpCrypto_s10).trans (scanKIR c2_dpCrypto_sE))))))))))))

theorem c2_dpChildProcess_s0 : scanK ((reSize dpChildProcess + 2) * 6823) dpChildProcess (headMust dpChildProcess) 406 0 none (generateFallbackComponent gfEp) = .inl (406, (some (Char.ofNat 39)), (gfEp ++ fbTemplate2)) := by rfl
theorem c2_dpChildProcess_s1 : scanK ((reSize dpChildProcess + 2) * 6823) dpChildProcess (headMust dpChildProcess) 28 406 (some (Char.ofNat 39)) (gfEp ++ fbTemplate2) = .inl (434, (some (Char.ofNat 97)), fbTemplate2) := by rfl
theorem c2_dpChildProcess_s2 : scanK ((reSize dpChildProcess + 2) * 6823) dpChildProcess (headMust dpChildProcess) 650 434 (some (Char.ofNat 97)) fbTemplate2 = .inl (1084, (some (Char.ofNat 97)), fb2t2) := by rfl
theorem c2_dpChildProcess_s3 : scanK ((reSize dpChildProcess + 2) * 6823) dpChildProcess (headMust dpChildProcess) 650 1084 (some (Char.ofNat 97)) fb2t2 = .inl (1734, (some (Char.ofNat 98)), fb2t3) := by rfl
theorem c2_dpChildProcess_s4 : scanK ((reSize dpChildProcess + 2) * 6823) dpChildProcess (headMust dpChildProcess) 650 1734 (some (Char.ofNat 98)) fb2t3 = .inl (2384, (some (Char.ofNat 32)), fb2t4) := by rfl
theorem c2_dpChildProcess_s5 : scanK ((reSize dpChildProcess + 2) * 6823) dpChildProcess (headMust dpChildProcess) 650 2384 (some (Char.ofNat 32)) fb2t4 = .inl (3034, (some (Char.ofNat 101)), fb2t5) := by rfl
theorem c2_dpChildProcess_s6 : scanK ((reSize dpChildProcess + 2) * 6823) dpChildProcess (headMust dpChildProcess) 650 3034 (some (Char.ofNat 101)) fb2t5 = .inl (3684, (some (Char.ofNat 101)), fb2t6) := by rfl
theorem c2_dpChildProcess_s7 : scanK ((reSize dpChildProcess + 2) * 6823) dpChildProcess (headMust dpChildProcess) 650 3684 (some (Char.ofNat 101)) fb2t6 = .inl (4334, (some (Char.ofNat 102)), fb2t7) := by rfl
theorem c2_dpChildProcess_s8 : scanK ((reSize dpChildProcess + 2) * 6823) dpChildProcess (headMust dpChildProcess) 650 4334 (some (Char.ofNat 102)) fb2t7 = .inl (4984, (some (Char.ofNat 32)), fb2t8) := by rfl
theorem c2_dpChildProcess_s9 : scanK ((reSize dpChildProcess + 2) * 6823) dpChildProcess (headMust dpChildProcess) 650 4984 (some (Char.ofNat 32)) fb2t8 = .inl (5634, (some (Char.ofNat 32)), fb2t9) := by rfl
theorem c2_dpChildProcess_s10 : scanK ((reSize dpChildProcess + 2) * 6823) dpChildProcess (headMust dpChildProcess) 650 5634 (some (Char.ofNat 32)) fb2t9 = .inl (6284, (some (Char.ofNat 97)), fb2t10) := by rfl
theorem c2_dpChildProcess_sE : scanK ((reSize dpChildProcess + 2) * 6823) dpChildProcess (headMust dpChildProcess) 538 6284 (some (Char.ofNat 97)) fb2t10 = .inr none := by rfl
theorem c2_dpChildProcess_miss : testG dpChildProcess (generateFallbackComponent gfEp) 0 = (false, 0) :=
  testG_gf_false dpChildProcess ((scanKIL c2_dpChildProcess_s0).trans ((scanKIL c2_dpChildProcess_s1).trans ((scanKIL c2_dpChildProcess_s2).trans ((scanKIL c2_dpChildProcess_s3).trans ((scanKIL c2_dpChildProcess_s4).trans ((scanKIL c2_dpChildProcess_s5).trans ((scanKIL c2_dpChildProcess_s6).trans ((scanKIL c2_dpChildProcess_s7).trans ((scanKIL c2_dpChildProcess_s8).trans ((scanKIL c2_dpChildProcess_s9).trans ((scanKIL c2_dpChildProcess_s10).trans (scanKIR c2_dpChildProcess_sE))))))))))))

theorem c2_dpInnerHTML_s0 : scanK ((reSize dpInnerHTML + 2) * 6823) dpInnerHTML (headMust dpInnerHTML) 406 0 none (generateFallbackComponent gfEp) = .inl (406, (some (Char.ofNat 39)), (gfEp ++ fbTemplate2)) := by rfl
theorem c2_dpInnerHTML_s1 : scanK ((reSize dpInnerHTML + 2) * 6823) dpInnerHTML (headMust dpInnerHTML) 28 406 (some (Char.ofNat 39)) (gfEp ++ fbTemplate2) = .inl (434, (some (Char.ofNat 97)), fbTemplate2) := by rfl
theorem c2_dpInnerHTML_s2 : scanK ((reSize dpInnerHTML + 2) * 6823) dpInnerHTML (headMust dpInnerHTML) 650 434 (some (Char.ofNat 97)) fbTemplate2 = .inl (1084, (some (Char.ofNat 97)), fb2t2) := by rfl
theorem c2_dpInnerHTML_s3 : scanK ((reSize dpInnerHTML + 2) * 6823) dpInnerHTML (headMust dpInnerHTML) 650 1084 (some (Char.ofNat 97)) fb2t2 = .inl (1734, (some (Char.ofNat 98)), fb2t3) := by rfl
theorem c2_dpInnerHTML_s4 : scanK ((reSize dpInnerHTML + 2) * 6823) dpInnerHTML (headMust dpInnerHTML) 650 1734 (some (Char.ofNat 98)) fb2t3 = .inl (2384, (some (Char.ofNat 32)), fb2t4) := by rfl
theorem c2_dpInnerHTML_s5 : scanK ((reSize dpInnerHTML + 2) * 6823) dpInnerHTML (headMust dpInnerHTML) 650 2384 (some (Char.ofNat 32)) fb2t4 = .inl (3034, (some (Char.ofNat 101)), fb2t5) := by rfl
theorem c2_dpInnerHTML_s6 : scanK ((reSize dpInnerHTML + 2) * 6823) dpInnerHTML (headMust dpInnerHTML) 650 3034 (some (Char.ofNat 101)) fb2t5 = .inl (3684, (some (Char.ofNat 101)), fb2t6) := by rfl
theorem c2_dpInnerHTML_s7 : scanK ((reSize dpInnerHTML + 2) * 6823) dpInnerHTML (headMust dpInnerHTML) 650 3684 (some (Char.ofNat 101)) fb2t6 = .inl (4334, (some (Char.ofNat 102)), fb2t7) := by rfl
theorem c2_dpInnerHTML_s8 : scanK ((reSize dpInnerHTML + 2) * 6823) dpInnerHTML (headMust dpInnerHTML) 650 4334 (some (Char.ofNat 102)) fb2t7 = .inl (4984, (some (Char.ofNat 32)), fb2t8) := by rfl
theorem c2_dpInnerHTML_s9 : scanK ((reSize dpInnerHTML + 2) * 6823) dpInnerHTML (headMust dpInnerHTML) 650 4984 (some (Char.ofNat 32)) fb2t8 = .inl (5634, (some (Char.ofNat 32)), fb2t9) := by rfl
theorem c2_dpInnerHTML_s10 : scanK ((reSize dpInnerHTML + 2) * 6823) dpInnerHTML (headMust dpInnerHTML) 650 5634 (some (Char.ofNat 32)) fb2t9 = .inl (6284, (some (Char.ofNat 97)), fb2t10) := by rfl
theorem c2_dpInnerHTML_sE : scanK ((reSize dpInnerHTML + 2) * 6823) dpInnerHTML (headMust dpInnerHTML) 538 6284 (some (Char.ofNat 97)) fb2t10 = .inr none := by rfl
theorem c2_dpInnerHTML_miss : testG dpInnerHTML (generateFallbackComponent gfEp) 0 = (false, 0) :=
  testG_gf_false dpInnerHTML ((scanKIL c2_dpInnerHTML_s0).trans ((scanKIL c2_dpInnerHTML_s1).trans ((scanKIL c2_dpInnerHTML_s2).trans ((scanKIL c2_dpInnerHTML_s3).trans ((scanKIL c2_dpInnerHTML_s4).trans ((scanKIL c2_dpInnerHTML_s5).trans ((scanKIL c2_dpInnerHTML_s6).trans ((scanKIL c2_dpInnerHTML_s7).trans ((scanKIL c2_dpInnerHTML_s8).trans ((scanKIL c2_dpInnerHTML_s9).trans ((scanKIL c2_dpInnerHTML_s10).trans (scanKIR c2_dpInnerHTML_sE))))))))))))

theorem c2_dpOuterHTML_s0 : scanK ((reSize dpOuterHTML + 2) * 6823) dpOuterHTML (headMust dpOuterHTML) 406 0 none (generateFallbackComponent gfEp) = .inl (406, (some (Char.ofNat 39)), (gfEp ++ fbTemplate2)) := by rfl
theorem c2_dpOuterHTML_s1 : scanK ((reSize dpOuterHTML + 2) * 6823) dpOuterHTML (headMust dpOuterHTML) 28 406 (some (Char.ofNat 39)) (gfEp ++ fbTemplate2) = .inl (434, (some (Char.ofNat 97)), fbTemplate2) := by rfl
theorem c2_dpOuterHTML_s2 : scanK ((reSize dpOuterHTML + 2) * 6823) dpOuterHTML (headMust dpOuterHTML) 650 434 (some (Char.ofNat 97)) fbTemplate2 = .inl (1084, (some (Char.ofNat 97)), fb2t2) := by rfl
theorem c2_dpOuterHTML_s3 : scanK ((reSize dpOuterHTML + 2) * 6823) dpOuterHTML (headMust dpOuterHTML) 650 1084 (some (Char.ofNat 97)) fb2t2 = .inl (1734, (some (Char.ofNat 98)), fb2t3) := by rfl
theorem c2_dpOuterHTML_s4 : scanK ((reSize dpOuterHTML + 2) * 6823) dpOuterHTML (headMust dpOuterHTML) 650 1734 (some (Char.ofNat 98)) fb2t3 = .inl (2384, (some (Char.ofNat 32)), fb2t4) := by rfl
theorem c2_dpOuterHTML_s5 : scanK ((reSize dpOuterHTML + 2) * 6823) dpOuterHTML (headMust dpOuterHTML) 650 2384 (some (Char.ofNat 32)) fb2t4 = .inl (3034, (some (Char.ofNat 101)), fb2t5) := by rfl
theorem c2_dpOuterHTML_s6 : scanK ((reSize dpOuterHTML + 2) * 6823) dpOuterHTML (headMust dpOuterHTML) 650 3034 (some (Char.ofNat 101)) fb2t5 = .inl (3684, (some (Char.ofNat 101)), fb2t6) := by rfl
theorem c2_dpOuterHTML_s7 : scanK ((reSize dpOuterHTML + 2) * 6823) dpOuterHTML (headMust dpOuterHTML) 650 3684 (some (Char.ofNat 101)) fb2t6 = .inl (4334, (some (Char.ofNat 102)), fb2t7) := by rfl
theorem c2_dpOuterHTML_s8 : scanK ((reSize dpOuterHTML + 2) * 6823) dpOuterHTML (headMust dpOuterHTML) 650 4334 (some (Char.ofNat 102)) fb2t7 = .inl (4984, (some (Char.ofNat 32)), fb2t8) := by rfl
theorem c2_dpOuterHTML_s9 : scanK ((reSize dpOuterHTML + 2) * 6823) dpOuterHTML (headMust dpOuterHTML) 650 4984 (some (Char.ofNat 32)) fb2t8 = .inl (5634, (some (Char.ofNat 32)), fb2t9) := by rfl
theorem c2_dpOuterHTML_s10 : scanK ((reSize dpOuterHTML + 2) * 6823) dpOuterHTML (headMust dpOuterHTML) 650 5634 (some (Char.ofNat 32)) fb2t9 = .inl (6284, (some (Char.ofNat 97)), fb2t10) := by rfl
theorem c2_dpOuterHTML_sE : scanK ((reSize dpOuterHTML + 2) * 6823) dpOuterHTML (headMust dpOuterHTML) 538 6284 (some (Char.ofNat 97)) fb2t10 = .inr none := by rfl
theorem c2_dpOuterHTML_miss : testG dpOuterHTML (generateFallbackComponent gfEp) 0 = (false, 0) :=
  testG_gf_false dpOuterHTML ((scanKIL c2_dpOuterHTML_s0).trans ((scanKIL c2_dpOuterHTML_s1).trans ((scanKIL c2_dpOuterHTML_s2).trans ((scanKIL c2_dpOuterHTML_s3).trans ((scanKIL c2_dpOuterHTML_s4).trans ((scanKIL c2_dpOuterHTML_s5).trans ((scanKIL c2_dpOuterHTML_s6).trans ((scanKIL c2_dpOuterHTML_s7).trans ((scanKIL c2_dpOuterHTML_s8).trans ((scanKIL c2_dpOuterHTML_s9).trans ((scanKIL c2_dpOuterHTML_s10).trans (scanKIR c2_dpOuterHTML_sE))))))))))))

theorem c2_dpDangerouslySetInnerHTML_s0 : scanK ((reSize dpDangerouslySetInnerHTML + 2) * 6823) dpDangerouslySetInnerHTML (headMust dpDangerouslySetInnerHTML) 406 0 none (generateFallbackComponent gfEp) = .inl (406, (some (Char.ofNat 39)), (gfEp ++ fbTemplate2)) := by rfl
theorem c2_dpDangerouslySetInnerHTML_s1 : scanK ((reSize dpDangerouslySetInnerHTML + 2) * 6823) dpDangerouslySetInnerHTML (headMust dpDangerouslySetInnerHTML) 28 406 (some (Char.ofNat 39)) (gfEp ++ fbTemplate2) = .inl (434, (some (Char.ofNat 97)), fbTemplate2) := by rfl
theorem c2_dpDangerouslySetInnerHTML_s2 : scanK ((reSize dpDangerouslySetInnerHTML + 2) * 6823) dpDangerouslySetInnerHTML (headMust dpDangerouslySetInnerHTML) 650 434 (some (Char.ofNat 97)) fbTemplate2 = .inl (1084, (some (Char.ofNat 97)), fb2t2) := by rfl
theorem c2_dpDangerouslySetInnerHTML_s3 : scanK ((reSize dpDangerouslySetInnerHTML + 2) * 6823) dpDangerouslySetInnerHTML (headMust dpDangerouslySetInnerHTML) 650 1084 (some (Char.ofNat 97)) fb2t2 = .inl (1734, (some (Char.ofNat 98)), fb2t3) := by rfl
theorem c2_dpDangerouslySetInnerHTML_s4 : scanK ((reSize dpDangerouslySetInnerHTML + 2) * 6823) dpDangerouslySetInnerHTML (headMust dpDangerouslySetInnerHTML) 650 1734 (some (Char.ofNat 98)) fb2t3 = .inl (2384, (some (Char.ofNat 32)), fb2t4) := by rfl
theorem c2_dpDangerouslySetInnerHTML_s5 : scanK ((reSize dpDangerouslySetInnerHTML + 2) * 6823) dpDangerouslySetInnerHTML (headMust dpDangerouslySetInnerHTML) 650 2384 (some (Char.ofNat 32)) fb2t4 = .inl (3034, (some (Char.ofNat 101)), fb2t5) := by rfl
theorem c2_dpDangerouslySetInnerHTML_s6 : scanK ((reSize dpDangerouslySetInnerHTML + 2) * 6823) dpDangerouslySetInnerHTML (headMust dpDangerouslySetInnerHTML) 650 3034 (some (Char.ofNat 101)) fb2t5 = .inl (3684, (some (Char.ofNat 101)), fb2t6) := by rfl
theorem c2_dpDangerouslySetInnerHTML_s7 : scanK ((reSize dpDangerouslySetInnerHTML + 2) * 6823) dpDangerouslySetInnerHTML (headMust dpDangerouslySetInnerHTML) 650 3684 (some (Char.ofNat 101)) fb2t6 = .inl (4334, (some (Char.ofNat 102)), fb2t7) := by rfl
theorem c2_dpDangerouslySetInnerHTML_s8 : scanK ((reSize dpDangerouslySetInnerHTML + 2) * 6823) dpDangerouslySetInnerHTML (headMust dpDangerouslySetInnerHTML) 650 4334 (some (Char.ofNat 102)) fb2t7 = .inl (4984, (some (Char.ofNat 32)), fb2t8) := by rfl
theorem c2_dpDangerouslySetInnerHTML_s9 : scanK ((reSize dpDangerouslySetInnerHTML + 2) * 6823) dpDangerouslySetInnerHTML (headMust dpDangerouslySetInnerHTML) 650 4984 (some (Char.ofNat 32)) fb2t8 = .inl (5634, (some (Char.ofNat 32)), fb2t9) := by rfl
theorem c2_dpDangerouslySetInnerHTML_s10 : scanK ((reSize dpDangerouslySetInnerHTML + 2) * 6823) dpDangerouslySetInnerHTML (headMust dpDangerouslySetInnerHTML) 650 5634 (some (Char.ofNat 32)) fb2t9 = .inl (6284, (some (Char.ofNat 97)), fb2t10) := by rfl
theorem c2_dpDangerouslySetInnerHTML_sE : scanK ((reSize dpDangerouslySetInnerHTML + 2) * 6823) dpDangerouslySetInnerHTML (headMust dpDangerouslySetInnerHTML) 538 6284 (some (Char.ofNat 97)) fb2t10 = .inr none := by rfl
theorem c2_dpDangerouslySetInnerHTML_miss : testG dpDangerouslySetInnerHTML (generateFallbackComponent gfEp) 0 = (false, 0) :=
  testG_gf_false dpDangerouslySetInnerHTML ((scanKIL c2_dpDangerouslySetInnerHTML_s0).trans ((scanKIL c2_dpDangerouslySetInnerHTML_s1).trans ((scanKIL c2_dpDangerouslySetInnerHTML_s2).trans ((scanKIL c2_dpDangerouslySetInnerHTML_s3).trans ((scanKIL c2_dpDangerouslySetInnerHTML_s4).trans ((scanKIL c2_dpDangerouslySetInnerHTML_s5).trans ((scanKIL c2_dpDangerouslySetInnerHTML_s6).trans ((scanKIL c2_dpDangerouslySetInnerHTML_s7).trans ((scanKIL c2_dpDangerouslySetInnerHTML_s8).trans ((scanKIL c2_dpDangerouslySetInnerHTML_s9).trans ((scanKIL c2_dpDangerouslySetInnerHTML_s10).trans (scanKIR c2_dpDangerouslySetInnerHTML_sE))))))))))))

theorem c2_dpJavascriptScheme_s0 : scanK ((reSize dpJavascriptScheme + 2) * 6823) dpJavascriptScheme (headMust dpJavascriptScheme) 406 0 none (generateFallbackComponent gfEp) = .inl (406, (some (Char.ofNat 39)), (gfEp ++ fbTemplate2)) := by rfl
theorem c2_dpJavascriptScheme_s1 : scanK ((reSize dpJavascriptScheme + 2) * 6823) dpJavascriptScheme (headMust dpJavascriptScheme) 28 406 (some (Char.ofNat 39)) (gfEp ++ fbTemplate2) = .inl (434, (some (Char.ofNat 97)), fbTemplate2) := by rfl
theorem c2_dpJavascriptScheme_s2 : scanK ((reSize dpJavascriptScheme + 2) * 6823) dpJavascriptScheme (headMust dpJavascriptScheme) 650 434 (some (Char.ofNat 97)) fbTemplate2 = .inl (1084, (some (Char.ofNat 97)), fb2t2) := by rfl
theorem c2_dpJavascriptScheme_s3 : scanK ((reSize dpJavascriptScheme + 2) * 6823) dpJavascriptScheme (headMust dpJavascriptScheme) 650 1084 (some (Char.ofNat 97)) fb2t2 = .inl (1734, (some (Char.ofNat 98)), fb2t3) := by rfl
theorem c2_dpJavascriptScheme_s4 : scanK ((reSize dpJavascriptScheme + 2) * 6823) dpJavascriptScheme (headMust dpJavascriptScheme) 650 1734 (some (Char.ofNat 98)) fb2t3 = .inl (2384, (some (Char.ofNat 32)), fb2t4) := by rfl
theorem c2_dpJavascriptScheme_s5 : scanK ((reSize dpJavascriptScheme + 2) * 6823) dpJavascriptScheme (headMust dpJavascriptScheme) 650 2384 (some (Char.ofNat 32)) fb2t4 = .inl (3034, (some (Char.ofNat 101)), fb2t5) := by rfl
theorem c2_dpJavascriptScheme_s6 : scanK ((reSize dpJavascriptScheme + 2) * 6823) dpJavascriptScheme (headMust dpJavascriptScheme) 650 3034 (some (Char.ofNat 101)) fb2t5 = .inl (3684, (some (Char.ofNat 101)), fb2t6) := by rfl
theorem c2_dpJavascriptScheme_s7 : scanK ((reSize dpJavascriptScheme + 2) * 6823) dpJavascriptScheme (headMust dpJavascriptScheme) 650 3684 (some (Char.ofNat 101)) fb2t6 = .inl (4334, (some (Char.ofNat 102)), fb2t7) := by rfl
theorem c2_dpJavascriptScheme_s8 : scanK ((reSize dpJavascriptScheme + 2) * 6823) dpJavascriptScheme (headMust dpJavascriptScheme) 650 4334 (some (Char.ofNat 102)) fb2t7 = .inl (4984, (some (Char.ofNat 32)), fb2t8) := by rfl
theorem c2_dpJavascriptScheme_s9 : scanK ((reSize dpJavascriptScheme + 2) * 6823) dpJavascriptScheme (headMust dpJavascriptScheme) 650 4984 (some (Char.ofNat 32)) fb2t8 = .inl (5634, (some (Char.ofNat 32)), fb2t9) := by rfl
theorem c2_dpJavascriptScheme_s10 : scanK ((reSize dpJavascriptScheme + 2) * 6823) dpJavascriptScheme (headMust dpJavascriptScheme) 650 5634 (some (Char.ofNat 32)) fb2t9 = .inl (6284, (some (Char.ofNat 97)), fb2t10) := by rfl
theorem c2_dpJavascriptScheme_sE : scanK ((reSize dpJavascriptScheme + 2) * 6823) dpJavascriptScheme (headMust dpJavascriptScheme) 538 6284 (some (Char.ofNat 97)) fb2t10 = .inr none := by rfl
theorem c2_dpJavascriptScheme_miss : testG dpJavascriptScheme (generateFallbackComponent gfEp) 0 = (false, 0) :=
  testG_gf_false dpJavascriptScheme ((scanKIL c2_dpJavascriptScheme_s0).trans ((scanKIL c2_dpJavascriptScheme_s1).trans ((scanKIL c2_dpJavascriptScheme_s2).trans ((scanKIL c2_dpJavascriptScheme_s3).trans ((scanKIL c2_dpJavascriptScheme_s4).trans ((scanKIL c2_dpJavascriptScheme_s5).trans ((scanKIL c2_dpJavascriptScheme_s6).trans ((scanKIL c2_dpJavascriptScheme_s7).trans ((scanKIL c2_dpJavascriptScheme_s8).trans ((scanKIL c2_dpJavascriptScheme_s9).trans ((scanKIL c2_dpJavascriptScheme_s10).trans (scanKIR c2_dpJavascriptScheme_sE))))))))))))

theorem c2_dpVbscriptScheme_s0 : scanK ((reSize dpVbscriptScheme + 2) * 6823) dpVbscriptScheme (headMust dpVbscriptScheme) 406 0 none (generateFallbackComponent gfEp) = .inl (406, (some (Char.ofNat 39)), (gfEp ++ fbTemplate2)) := by rfl
theorem c2_dpVbscriptScheme_s1 : scanK ((reSize dpVbscriptScheme + 2) * 6823) dpVbscriptScheme (headMust dpVbscriptScheme) 28 406 (some (Char.ofNat 39)) (gfEp ++ fbTemplate2) = .inl (434, (some (Char.ofNat 97)), fbTemplate2) := by rfl
theorem c2_dpVbscriptScheme_s2 : scanK ((reSize dpVbscriptScheme + 2) * 6823) dpVbscriptScheme (headMust dpVbscriptScheme) 650 434 (some (Char.ofNat 97)) fbTemplate2 = .inl (1084, (some (Char.ofNat 97)), fb2t2) := by rfl
theorem c2_dpVbscriptScheme_s3 : scanK ((reSize dpVbscriptScheme + 2) * 6823) dpVbscriptScheme (headMust dpVbscriptScheme) 650 1084 (some (Char.ofNat 97)) fb2t2 = .inl (1734, (some (Char.ofNat 98)), fb2t3) := by rfl
theorem c2_dpVbscriptScheme_s4 : scanK ((reSize dpVbscriptScheme + 2) * 6823) dpVbscriptScheme (headMust dpVbscriptScheme) 650 1734 (some (Char.ofNat 98)) fb2t3 = .inl (2384, (some (Char.ofNat 32)), fb2t4) := by rfl
theorem c2_dpVbscriptScheme_s5 : scanK ((reSize dpVbscriptScheme + 2) * 6823) dpVbscriptScheme (headMust dpVbscriptScheme) 650 2384 (some (Char.ofNat 32)) fb2t4 = .inl (3034, (some (Char.ofNat 101)), fb2t5) := by rfl
theorem c2_dpVbscriptScheme_s6 : scanK ((reSize dpVbscriptScheme + 2) * 6823) dpVbscriptScheme (headMust dpVbscriptScheme) 650 3034 (some (Char.ofNat 101)) fb2t5 = .inl (3684, (some (Char.ofNat 101)), fb2t6) := by rfl
theorem c2_dpVbscriptScheme_s7 : scanK ((reSize dpVbscriptScheme + 2) * 6823) dpVbscriptScheme (headMust dpVbscriptScheme) 650 3684 (some (Char.ofNat 101)) fb2t6 = .inl (4334, (some (Char.ofNat 102)), fb2t7) := by rfl
theorem c2_dpVbscriptScheme_s8 : scanK ((reSize dpVbscriptScheme + 2) * 6823) dpVbscriptScheme (headMust dpVbscriptScheme) 650 4334 (some (Char.ofNat 102)) fb2t7 = .inl (4984, (some (Char.ofNat 32)), fb2t8) := by rfl
theorem c2_dpVbscriptScheme_s9 : scanK ((reSize dpVbscriptScheme + 2) * 6823) dpVbscriptScheme (headMust dpVbscriptScheme) 650 4984 (some (Char.ofNat 32)) fb2t8 = .inl (5634, (some (Char.ofNat 32)), fb2t9) := by rfl
theorem c2_dpVbscriptScheme_s10 : scanK ((reSize dpVbscriptScheme + 2) * 6823) dpVbscriptScheme (headMust dpVbscriptScheme) 650 5634 (some (Char.ofNat 32)) fb2t9 = .inl (6284, (some (Char.ofNat 97)), fb2t10) := by rfl
theorem c2_dpVbscriptScheme_sE : scanK ((reSize dpVbscriptScheme + 2) * 6823) dpVbscriptScheme (headMust dpVbscriptScheme) 538 6284 (some (Char.ofNat 97)) fb2t10 = .inr none := by rfl
theorem c2_dpVbscriptScheme_miss : testG dpVbscriptScheme (generateFallbackComponent gfEp) 0 = (false, 0) :=
  testG_gf_false dpVbscriptScheme ((scanKIL c2_dpVbscriptScheme_s0).trans ((scanKIL c2_dpVbscriptScheme_s1).trans ((scanKIL c2_dpVbscriptScheme_s2).trans ((scanKIL c2_dpVbscriptScheme_s3).trans ((scanKIL c2_dpVbscriptScheme_s4).trans ((scanKIL c2_dpVbscriptScheme_s5).trans ((scanKIL c2_dpVbscriptScheme_s6).trans ((scanKIL c2_dpVbscriptScheme_s7).trans ((scanKIL c2_dpVbscriptScheme_s8).trans ((scanKIL c2_dpVbscriptScheme_s9).trans ((scanKIL c2_dpVbscriptScheme_s10).trans (scanKIR c2_dpVbscriptScheme_sE))))))))))))

theorem c2_dpDataScheme_s0 : scanK ((reSize dpDataScheme + 2) * 6823) dpDataScheme (headMust dpDataScheme) 406 0 none (generateFallbackComponent gfEp) = .inl (406, (some (Char.ofNat 39)), (gfEp ++ fbTemplate2)) := by rfl
theorem c2_dpDataScheme_s1 : scanK ((reSize dpDataScheme + 2) * 6823) dpDataScheme (headMust dpDataScheme) 28 406 (some (Char.ofNat 39)) (gfEp ++ fbTemplate2) = .inl (434, (some (Char.ofNat 97)), fbTemplate2) := by rfl
theorem c2_dpDataScheme_s2 : scanK ((reSize dpDataScheme + 2) * 6823) dpDataScheme (headMust dpDataScheme) 650 434 (some (Char.ofNat 97)) fbTemplate2 = .inl (1084, (some (Char.ofNat 97)), fb2t2) := by rfl
theorem c2_dpDataScheme_s3 : scanK ((reSize dpDataScheme + 2) * 6823) dpDataScheme (headMust dpDataScheme) 650 1084 (some (Char.ofNat 97)) fb2t2 = .inl (1734, (some (Char.ofNat 98)), fb2t3) := by rfl
theorem c2_dpDataScheme_s4 : scanK ((reSize dpDataScheme + 2) * 6823) dpDataScheme (headMust dpDataScheme) 650 1734 (some (Char.ofNat 98)) fb2t3 = .inl (2384, (some (Char.ofNat 32)), fb2t4) := by rfl
theorem c2_dpDataScheme_s5 : scanK ((reSize dpDataScheme + 2) * 6823) dpDataScheme (headMust dpDataScheme) 650 2384 (some (Char.ofNat 32)) fb2t4 = .inl (3034, (some (Char.ofNat 101)), fb2t5) := by rfl
theorem c2_dpDataScheme_s6 : scanK ((reSize dpDataScheme + 2) * 6823) dpDataScheme (headMust dpDataScheme) 650 3034 (some (Char.ofNat 101)) fb2t5 = .inl (3684, (some (Char.ofNat 101)), fb2t6) := by rfl
theorem c2_dpDataScheme_s7 : scanK ((reSize dpDataScheme + 2) * 6823) dpDataScheme (headMust dpDataScheme) 650 3684 (some (Char.ofNat 101)) fb2t6 = .inl (4334, (some (Char.ofNat 102)), fb2t7) := by rfl
theorem c2_dpDataScheme_s8 : scanK ((reSize dpDataScheme + 2) * 6823) dpDataScheme (headMust dpDataScheme) 650 4334 (some (Char.ofNat 102)) fb2t7 = .inl (4984, (some (Char.ofNat 32)), fb2t8) := by rfl
theorem c2_dpDataScheme_s9 : scanK ((reSize dpDataScheme + 2) * 6823) dpDataScheme (headMust dpDataScheme) 650 4984 (some (Char.ofNat 32)) fb2t8 = .inl (5634, (some (Char.ofNat 32)), fb2t9) := by rfl
theorem c2_dpDataScheme_s10 : scanK ((reSize dpDataScheme + 2) * 6823) dpDataScheme (headMust dpDataScheme) 650 5634 (some (Char.ofNat 32)) fb2t9 = .inl (6284, (some (Char.ofNat 97)), fb2t10) := by rfl
theorem c2_dpDataScheme_sE : scanK ((reSize dpDataScheme + 2) * 6823) dpDataScheme (headMust dpDataScheme) 538 6284 (some (Char.ofNat 97)) fb2t10 = .inr none := by rfl
theorem c2_dpDataScheme_miss : testG dpDataScheme (generateFallbackComponent gfEp) 0 = (false, 0) :=
  testG_gf_false dpDataScheme ((scanKIL c2_dpDataScheme_s0).trans ((scanKIL c2_dpDataScheme_s1).trans ((scanKIL c2_dpDataScheme_s2).trans ((scanKIL c2_dpDataScheme_s3).trans ((scanKIL c2_dpDataScheme_s4).trans ((scanKIL c2_dpDataScheme_s5).trans ((scanKIL c2_dpDataScheme_s6).trans ((scanKIL c2_dpDataScheme_s7).trans ((scanKIL c2_dpDataScheme_s8).trans ((scanKIL c2_dpDataScheme_s9).trans ((scanKIL c2_dpDataScheme_s10).trans (scanKIR c2_dpDataScheme_sE))))))))))))

theorem c2_dpInlineHandler_s0 : scanK ((reSize dpInlineHandler + 2) * 6823) dpInlineHandler (headMust dpInlineHandler) 406 0 none (generateFallbackComponent gfEp) = .inl (406, (some (Char.ofNat 39)), (gfEp ++ fbTemplate2)) := by rfl
theorem c2_dpInlineHandler_s1 : scanK ((reSize dpInlineHandler + 2) * 6823) dpInlineHandler (headMust dpInlineHandler) 28 406 (some (Char.ofNat 39)) (gfEp ++ fbTemplate2) = .inl (434, (some (Char.ofNat 97)), fbTemplate2) := by rfl
theorem c2_dpInlineHandler_s2 : scanK ((reSize dpInlineHandler + 2) * 6823) dpInlineHandler (headMust dpInlineHandler) 650 434 (some (Char.ofNat 97)) fbTemplate2 = .inl (1084, (some (Char.ofNat 97)), fb2t2) := by rfl
theorem c2_dpInlineHandler_s3 : scanK ((reSize dpInlineHandler + 2) * 6823) dpInlineHandler (headMust dpInlineHandler) 650 1084 (some (Char.ofNat 97)) fb2t2 = .inl (1734, (some (Char.ofNat 98)), fb2t3) := by rfl
theorem c2_dpInlineHandler_s4 : scanK ((reSize dpInlineHandler + 2) * 6823) dpInlineHandler (headMust dpInlineHandler) 650 1734 (some (Char.ofNat 98)) fb2t3 = .inl (2384, (some (Char.ofNat 32)), fb2t4) := by rfl
theorem c2_dpInlineHandler_s5 : scanK ((reSize dpInlineHandler + 2) * 6823) dpInlineHandler (headMust dpInlineHandler) 650 2384 (some (Char.ofNat 32)) fb2t4 = .inl (3034, (some (Char.ofNat 101)), fb2t5) := by rfl
theorem c2_dpInlineHandler_s6 : scanK ((reSize dpInlineHandler + 2) * 6823) dpInlineHandler (headMust dpInlineHandler) 650 3034 (some (Char.ofNat 101)) fb2t5 = .inl (3684, (some (Char.ofNat 101)), fb2t6) := by rfl
theorem c2_dpInlineHandler_s7 : scanK ((reSize dpInlineHandler + 2) * 6823) dpInlineHandler (headMust dpInlineHandler) 650 3684 (some (Char.ofNat 101)) fb2t6 = .inl (4334, (some (Char.ofNat 102)), fb2t7) := by rfl
theorem c2_dpInlineHandler_s8 : scanK ((reSize dpInlineHandler + 2) * 6823) dpInlineHandler (headMust dpInlineHandler) 650 4334 (some (Char.ofNat 102)) fb2t7 = .inl (4984, (some (Char.ofNat 32)), fb2t8) := by rfl
theorem c2_dpInlineHandler_s9 : scanK ((reSize dpInlineHandler + 2) * 6823) dpInlineHandler (headMust dpInlineHandler) 650 4984 (some (Char.ofNat 32)) fb2t8 = .inl (5634, (some (Char.ofNat 32)), fb2t9) := by rfl
theorem c2_dpInlineHandler_s10 : scanK ((reSize dpInlineHandler + 2) * 6823) dpInlineHandler (headMust dpInlineHandler) 650 5634 (some (Char.ofNat 32)) fb2t9 = .inl (6284, (some (Char.ofNat 97)), fb2t10) := by rfl
theorem c2_dpInlineHandler_sE : scanK ((reSize dpInlineHandler + 2) * 6823) dpInlineHandler (headMust dpInlineHandler) 538 6284 (some (Char.ofNat 97)) fb2t10 = .inr none := by rfl
theorem c2_dpInlineHandler_miss : testG dpInlineHandler (generateFallbackComponent gfEp) 0 = (false, 0) :=
  testG_gf_false dpInlineHandler ((scanKIL c2_dpInlineHandler_s0).trans ((scanKIL c2_dpInlineHandler_s1).trans ((scanKIL c2_dpInlineHandler_s2).trans ((scanKIL c2_dpInlineHandler_s3).trans ((scanKIL c2_dpInlineHandler_s4).trans ((scanKIL c2_dpInlineHandler_s5).trans ((scanKIL c2_dpInlineHandler_s6).trans ((scanKIL c2_dpInlineHandler_s7).trans ((scanKIL c2_dpInlineHandler_s8).trans ((scanKIL c2_dpInlineHandler_s9).trans ((scanKIL c2_dpInlineHandler_s10).trans (scanKIR c2_dpInlineHandler_sE))))))))))))

theorem c2_dpScriptTag_s0 : scanK ((reSize dpScriptTag + 2) * 6823) dpScriptTag (headMust dpScriptTag) 406 0 none (generateFallbackComponent gfEp) = .inl (406, (some (Char.ofNat 39)), (gfEp ++ fbTemplate2)) := by rfl
theorem c2_dpScriptTag_s1 : scanK ((reSize dpScriptTag + 2) * 6823) dpScriptTag (headMust dpScriptTag) 28 406 (some (Char.ofNat 39)) (gfEp ++ fbTemplate2) = .inl (434, (some (Char.ofNat 97)), fbTemplate2) := by rfl
theorem c2_dpScriptTag_s2 : scanK ((reSize dpScriptTag + 2) * 6823) dpScriptTag (headMust dpScriptTag) 650 434 (some (Char.ofNat 97)) fbTemplate2 = .inl (1084, (some (Char.ofNat 97)), fb2t2) := by rfl
theorem c2_dpScriptTag_s3 : scanK ((reSize dpScriptTag + 2) * 6823) dpScriptTag (headMust dpScriptTag) 650 1084 (some (Char.ofNat 97)) fb2t2 = .inl (1734, (some (Char.ofNat 98)), fb2t3) := by rfl
theorem c2_dpScriptTag_s4 : scanK ((reSize dpScriptTag + 2) * 6823) dpScriptTag (headMust dpScriptTag) 650 1734 (some (Char.ofNat 98)) fb2t3 = .inl (2384, (some (Char.ofNat 32)), fb2t4) := by rfl
theorem c2_dpScriptTag_s5 : scanK ((reSize dpScriptTag + 2) * 6823) dpScriptTag (headMust dpScriptTag) 650 2384 (some (Char.ofNat 32)) fb2t4 = .inl (3034, (some (Char.ofNat 101)), fb2t5) := by rfl
theorem c2_dpScriptTag_s6 : scanK ((reSize dpScriptTag + 2) * 6823) dpScriptTag (headMust dpScriptTag) 650 3034 (some (Char.ofNat 101)) fb2t5 = .inl (3684, (some (Char.ofNat 101)), fb2t6) := by rfl
theorem c2_dpScriptTag_s7 : scanK ((reSize dpScriptTag + 2) * 6823) dpScriptTag (headMust dpScriptTag) 650 3684 (some (Char.ofNat 101)) fb2t6 = .inl (4334, (some (Char.ofNat 102)), fb2t7) := by rfl
theorem c2_dpScriptTag_s8 : scanK ((reSize dpScriptTag + 2) * 6823) dpScriptTag (headMust dpScriptTag) 650 4334 (some (Char.ofNat 102)) fb2t7 = .inl (4984, (some (Char.ofNat 32)), fb2t8) := by rfl
theorem c2_dpScriptTag_s9 : scanK ((reSize dpScriptTag + 2) * 6823) dpScriptTag (headMust dpScriptTag) 650 4984 (some (Char.ofNat 32)) fb2t8 = .inl (5634, (some (Char.ofNat 32)), fb2t9) := by rfl
theorem c2_dpScriptTag_s10 : scanK ((reSize dpScriptTag + 2) * 6823) dpScriptTag (headMust dpScriptTag) 650 5634 (some (Char.ofNat 32)) fb2t9 = .inl (6284, (some (Char.ofNat 97)), fb2t10) := by rfl
theorem c2_dpScriptTag_sE : scanK ((reSize dpScriptTag + 2) * 6823) dpScriptTag (headMust dpScriptTag) 538 6284 (some (Char.ofNat 97)) fb2t10 = .inr none := by rfl
theorem c2_dpScriptTag_miss : testG dpScriptTag (generateFallbackComponent gfEp) 0 = (false, 0) :=
  testG_gf_false dpScriptTag ((scanKIL c2_dpScriptTag_s0).trans ((scanKIL c2_dpScriptTag_s1).trans ((scanKIL c2_dpScriptTag_s2).trans ((scanKIL c2_dpScriptTag_s3).trans ((scanKIL c2_dpScriptTag_s4).trans ((scanKIL c2_dpScriptTag_s5).trans ((scanKIL c2_dpScriptTag_s6).trans ((scanKIL c2_dpScriptTag_s7).trans ((scanKIL c2_dpScriptTag_s8).trans ((scanKIL c2_dpScriptTag_s9).trans ((scanKIL c2_dpScriptTag_s10).trans (scanKIR c2_dpScriptTag_sE))))))))))))

theorem c2_dpIframeTag_s0 : scanK ((reSize dpIframeTag + 2) * 6823) dpIframeTag (headMust dpIframeTag) 406 0 none (generateFallbackComponent gfEp) = .inl (406, (some (Char.ofNat 39)), (gfEp ++ fbTemplate2)) := by rfl
theorem c2_dpIframeTag_s1 : scanK ((reSize dpIframeTag + 2) * 6823) dpIframeTag (headMust dpIframeTag) 28 406 (some (Char.ofNat 39)) (gfEp ++ fbTemplate2) = .inl (434, (some (Char.ofNat 97)), fbTemplate2) := by rfl
theorem c2_dpIframeTag_s2 : scanK ((reSize dpIframeTag + 2) * 6823) dpIframeTag (headMust dpIframeTag) 650 434 (some (Char.ofNat 97)) fbTemplate2 = .inl (1084, (some (Char.ofNat 97)), fb2t2) := by rfl
theorem c2_dpIframeTag_s3 : scanK ((reSize dpIframeTag + 2) * 6823) dpIframeTag (headMust dpIframeTag) 650 1084 (some (Char.ofNat 97)) fb2t2 = .inl (1734, (some (Char.ofNat 98)), fb2t3) := by rfl
theorem c2_dpIframeTag_s4 : scanK ((reSize dpIframeTag + 2) * 6823) dpIframeTag (headMust dpIframeTag) 650 1734 (some (Char.ofNat 98)) fb2t3 = .inl (2384, (some (Char.ofNat 32)), fb2t4) := by rfl
theorem c2_dpIframeTag_s5 : scanK ((reSize dpIframeTag + 2) * 6823) dpIframeTag (headMust dpIframeTag) 650 2384 (some (Char.ofNat 32)) fb2t4 = .inl (3034, (some (Char.ofNat 101)), fb2t5) := by rfl
theorem c2_dpIframeTag_s6 : scanK ((reSize dpIframeTag + 2) * 6823) dpIframeTag (headMust dpIframeTag) 650 3034 (some (Char.ofNat 101)) fb2t5 = .inl (3684, (some (Char.ofNat 101)), fb2t6) := by rfl
theorem c2_dpIframeTag_s7 : scanK ((reSize dpIframeTag + 2) * 6823) dpIframeTag (headMust dpIframeTag) 650 3684 (some (Char.ofNat 101)) fb2t6 = .inl (4334, (some (Char.ofNat 102)), fb2t7) := by rfl
theorem c2_dpIframeTag_s8 : scanK ((reSize dpIframeTag + 2) * 6823) dpIframeTag (headMust dpIframeTag) 650 4334 (some (Char.ofNat 102)) fb2t7 = .inl (4984, (some (Char.ofNat 32)), fb2t8) := by rfl
theorem c2_dpIframeTag_s9 : scanK ((reSize dpIframeTag + 2) * 6823) dpIframeTag (headMust dpIframeTag) 650 4984 (some (Char.ofNat 32)) fb2t8 = .inl (5634, (some (Char.ofNat 32)), fb2t9) := by rfl
theorem c2_dpIframeTag_s10 : scanK ((reSize dpIframeTag + 2) * 6823) dpIframeTag (headMust dpIframeTag) 650 5634 (some (Char.ofNat 32)) fb2t9 = .inl (6284, (some (Char.ofNat 97)), fb2t10) := by rfl
theorem c2_dpIframeTag_sE : scanK ((reSize dpIframeTag + 2) * 6823) dpIframeTag (headMust dpIframeTag) 538 6284 (some (Char.ofNat 97)) fb2t10 = .inr none := by rfl
theorem c2_dpIframeTag_miss : testG dpIframeTag (generateFallbackComponent gfEp) 0 = (false, 0) :=
  testG_gf_false dpIframeTag ((scanKIL c2_dpIframeTag_s0).trans ((scanKIL c2_dpIframeTag_s1).trans ((scanKIL c2_dpIframeTag_s2).trans ((scanKIL c2_dpIframeTag_s3).trans ((scanKIL c2_dpIframeTag_s4).trans ((scanKIL c2_dpIframeTag_s5).trans ((scanKIL c2_dpIframeTag_s6).trans ((scanKIL c2_dpIframeTag_s7).trans ((scanKIL c2_dpIframeTag_s8).trans ((scanKIL c2_dpIframeTag_s9).trans ((scanKIL c2_dpIframeTag_s10).trans (scanKIR c2_dpIframeTag_sE))))))))))))

theorem c2_dpObjectTag_s0 : scanK ((reSize dpObjectTag + 2) * 6823) dpObjectTag (headMust dpObjectTag) 406 0 none (generateFallbackComponent gfEp) = .inl (406, (some (Char.ofNat 39)), (gfEp ++ fbTemplate2)) := by rfl
theorem c2_dpObjectTag_s1 : scanK ((reSize dpObjectTag + 2) * 6823) dpObjectTag (headMust dpObjectTag) 28 406 (some (Char.ofNat 39)) (gfEp ++ fbTemplate2) = .inl (434, (some (Char.ofNat 97)), fbTemplate2) := by rfl
theorem c2_dpObjectTag_s2 : scanK ((reSize dpObjectTag + 2) * 6823) dpObjectTag (headMust dpObjectTag) 650 434 (some (Char.ofNat 97)) fbTemplate2 = .inl (1084, (some (Char.ofNat 97)), fb2t2) := by rfl
theorem c2_dpObjectTag_s3 : scanK ((reSize dpObjectTag + 2) * 6823) dpObjectTag (headMust dpObjectTag) 650 1084 (some (Char.ofNat 97)) fb2t2 = .inl (1734, (some (Char.ofNat 98)), fb2t3) := by rfl
theorem c2_dpObjectTag_s4 : scanK ((reSize dpObjectTag + 2) * 6823) dpObjectTag (headMust dpObjectTag) 650 1734 (some (Char.ofNat 98)) fb2t3 = .inl (2384, (some (Char.ofNat 32)), fb2t4) := by rfl
theorem c2_dpObjectTag_s5 : scanK ((reSize dpObjectTag + 2) * 6823) dpObjectTag (headMust dpObjectTag) 650 2384 (some (Char.ofNat 32)) fb2t4 = .inl (3034, (some (Char.ofNat 101)), fb2t5) := by rfl
theorem c2_dpObjectTag_s6 : scanK ((reSize dpObjectTag + 2) * 6823) dpObjectTag (headMust dpObjectTag) 650 3034 (some (Char.ofNat 101)) fb2t5 = .inl (3684, (some (Char.ofNat 101)), fb2t6) := by rfl
theorem c2_dpObjectTag_s7 : scanK ((reSize dpObjectTag + 2) * 6823) dpObjectTag (headMust dpObjectTag) 650 3684 (some (Char.ofNat 101)) fb2t6 = .inl (4334, (some (Char.ofNat 102)), fb2t7) := by rfl
theorem c2_dpObjectTag_s8 : scanK ((reSize dpObjectTag + 2) * 6823) dpObjectTag (headMust dpObjectTag) 650 4334 (some (Char.ofNat 102)) fb2t7 = .inl (4984, (some (Char.ofNat 32)), fb2t8) := by rfl
theorem c2_dpObjectTag_s9 : scanK ((reSize dpObjectTag + 2) * 6823) dpObjectTag (headMust dpObjectTag) 650 4984 (some (Char.ofNat 32)) fb2t8 = .inl (5634, (some (Char.ofNat 32)), fb2t9) := by rfl
theorem c2_dpObjectTag_s10 : scanK ((reSize dpObjectTag + 2) * 6823) dpObjectTag (headMust dpObjectTag) 650 5634 (some (Char.ofNat 32)) fb2t9 = .inl (6284, (some (Char.ofNat 97)), fb2t10) := by rfl
theorem c2_dpObjectTag_sE : scanK ((reSize dpObjectTag + 2) * 6823) dpObjectTag (headMust dpObjectTag) 538 6284 (some (Char.ofNat 97)) fb2t10 = .inr none := by rfl
theorem c2_dpObjectTag_miss : testG dpObjectTag (generateFallbackComponent gfEp) 0 = (false, 0) :=
  testG_gf_false dpObjectTag ((scanKIL c2_dpObjectTag_s0).trans ((scanKIL c2_dpObjectTag_s1).trans ((scanKIL c2_dpObjectTag_s2).trans ((scanKIL c2_dpObjectTag_s3).trans ((scanKIL c2_dpObjectTag_s4).trans ((scanKIL c2_dpObjectTag_s5).trans ((scanKIL c2_dpObjectTag_s6).trans ((scanKIL c2_dpObjectTag_s7).trans ((scanKIL c2_dpObjectTag_s8).trans ((scanKIL c2_dpObjectTag_s9).trans ((scanKIL c2_dpObjectTag_s10).trans (scanKIR c2_dpObjectTag_sE))))))))))))

theorem c2_dpEmbedTag_s0 : scanK ((reSize dpEmbedTag + 2) * 6823) dpEmbedTag (headMust dpEmbedTag) 406 0 none (generateFallbackComponent gfEp) = .inl (406, (some (Char.ofNat 39)), (gfEp ++ fbTemplate2)) := by rfl
theorem c2_dpEmbedTag_s1 : scanK ((reSize dpEmbedTag + 2) * 6823) dpEmbedTag (headMust dpEmbedTag) 28 406 (some (Char.ofNat 39)) (gfEp ++ fbTemplate2) = .inl (434, (some (Char.ofNat 97)), fbTemplate2) := by rfl
theorem c2_dpEmbedTag_s2 : scanK ((reSize dpEmbedTag + 2) * 6823) dpEmbedTag (headMust dpEmbedTag) 650 434 (some (Char.ofNat 97)) fbTemplate2 = .inl (1084, (some (Char.ofNat 97)), fb2t2) := by rfl
theorem c2_dpEmbedTag_s3 : scanK ((reSize dpEmbedTag + 2) * 6823) dpEmbedTag (headMust dpEmbedTag) 650 1084 (some (Char.ofNat 97)) fb2t2 = .inl (1734, (some (Char.ofNat 98)), fb2t3) := by rfl
theorem c2_dpEmbedTag_s4 : scanK ((reSize dpEmbedTag + 2) * 6823) dpEmbedTag (headMust dpEmbedTag) 650 1734 (some (Char.ofNat 98)) fb2t3 = .inl (2384, (some (Char.ofNat 32)), fb2t4) := by rfl
theorem c2_dpEmbedTag_s5 : scanK ((reSize dpEmbedTag + 2) * 6823) dpEmbedTag (headMust dpEmbedTag) 650 2384 (some (Char.ofNat 32)) fb2t4 = .inl (3034, (some (Char.ofNat 101)), fb2t5) := by rfl
theorem c2_dpEmbedTag_s6 : scanK ((reSize dpEmbedTag + 2) * 6823) dpEmbedTag (headMust dpEmbedTag) 650 3034 (some (Char.ofNat 101)) fb2t5 = .inl (3684, (some (Char.ofNat 101)), fb2t6) := by rfl
theorem c2_dpEmbedTag_s7 : scanK ((reSize dpEmbedTag + 2) * 6823) dpEmbedTag (headMust dpEmbedTag) 650 3684 (some (Char.ofNat 101)) fb2t6 = .inl (4334, (some (Char.ofNat 102)), fb2t7) := by rfl
theorem c2_dpEmbedTag_s8 : scanK ((reSize dpEmbedTag + 2) * 6823) dpEmbedTag (headMust dpEmbedTag) 650 4334 (some (Char.ofNat 102)) fb2t7 = .inl (4984, (some (Char.ofNat 32)), fb2t8) := by rfl
theorem c2_dpEmbedTag_s9 : scanK ((reSize dpEmbedTag + 2) * 6823) dpEmbedTag (headMust dpEmbedTag) 650 4984 (some (Char.ofNat 32)) fb2t8 = .inl (5634, (some (Char.ofNat 32)), fb2t9) := by rfl
theorem c2_dpEmbedTag_s10 : scanK ((reSize dpEmbedTag + 2) * 6823) dpEmbedTag (headMust dpEmbedTag) 650 5634 (some (Char.ofNat 32)) fb2t9 = .inl (6284, (some (Char.ofNat 97)), fb2t10) := by rfl
theorem c2_dpEmbedTag_sE : scanK ((reSize dpEmbedTag + 2) * 6823) dpEmbedTag (headMust dpEmbedTag) 538 6284 (some (Char.ofNat 97)) fb2t10 = .inr none := by rfl
theorem c2_dpEmbedTag_miss : testG dpEmbedTag (generateFallbackComponent gfEp) 0 = (false, 0) :=
  testG_gf_false dpEmbedTag ((scanKIL c2_dpEmbedTag_s0).trans ((scanKIL c2_dpEmbedTag_s1).trans ((scanKIL c2_dpEmbedTag_s2).trans ((scanKIL c2_dpEmbedTag_s3).trans ((scanKIL c2_dpEmbedTag_s4).trans ((scanKIL c2_dpEmbedTag_s5).trans ((scanKIL c2_dpEmbedTag_s6).trans ((scanKIL c2_dpEmbedTag_s7).trans ((scanKIL c2_dpEmbedTag_s8).trans ((scanKIL c2_dpEmbedTag_s9).trans ((scanKIL c2_dpEmbedTag_s10).trans (scanKIR c2_dpEmbedTag_sE))))))))))))

theorem c2_rq1 : testP rqFunctionDecl (generateFallbackComponent gfEp) = true :=
  testP_gf_true rqFunctionDecl rfl (by rfl)

theorem c2_rqReturn_s0 : scanK ((reSize rqReturn + 2) * 6823) rqReturn (headMust rqReturn) 406 0 none (generateFallbackComponent gfEp) = .inl (406, (some (Char.ofNat 39)), (gfEp ++ fbTemplate2)) := by rfl
theorem c2_rqReturn_s1 : scanK ((reSize rqReturn + 2) * 6823) rqReturn (headMust rqReturn) 28 406 (some (Char.ofNat 39)) (gfEp ++ fbTemplate2) = .inl (434, (some (Char.ofNat 97)), fbTemplate2) := by rfl
theorem c2_rqReturn_s2 : scanK ((reSize rqReturn + 2) * 6823) rqReturn (headMust rqReturn) 650 434 (some (Char.ofNat 97)) fbTemplate2 = .inl (1084, (some (Char.ofNat 97)), fb2t2) := by rfl
theorem c2_rqReturn_s3 : scanK ((reSize rqReturn + 2) * 6823) rqReturn (headMust rqReturn) 650 1084 (some (Char.ofNat 97)) fb2t2 = .inl (1734, (some (Char.ofNat 98)), fb2t3) := by rfl
theorem c2_rq2 : testP rqReturn (generateFallbackComponent gfEp) = true :=
  testP_gf_true rqReturn ((((scanKIL c2_rqReturn_s0).trans (scanKIL c2_rqReturn_s1)).trans (scanKIL c2_rqReturn_s2)).trans (scanKIL c2_rqReturn_s3)) (by rfl)

theorem c2_open_s0 : countK ((reSize openTagRE + 2) * 6823) openTagRE (headMust openTagRE) 406 0 6822 none (generateFallbackComponent gfEp) = .inl (0, 6416, (some (Char.ofNat 39)), (gfEp ++ fbTemplate2)) := by rfl
theorem c2_open_s1 : countK ((reSize openTagRE + 2) * 6823) openTagRE (headMust openTagRE) 28 0 6416 (some (Char.ofNat 39)) (gfEp ++ fbTemplate2) = .inl (0, 6388, (some (Char.ofNat 97)), fbTemplate2) := by rfl
theorem c2_open_s2 : countK ((reSize openTagRE + 2) * 6823) openTagRE (headMust openTagRE) 650 0 6388 (some (Char.ofNat 97)) fbTemplate2 = .inl (0, 5738, (some (Char.ofNat 97)), fb2t2) := by rfl
theorem c2_open_s3 : countK ((reSize openTagRE + 2) * 6823) openTagRE (headMust openTagRE) 650 0 5738 (some (Char.ofNat 97)) fb2t2 = .inl (0, 5088, (some (Char.ofNat 98)), fb2t3) := by rfl
theorem c2_open_s4 : countK ((reSize openTagRE + 2) * 6823) openTagRE (headMust openTagRE) 498 0 5088 (some (Char.ofNat 98)) fb2t3 = .inl (3, 4590, (some (Char.ofNat 32)), fb2t4) := by rfl
theorem c2_open_s5 : countK ((reSize openTagRE + 2) * 6823) openTagRE (headMust openTagRE) 254 3 4590 (some (Char.ofNat 32)) fb2t4 = .inl (9, 4336, (some (Char.ofNat 101)), fb2t5) := by rfl
theorem c2_open_s6 : countK ((reSize openTagRE + 2) * 6823) openTagRE (headMust openTagRE) 401 9 4336 (some (Char.ofNat 101)) fb2t5 = .inl (13, 3935, (some (Char.ofNat 101)), fb2t6) := by rfl
theorem c2_open_s7 : countK ((reSize openTagRE + 2) * 6823) openTagRE (headMust openTagRE) 472 13 3935 (some (Char.ofNat 101)) fb2t6 = .inl (17, 3463, (some (Char.ofNat 102)), fb2t7) := by rfl
theorem c2_open_s8 : countK ((reSize openTagRE + 2) * 6823) openTagRE (headMust openTagRE) 417 17 3463 (some (Char.ofNat 102)) fb2t7 = .inl (20, 3046, (some (Char.ofNat 32)), fb2t8) := by rfl
theorem c2_open_s9 : countK ((reSize openTagRE + 2) * 6823) openTagRE (headMust openTagRE) 519 20 3046 (some (Char.ofNat 32)) fb2t8 = .inl (23, 2527, (some (Char.ofNat 32)), fb2t9) := by rfl
theorem c2_open_sE : countK ((reSize openTagRE + 2) * 6823) openTagRE (headMust openTagRE) 756 23 2527 (some (Char.ofNat 32)) fb2t9 = .inr 32 := by rfl
theorem c2_open_count : countM openTagRE none (generateFallbackComponent gfEp) = 32 :=
  countM_gf openTagRE ((countKIL c2_open_s0).trans ((countKIL c2_open_s1).trans ((countKIL c2_open_s2).trans ((countKIL c2_open_s3).trans ((countKIL c2_open_s4).trans ((countKIL c2_open_s5).trans ((countKIL c2_open_s6).trans ((countKIL c2_open_s7).trans ((countKIL c2_open_s8).trans ((countKIL c2_open_s9).trans (countKIR c2_open_sE)))))))))))

theorem c2_close_s0 : countK ((reSize closeTagRE + 2) * 6823) closeTagRE (headMust closeTagRE) 406 0 6822 none (generateFallbackComponent gfEp) = .inl (0, 6416, (some (Char.ofNat 39)), (gfEp ++ fbTemplate2)) := by rfl
theorem c2_close_s1 : countK ((reSize closeTagRE + 2) * 6823) closeTagRE (headMust closeTagRE) 28 0 6416 (some (Char.ofNat 39)) (gfEp ++ fbTemplate2) = .inl (0, 6388, (some (Char.ofNat 97)), fbTemplate2) := by rfl
theorem c2_close_s2 : countK ((reSize closeTagRE + 2) * 6823) closeTagRE (headMust closeTagRE) 650 0 6388 (some (Char.ofNat 97)) fbTemplate2 = .inl (0, 5738, (some (Char.ofNat 97)), fb2t2) := by rfl
theorem c2_close_s3 : countK ((reSize closeTagRE + 2) * 6823) closeTagRE (headMust closeTagRE) 650 0 5738 (some (Char.ofNat 97)) fb2t2 = .inl (0, 5088, (some (Char.ofNat 98)), fb2t3) := by rfl
theorem c2_close_s4 : countK ((reSize closeTagRE + 2) * 6823) closeTagRE (headMust closeTagRE) 634 0 5088 (some (Char.ofNat 98)) fb2t3 = .inl (3, 4454, (some (Char.ofNat 32)), fb2t4) := by rfl
theorem c2_close_s5 : countK ((reSize closeTagRE + 2) * 6823) closeTagRE (headMust closeTagRE) 634 3 4454 (some (Char.ofNat 32)) fb2t4 = .inl (7, 3820, (some (Char.ofNat 101)), fb2t5) := by rfl
theorem c2_close_s6 : countK ((reSize closeTagRE + 2) * 6823) closeTagRE (headMust closeTagRE) 646 7 3820 (some (Char.ofNat 101)) fb2t5 = .inl (8, 3174, (some (Char.ofNat 101)), fb2t6) := by rfl
theorem c2_close_s7 : countK ((reSize closeTagRE + 2) * 6823) closeTagRE (headMust closeTagRE) 637 8 3174 (some (Char.ofNat 101)) fb2t6 = .inl (12, 2537, (some (Char.ofNat 102)), fb2t7) := by rfl
theorem c2_close_s8 : countK ((reSize closeTagRE + 2) * 6823) closeTagRE (headMust closeTagRE) 627 12 2537 (some (Char.ofNat 102)) fb2t7 = .inl (16, 1910, (some (Char.ofNat 32)), fb2t8) := by rfl
theorem c2_close_s9 : countK ((reSize closeTagRE + 2) * 6823) closeTagRE (headMust closeTagRE) 635 16 1910 (some (Char.ofNat 32)) fb2t8 = .inl (19, 1275, (some (Char.ofNat 32)), fb2t9) := by rfl
theorem c2_close_s10 : countK ((reSize closeTagRE + 2) * 6823) closeTagRE (headMust closeTagRE) 628 19 1275 (some (Char.ofNat 32)) fb2t9 = .inl (25, 647, (some (Char.ofNat 97)), fb2t10) := by rfl
theorem c2_close_sE : countK ((reSize closeTagRE + 2) * 6823) closeTagRE (headMust closeTagRE) 504 25 647 (some (Char.ofNat 97)) fb2t10 = .inr 32 := by rfl
theorem c2_close_count : countM closeTagRE none (generateFallbackComponent gfEp) = 32 :=
  countM_gf closeTagRE ((countKIL c2_close_s0).trans ((countKIL c2_close_s1).trans ((countKIL c2_close_s2).trans ((countKIL c2_close_s3).trans ((countKIL c2_close_s4).trans ((countKIL c2_close_s5).trans ((countKIL c2_close_s6).trans ((countKIL c2_close_s7).trans ((countKIL c2_close_s8).trans ((countKIL c2_close_s9).trans ((countKIL c2_close_s10).trans (countKIR c2_close_sE))))))))))))

/-- The mandatory component name occurs (at position 0) in the fallback. -/
theorem c2_name : containsL ("function GeneratedDataComponent".data)
    (generateFallbackComponent gfEp) = true := by rfl


/-- `runDangerous` on a fresh (all-zero `lastIndex`) state where every
pattern misses: no errors, and every `lastIndex` is reset to zero. -/
theorem runDangerous_allmiss (code : List Char) :
    ∀ (ps : List (String × RE)) (st : List Nat),
      (∀ sr ∈ ps, testG sr.2 code 0 = (false, 0)) →
      (∀ x ∈ st, x = 0) →
      runDangerous ps st code = ([], List.replicate ps.length 0) := by
  intro ps
  induction ps with
  | nil =>
    intro st h1 h2
    rfl
  | cons p ps ih =>
    intro st h1 h2
    obtain ⟨src, re⟩ := p
    have hh : st.headD 0 = 0 := by
      cases st with
      | nil => rfl
      | cons a t => exact h2 a (List.mem_cons_self a t)
    have ht : ∀ x ∈ st.tail, x = 0 := fun x hx => h2 x (List.mem_of_mem_tail hx)
    have h1h := h1 (src, re) (List.mem_cons_self (src, re) ps)
    have h1t : ∀ sr ∈ ps, testG sr.2 code 0 = (false, 0) :=
      fun sr hs => h1 sr (List.mem_cons_of_mem (src, re) hs)
    simp only [runDangerous]
    rw [hh, h1h, ih st.tail h1t ht]
    simp [List.replicate_succ]

/-- `runRequired` on input where every required pattern hits: no errors. -/
theorem runRequired_allpass (code : List Char) :
    ∀ ps : List (String × RE),
      (∀ sr ∈ ps, testP sr.2 code = true) →
      runRequired ps code = [] := by
  intro ps
  induction ps with
  | nil =>
    intro h
    rfl
  | cons p ps ih =>
    intro h
    obtain ⟨src, re⟩ := p
    have h1 := h (src, re) (List.mem_cons_self (src, re) ps)
    simp only [runRequired]
    rw [if_pos h1, List.nil_append]
    exact ih (fun sr hs => h sr (List.mem_cons_of_mem (src, re) hs))

/-- Every dangerous pattern misses on the generated fallback component. -/
theorem c2_all_dangerous_miss :
    ∀ sr ∈ dangerousPatterns,
      testG sr.2 (generateFallbackComponent gfEp) 0 = (false, 0) := by
  intro sr hsr
  simp only [dangerousPatterns, List.mem_cons, List.not_mem_nil, or_false] at hsr
  rcases hsr with rfl | rfl | rfl | rfl | rfl | rfl | rfl | rfl | rfl | rfl | rfl | rfl | rfl | rfl | rfl | rfl | rfl | rfl | rfl | rfl | rfl | rfl | rfl | rfl | rfl | rfl | rfl | rfl | rfl | rfl | rfl | rfl | rfl
  · exact c2_dpEval_miss
  · exact c2_dpFunction_miss
  · exact c2_dpSetTimeout_miss
  · exact c2_dpSetInterval_miss
  · exact c2_dpDocumentWrite_miss
  · exact c2_dpDocumentCookie_miss
  · exact c2_dpWindowOpen_miss
  · exact c2_dpGlobal_miss
  · exact c2_dpProcess_miss
  · exact c2_dpRequire_miss
  · exact c2_dpXMLHttpRequest_miss
  · exact c2_dpLocalStorage_miss
  · exact c2_dpSessionStorage_miss
  · exact c2_dpIndexedDB_miss
  · exact c2_dpNavigatorGeolocation_miss
  · exact c2_dpDirname_miss
  · exact c2_dpFilename_miss
  · exact c2_dpFs_miss
  · exact c2_dpPath_miss
  · exact c2_dpOs_miss
  · exact c2_dpCrypto_miss
  · exact c2_dpChildProcess_miss
  · exact c2_dpInnerHTML_miss
  · exact c2_dpOuterHTML_miss
  · exact c2_dpDangerouslySetInnerHTML_miss
  · exact c2_dpJavascriptScheme_miss
  · exact c2_dpVbscriptScheme_miss
  · exact c2_dpDataScheme_miss
  · exact c2_dpInlineHandler_miss
  · exact c2_dpScriptTag_miss
  · exact c2_dpIframeTag_miss
  · exact c2_dpObjectTag_miss
  · exact c2_dpEmbedTag_miss

/-- Both required patterns hit on the generated fallback component. -/
theorem c2_all_required_pass :
    ∀ sr ∈ requiredPatterns,
      testP sr.2 (generateFallbackComponent gfEp) = true := by
  intro sr hsr
  simp only [requiredPatterns, List.mem_cons, List.not_mem_nil, or_false] at hsr
  rcases hsr with rfl | rfl
  · exact c2_rq1
  · exact c2_rq2

/-- C2 (corrected): the output of `generateFallbackComponent` (instantiated
at a representative endpoint) passes the validator, but the static
`FALLBACK_COMPONENT` does not — its `require('react')` call trips the
denylisted `require\s*\(` pattern, which appears in its error list. -/
theorem C2_fallback_validation :
    (validateComponentCode (generateFallbackComponent gfEp) freshRegexState).1.isValid
      = true ∧
    "Dangerous pattern detected: require\\s*\\(" ∈
      (validateComponentCode FALLBACK_COMPONENT freshRegexState).1.errors := by
  constructor
  · have hD := runDangerous_allmiss (generateFallbackComponent gfEp)
      dangerousPatterns freshRegexState c2_all_dangerous_miss (by decide)
    have hR := runRequired_allpass (generateFallbackComponent gfEp)
      requiredPatterns c2_all_required_pass
    simp only [validateComponentCode]
    rw [hD, hR, c2_open_count, c2_close_count, c2_name]
    decide
  · decide


end Morph
